import Mathlib

/-!
# PadelBooking: the booking page controller (`static/js/booking.js`)

A shallow embedding of the client-side booking workflow: calendar navigation,
court selection, slot loading and bucketing, duration choice, the availability
re-check and the confirmation surface.

Conventions of the embedding.

* The module-level `let` variables of `booking.js` and the parts of the DOM the
  handlers read or write are the fields of `State`.
* Which of the navigation elements exist, and the layout flag, are the fields
  of `Page`; they never change.
* `new Date()` is an explicit argument `today`.
* A `fetch` appends a request to `State.log`; the promise continuation is a
  separate function that takes the outcome of the request.
* `Event`, `step` and `run` put the handlers together: a run is a sequence of
  clicks and ends of requests.
* Prices and durations are natural numbers.
-/

namespace PadelBooking

/-! ## JavaScript `Date`, in local time -/

/-- A JavaScript `Date` read in local time: the calendar day (counted from
1970-01-01) and the milliseconds elapsed since local midnight. -/
structure JsDate where
  day : Int
  msOfDay : Nat
deriving DecidableEq, Repr

namespace JsDate

/-- Milliseconds in a day. -/
def msPerDay : Int := 86400000

/-- The method `getTime()`, as a local time stamp: the milliseconds from local
midnight of 1970-01-01. The code's `getTime()` counts from the UTC epoch, so
the two differ by the zone offset of the moment; the order of two stamps is
the same in both, and this development only compares stamps. -/
def getTime (d : JsDate) : Int := d.day * msPerDay + d.msOfDay

/-- The method `getDay()`: 0 is Sunday, 6 is Saturday (1970-01-01 was a Thursday). -/
def getDay (d : JsDate) : Int := (d.day + 4) % 7

/-- Gregorian calendar date `(year, month, dayOfMonth)` of a day number, with
`month` in `1..12`. -/
def civil (z0 : Int) : Int × Int × Int :=
  let z := z0 + 719468
  let era := z / 146097
  let doe := z - era * 146097
  let yoe := (doe - doe / 1460 + doe / 36524 - doe / 146096) / 365
  let doy := doe - (365 * yoe + yoe / 4 - yoe / 100)
  let mp := (5 * doy + 2) / 153
  let d := doy - (153 * mp + 2) / 5 + 1
  let m := if mp < 10 then mp + 3 else mp - 9
  let y := yoe + era * 400 + (if m ≤ 2 then 1 else 0)
  (y, m, d)

/-- The method `getFullYear()`. -/
def getFullYear (d : JsDate) : Int := (civil d.day).1

/-- The method `getMonth()`: 0 is January. -/
def getMonth (d : JsDate) : Int := (civil d.day).2.1 - 1

/-- The method `getDate()`: the day of the month, from 1. -/
def getDate (d : JsDate) : Int := (civil d.day).2.2

/-- The method `setDate(n)`: day `n` of the month of `d`, where `n` may lie
outside the month (day 0 is the last day of the previous month, and so on);
the time of day is kept. -/
def setDate (d : JsDate) (n : Int) : JsDate :=
  { d with day := (d.day - d.getDate + 1) + (n - 1) }

end JsDate

/-! ## Strings -/

/-- The call `String(n).padStart(2, '0')` for a natural number `n`. -/
def padStart2 (n : Nat) : String :=
  let s := toString n
  if s.length < 2 then String.mk (List.replicate (2 - s.length) '0') ++ s else s

/-- The call `String(n).padStart(2, '0')` for an integer `n`. -/
def padStart2Int (n : Int) : String :=
  let s := toString n
  if s.length < 2 then String.mk (List.replicate (2 - s.length) '0') ++ s else s

/-- Pieces of a character list between occurrences of `sep`, as `split(sep)`
gives them for a one-character separator. -/
def splitOnChar (sep : Char) : List Char → List (List Char)
  | [] => [[]]
  | c :: cs =>
    if c = sep then [] :: splitOnChar sep cs
    else
      match splitOnChar sep cs with
      | [] => [[c]]
      | f :: fs => (c :: f) :: fs

/-- Value of a decimal digit character. -/
def digitValue (c : Char) : Option Nat :=
  if '0' ≤ c ∧ c ≤ '9' then some (c.toNat - '0'.toNat) else none

/-- Value of a list of decimal digits, continuing from `acc`. -/
def digitsValue : Nat → List Char → Option Nat
  | acc, [] => some acc
  | acc, c :: cs =>
    match digitValue c with
    | some v => digitsValue (10 * acc + v) cs
    | none => none

/-- The constant `Number.MAX_SAFE_INTEGER`, 2^53 - 1: up to it every natural
number is a `Number`, sums are exact and `String(n)` is the decimal numeral. -/
def MAX_SAFE_INTEGER : Nat := 9007199254740991

/-- The conversion `Number(s)` on the strings this development covers: a
string of decimal digits has its decimal value and the empty string is 0.
The result is `none` for every other string, which is not covered. The value
is the one `Number` gives as long as it is at most `MAX_SAFE_INTEGER`. -/
def jsNumber (s : List Char) : Option Nat := digitsValue 0 s

/-- Truthiness of a value that is `null`/`undefined` or a string. -/
def truthy (v : Option String) : Bool :=
  match v with
  | some s => s != ""
  | none => false

/-- The expression `v || dflt` for a value that is absent or a string. -/
def orDefault (v : Option String) (dflt : String) : String :=
  match v with
  | some s => if s = "" then dflt else s
  | none => dflt

/-! ## Formatting of dates -/

/-- The function `formatDate`: the key `YYYY-MM-DD`. -/
def formatDate (date : JsDate) : String :=
  let year := date.getFullYear
  let month := padStart2Int (date.getMonth + 1)
  let day := padStart2Int date.getDate
  toString year ++ "-" ++ month ++ "-" ++ day

/-- The function `formatWeekday`. -/
def formatWeekday (date : JsDate) : String :=
  let day := date.getDay
  let weekdays := ["вс", "пн", "вт", "ср", "чт", "пт", "сб"]
  weekdays.getD day.toNat ""

/-- The function `formatDisplayDate`: `D.M.YYYY`. -/
def formatDisplayDate (date : JsDate) : String :=
  let day := date.getDate
  let month := date.getMonth + 1
  let year := date.getFullYear
  toString day ++ "." ++ toString month ++ "." ++ toString year

/-- The function `getWeekStartDate`. -/
def getWeekStartDate (date : JsDate) : JsDate :=
  let day := date.getDay
  let diff := date.getDate - day + (if day = 0 then -6 else 1)
  let result := date
  result.setDate diff

/-- The function `calculateEndTime`. The result is `none` when the hour field
of `startTime` is outside the strings covered by `jsNumber`, and when the end
hour is above `MAX_SAFE_INTEGER`, where the sum and its text are those of
floating-point numbers and are not covered. -/
def calculateEndTime (startTime : String) (hours : Nat) : Option String :=
  match ((splitOnChar ':' startTime.data).map jsNumber).head? with
  | some (some startHour) =>
    let endHour := startHour + hours
    if endHour ≤ MAX_SAFE_INTEGER then some (padStart2 endHour ++ ":00") else none
  | _ => none

/-! ## Page, DOM and controller state -/

/-- The elements `booking.js` looks up once when the page has loaded, and the
layout flag derived from them. -/
structure Page where
  /-- Holds when `#courts-horizontal-list` exists. -/
  isNewLayout : Bool
  /-- Holds when `#week-nav` exists. -/
  weekNav : Bool
  /-- Holds when `#prev-week` exists. -/
  prevWeekBtn : Bool
  /-- Holds when `#next-week` exists. -/
  nextWeekBtn : Bool
  /-- Holds when `.month-header` exists. -/
  monthHeader : Bool
  /-- Holds when `#confirm-booking-btn` exists. -/
  confirmBookingBtn : Bool
deriving DecidableEq, Repr

/-- A court element of the court list (`.court-horizontal-item` or `.court-item`). -/
structure CourtEl where
  /-- The attribute `data-court-id`. -/
  courtId : String
  /-- Numeric value of the attribute `data-court-price`. -/
  courtPrice : Nat
  /-- Text of the `h4` child. -/
  name : String
  /-- Holds when the element carries class `active`. -/
  active : Bool := false
deriving DecidableEq, Repr

/-- A day cell `.week-day` of the rendered week. -/
structure DayCell where
  date : JsDate
  /-- The attribute `data-date`. -/
  dataDate : String
  weekday : String
  daynum : Int
  /-- Holds when the cell carries class `today`. -/
  today : Bool
  /-- Holds when the cell carries class `selected`. -/
  selected : Bool := false
deriving DecidableEq, Repr

/-- An item of the slot list sent by the server: a free slot, or (with
`type = "partner_booking"`) an open booking that looks for partners. -/
structure SlotItem where
  type : Option String := none
  start_time : String
  end_time : String
  hour : Int
  booking_id : Nat := 0
  creator_name : String := ""
  creator_rating : Option String := none
  current_players : Nat := 0
  max_players : Nat := 0
  price_per_person : Nat := 0
  required_rating : Option String := none
  can_join : Bool := false
  join_message : Option String := none
deriving DecidableEq, Repr

/-- A rendered element of a slot grid. -/
inductive SlotElement where
  /-- Result of `createFreeSlotElement`: `card` tells class `time-slot-card`
  from class `time-slot`; `courtPrice` and `courtName` are the values the
  click handler has closed over. -/
  | free (card : Bool) (startTime endTime : String) (hour : Int)
      (courtPrice : Nat) (courtName : String) (selected : Bool)
  /-- Result of `createPartnerBookingElement`: `joinButton` tells whether the
  card has a `.join-partner-btn` with a click handler; `notice` is the text
  shown in its place otherwise. -/
  | partner (bookingId : Nat) (startTime endTime : String) (hour : Int)
      (joinButton : Bool) (notice : Option String)
deriving DecidableEq, Repr

/-- Names of the three time-of-day sections. -/
inductive SectionName where
  | morning
  | day
  | evening
deriving DecidableEq, Repr

/-- What a section element `#<name>-slots` holds. -/
inductive SectionContent where
  /-- Markup of the page template, untouched so far. -/
  | template
  /-- Spinner written by `loadTimeSlots`. -/
  | loading
  /-- The `.error-message` block written by `showTimeSlotsMessage`. -/
  | message (text : String)
  /-- Placeholder written by `renderTimeSection` for a section without items:
  "Нет доступных слотов в это время". -/
  | noSlots
  /-- The `.time-slots-grid` written by `renderTimeSection`. -/
  | grid (elements : List SlotElement)
deriving DecidableEq, Repr

/-- A section element `#<name>-slots`. -/
structure SectionEl where
  /-- Holds when the element carries class `section-content`. -/
  sectionContent : Bool
  content : SectionContent
deriving DecidableEq, Repr

/-- What the element `#time-slots` holds. -/
inductive TimeSlotsContent where
  /-- Markup of the page template, untouched so far. -/
  | template
  /-- Prompt "Выберите корт, чтобы увидеть доступное время" written by a day click. -/
  | selectCourt
  /-- The `.error-message` block written by `showTimeSlotsMessage`. -/
  | message (text : String)
  /-- Spinner "Проверка доступности..." written by `checkExtendedAvailability`. -/
  | checking
deriving DecidableEq, Repr

/-- The variable `selectedTimeSlot`. -/
structure TimeSlot where
  startTime : String
  endTime : String
  hour : Int
deriving DecidableEq, Repr

/-- The block `#selected-time-info` of the section-based layout. -/
structure SelectedTimeInfo where
  visible : Bool
  court : String
  date : String
  time : String
  price : String
deriving DecidableEq, Repr

/-- The duration selector `.duration-modal` of the legacy layout, with the
values its click handlers have closed over and the three options it offers
(label of the price, label of the time range; the latter is `none` where
`calculateEndTime` is). -/
structure DurationModal where
  startTime : String
  courtPrice : Nat
  courtName : String
  option1 : String × Option String
  option2 : String × Option String
  option3 : String × Option String
deriving DecidableEq, Repr

/-- The confirmation surface `#bookingConfirmModal` with its form `#booking-form`. -/
structure ConfirmModal where
  /-- Holds when the element was built by `createDynamicBookingModal`. -/
  dynamic : Bool
  visible : Bool
  courtName : String
  date : String
  time : String
  price : String
  formCourtId : String
  formDate : String
  formStartTime : String
  formEndTime : String
  /-- Value of the input `duration`; `none` when the form has no such input. -/
  formDuration : Option String
deriving DecidableEq, Repr

/-- Body of the request to `/booking/check-availability/`, with the arguments
of `checkExtendedAvailability` that its continuation has closed over. -/
structure CheckRequest where
  court_id : Option String
  date : String
  start_time : String
  duration : Nat
  endTime : String
  courtPrice : Nat
  courtName : String
deriving DecidableEq, Repr

/-- Effects of the controller outside the modelled DOM. -/
inductive Effect where
  /-- A run of `renderWeek` that rebuilt the week strip. -/
  | renderWeek (startDate : JsDate)
  /-- The request `GET /booking/available-slots/?court=..&date=..`. -/
  | fetchSlots (courtId dateStr : String)
  /-- The request `POST /booking/check-availability/`. -/
  | fetchCheck (req : CheckRequest)
  /-- A call of `window.alert`. -/
  | alert (text : String)
  /-- A call of `console.log` that stands in for a message to the user. -/
  | consoleLog (text : String)
deriving DecidableEq, Repr

/-- Errors thrown by the script. -/
inductive JsError where
  /-- The call stack is exhausted ("Maximum call stack size exceeded"). -/
  | stackOverflow
  /-- A property of `null` was written. -/
  | typeError
deriving DecidableEq, Repr

/-- Why a run of a handler has no final state. -/
inductive Halt where
  /-- The handler threw `e` and nothing caught it. -/
  | thrown (e : JsError)
  /-- The run depends on a value outside the strings covered by `jsNumber`. -/
  | unmodelled
deriving DecidableEq, Repr

/-- The module-level variables of `booking.js` with the part of the DOM its
handlers read and write. -/
structure State where
  selectedDate : JsDate
  selectedCourt : Option String := none
  selectedCourtPrice : Option Nat := none
  selectedCourtName : Option String := none
  currentWeekStart : Option JsDate := none
  currentWeekIndex : Int := 0
  selectedTimeSlot : Option TimeSlot := none
  selectedDuration : Nat := 1
  /-- The `.week-day` cells inside `#week-nav`. -/
  weekDays : List DayCell := []
  /-- The property `disabled` of `#prev-week`. -/
  prevDisabled : Bool := false
  /-- The court elements, in document order. -/
  courts : List CourtEl := []
  /-- The element `#morning-slots`, when the page has one. -/
  morningSlots : Option SectionEl := none
  /-- The element `#day-slots`, when the page has one. -/
  daySlots : Option SectionEl := none
  /-- The element `#evening-slots`, when the page has one. -/
  eveningSlots : Option SectionEl := none
  /-- The element `#time-slots`, when the page has one. -/
  timeSlots : Option TimeSlotsContent := none
  /-- The element `#selected-time-info`, when the page has one. -/
  selectedTimeInfo : Option SelectedTimeInfo := none
  /-- The open `.duration-modal`, if any. -/
  durationModal : Option DurationModal := none
  /-- The element `#bookingConfirmModal`, when the document has one. -/
  bookingConfirmModal : Option ConfirmModal := none
  /-- Effects so far, oldest first. -/
  log : List Effect := []
deriving DecidableEq, Repr

/-- State of the script right after its variable declarations, for a page
whose template provides the given DOM. -/
def State.initial (now : JsDate) (dom : State) : State :=
  { dom with
    selectedDate := now, selectedCourt := none, selectedCourtPrice := none,
    selectedCourtName := none, currentWeekStart := none, currentWeekIndex := 0,
    selectedTimeSlot := none, selectedDuration := 1, log := [] }

/-- The lookup `document.getElementById(name + "-slots")`. -/
def State.getSection (s : State) : SectionName → Option SectionEl
  | .morning => s.morningSlots
  | .day => s.daySlots
  | .evening => s.eveningSlots

/-- Replaces the section element `#<name>-slots`. -/
def State.setSection (s : State) (name : SectionName) (el : Option SectionEl) : State :=
  match name with
  | .morning => { s with morningSlots := el }
  | .day => { s with daySlots := el }
  | .evening => { s with eveningSlots := el }

/-- The loop `document.querySelectorAll('.section-content').forEach(content =>
content.innerHTML = ...)` over the section elements. -/
def State.setAllSectionContent (s : State) (c : SectionContent) : State :=
  let upd : Option SectionEl → Option SectionEl := fun e =>
    e.map fun el => if el.sectionContent then { el with content := c } else el
  { s with morningSlots := upd s.morningSlots, daySlots := upd s.daySlots,
           eveningSlots := upd s.eveningSlots }

/-! ## Messages -/

/-- The test `typeof showMessage !== 'undefined'` inside the page-load callback
of `booking.js`. The callback declares `function showMessage(message, type)`
itself, so the name resolves to that declaration wherever the test is made
(the function of the same name in `main.js` is local to another callback). -/
def showMessageDefined : Bool := true

/-- The function `showMessage(message, type)` of `booking.js`, run with room
for `stack` nested calls: the call `showMessage(type, message)` in its first
branch is a call of this same function. -/
def showMessage : Nat → State → String → String → Except Halt State
  | 0, _, _, _ => .error (.thrown .stackOverflow)
  | stack + 1, s, message, type =>
    if showMessageDefined then
      showMessage stack s type message
    else if type = "error" then
      .ok { s with log := s.log ++ [.alert ("Ошибка: " ++ message)] }
    else if type = "warning" then
      .ok { s with log := s.log ++ [.alert ("Внимание: " ++ message)] }
    else
      .ok { s with log := s.log ++ [.consoleLog message] }

/-- The function `showErrorMessage(message)`, run with room for `stack`
nested calls. -/
def showErrorMessage : Nat → State → String → Except Halt State
  | 0, _, _ => .error (.thrown .stackOverflow)
  | stack + 1, s, message =>
    if showMessageDefined then
      showMessage stack s "error" message
    else
      .ok { s with log := s.log ++ [.alert ("Ошибка: " ++ message)] }

/-- The function `showTimeSlotsMessage`. -/
def showTimeSlotsMessage (p : Page) (s : State) (message : String) : State :=
  if p.isNewLayout then
    s.setAllSectionContent (.message message)
  else
    match s.timeSlots with
    | some _ => { s with timeSlots := some (.message message) }
    | none => s

/-! ## Slot request -/

/-- The function `loadTimeSlots`, up to the point where the request is sent. -/
def loadTimeSlots (p : Page) (s : State) (courtId dateStr : String) : State :=
  let s1 := if p.isNewLayout then s.setAllSectionContent .loading else s
  { s1 with log := s1.log ++ [.fetchSlots courtId dateStr] }

/-! ## Calendar navigator -/

/-- The click handler that `renderWeek` attaches to the `i`-th day cell. -/
def dayClick (p : Page) (s : State) (i : Nat) : State :=
  match s.weekDays.get? i with
  | none => s
  | some cell =>
    let cells := s.weekDays.enum.map fun jc =>
      { jc.2 with selected := decide (jc.1 = i) }
    let s1 : State := { s with weekDays := cells, selectedDate := cell.date }
    if truthy s1.selectedCourt then
      loadTimeSlots p s1 (s1.selectedCourt.getD "") (formatDate s1.selectedDate)
    else if p.isNewLayout then
      showTimeSlotsMessage p s1 "Выберите корт, чтобы увидеть доступное время"
    else
      match s1.timeSlots with
      | some _ => { s1 with timeSlots := some .selectCourt }
      | none => s1

/-- The function `updatePrevButtonState`. -/
def updatePrevButtonState (p : Page) (today : JsDate) (s : State) : State :=
  if !p.prevWeekBtn then s
  else
    let currentWeekStartDate := getWeekStartDate today
    match s.currentWeekStart with
    | none => s
    | some currentWeekStart =>
      if currentWeekStart.getTime ≤ currentWeekStartDate.getTime then
        { s with prevDisabled := true }
      else
        { s with prevDisabled := false }

/-- The day cell that `renderWeek` builds for offset `i` from `startDate`. -/
def makeDayCell (today startDate : JsDate) (i : Nat) : DayCell :=
  let currentDate := startDate.setDate (startDate.getDate + i)
  { date := currentDate
    dataDate := formatDate currentDate
    weekday := formatWeekday currentDate
    daynum := currentDate.getDate
    today := decide (currentDate.day = today.day)
    selected := false }

/-- The function `renderWeek`. The month header written by `updateMonthHeader`
is text only and not part of `State`. -/
def renderWeek (p : Page) (today : JsDate) (s : State) (startDate : JsDate) : State :=
  if !p.weekNav then s
  else
    let cells := (List.range 7).map (makeDayCell today startDate)
    let s1 := { s with weekDays := cells, log := s.log ++ [.renderWeek startDate] }
    let s2 := updatePrevButtonState p today s1
    match s2.weekDays.findIdx? (fun c => c.dataDate == formatDate today) with
    | some i => dayClick p s2 i
    | none => s2

/-- The function `highlightSelectedDate`. -/
def highlightSelectedDate (p : Page) (s : State) : State :=
  if !p.weekNav then s
  else
    let cleared := s.weekDays.map fun c => { c with selected := false }
    match cleared.findIdx? (fun c => c.dataDate == formatDate s.selectedDate) with
    | some i =>
      { s with weekDays := cleared.enum.map fun jc =>
          if jc.1 = i then { jc.2 with selected := true } else jc.2 }
    | none => { s with weekDays := cleared }

/-- The function `initCalendar`. -/
def initCalendar (p : Page) (today : JsDate) (s : State) : State :=
  let currentWeekStart := getWeekStartDate today
  let s1 := { s with currentWeekStart := some currentWeekStart, currentWeekIndex := 0 }
  let s2 := renderWeek p today s1 currentWeekStart
  let s3 := { s2 with selectedDate := today }
  highlightSelectedDate p s3

/-- The constant `MAX_WEEKS_AHEAD`. -/
def MAX_WEEKS_AHEAD : Int := 12

/-- The function `navigateWeek`. -/
def navigateWeek (p : Page) (today : JsDate) (s : State) (direction : Int) : State :=
  match s.currentWeekStart with
  | none => s
  | some currentWeekStart =>
    let s1 : State := { s with currentWeekIndex := s.currentWeekIndex + direction }
    if s1.currentWeekIndex < 0 then
      { s1 with currentWeekIndex := 0 }
    else if s1.currentWeekIndex > MAX_WEEKS_AHEAD then
      { s1 with currentWeekIndex := MAX_WEEKS_AHEAD }
    else
      let newWeekStart := currentWeekStart.setDate (currentWeekStart.getDate + direction * 7)
      let s2 : State := { s1 with currentWeekStart := some newWeekStart }
      renderWeek p today s2 newWeekStart

/-- Runs `navigateWeek` once per entry of `directions`, in order, with the
same `today` throughout. -/
def navigateWeeks (p : Page) (today : JsDate) (s : State) (directions : List Int) : State :=
  directions.foldl (navigateWeek p today) s

/-- Runs `navigateWeek` once per entry of `steps`, in order; each entry gives
the current date at the time of the call and the direction. -/
def navigateWeeksAt (p : Page) (s : State) (steps : List (JsDate × Int)) : State :=
  steps.foldl (fun st step => navigateWeek p step.1 st step.2) s

/-! ## Court selector -/

/-- Effect of `classList.remove('selected')` on a slot element matched by the
selector `.time-slot-card` (section-based layout) or `.time-slot` (legacy). -/
def SlotElement.deselect (isNewLayout : Bool) : SlotElement → SlotElement
  | .free card startTime endTime hour courtPrice courtName selected =>
    if card = isNewLayout then .free card startTime endTime hour courtPrice courtName false
    else .free card startTime endTime hour courtPrice courtName selected
  | .partner bookingId startTime endTime hour joinButton notice =>
    .partner bookingId startTime endTime hour joinButton notice

/-- Applies `f` to every slot element of a section element. -/
def SectionEl.mapElements (f : SlotElement → SlotElement) (el : SectionEl) : SectionEl :=
  match el.content with
  | .grid elements => { el with content := .grid (elements.map f) }
  | _ => el

/-- The function `resetTimeSelection`. -/
def resetTimeSelection (p : Page) (s : State) : State :=
  let clear : Option SectionEl → Option SectionEl :=
    fun e => e.map (SectionEl.mapElements (SlotElement.deselect p.isNewLayout))
  { s with
    morningSlots := clear s.morningSlots
    daySlots := clear s.daySlots
    eveningSlots := clear s.eveningSlots
    selectedTimeSlot := none
    selectedTimeInfo := s.selectedTimeInfo.map fun info => { info with visible := false } }

/-- The click handler that `initCourtsSelection` attaches to the `i`-th court
element. -/
def courtClick (p : Page) (s : State) (i : Nat) : State :=
  match s.courts.get? i with
  | none => s
  | some item =>
    let courts := s.courts.enum.map fun jc => { jc.2 with active := decide (jc.1 = i) }
    let s1 : State :=
      { s with
        courts := courts
        selectedCourt := some item.courtId
        selectedCourtPrice := some item.courtPrice
        selectedCourtName := some item.name }
    let s2 := loadTimeSlots p s1 item.courtId (formatDate s1.selectedDate)
    resetTimeSelection p s2

/-- The lookup `document.querySelector('.court-horizontal-item.active')`, or
`'.court-item.active'` in the legacy layout. -/
def activeCourt (s : State) : Option CourtEl :=
  s.courts.find? fun c => c.active

/-! ## Slot loader -/

/-- The function `createFreeSlotElement`. -/
def createFreeSlotElement (p : Page) (slot : SlotItem) (courtPrice : Nat)
    (courtName : String) : SlotElement :=
  .free p.isNewLayout slot.start_time slot.end_time slot.hour courtPrice courtName false

/-- The function `createPartnerBookingElement`. -/
def createPartnerBookingElement (booking : SlotItem) : SlotElement :=
  let canJoin := booking.can_join
  .partner booking.booking_id booking.start_time booking.end_time booking.hour canJoin
    (if canJoin then none else some (orDefault booking.join_message "Недоступно"))

/-- The function `createTimeSlotElement`. -/
def createTimeSlotElement (p : Page) (item : SlotItem) (courtPrice : Nat)
    (courtName : String) : SlotElement :=
  if item.type = some "partner_booking" then
    createPartnerBookingElement item
  else
    createFreeSlotElement p item courtPrice courtName

/-- The function `renderTimeSection`. -/
def renderTimeSection (p : Page) (s : State) (sectionName : SectionName)
    (items : List SlotItem) (courtPrice : Nat) (courtName : String) : State :=
  match s.getSection sectionName with
  | none => s
  | some sectionContent =>
    if items.length = 0 then
      s.setSection sectionName (some { sectionContent with content := .noSlots })
    else
      let grid := items.map fun item => createTimeSlotElement p item courtPrice courtName
      s.setSection sectionName (some { sectionContent with content := .grid grid })

/-- The array `morningItems` of `renderTimeSlotsBySections`. -/
def morningItems (items : List SlotItem) : List SlotItem :=
  items.filter fun item =>
    let hour := item.hour
    decide (hour ≥ 8) && decide (hour < 12)

/-- The array `dayItems` of `renderTimeSlotsBySections`. -/
def dayItems (items : List SlotItem) : List SlotItem :=
  items.filter fun item =>
    let hour := item.hour
    decide (hour ≥ 12) && decide (hour < 17)

/-- The array `eveningItems` of `renderTimeSlotsBySections`. -/
def eveningItems (items : List SlotItem) : List SlotItem :=
  items.filter fun item =>
    let hour := item.hour
    decide (hour ≥ 17) && decide (hour < 22)

/-- The function `renderTimeSlotsBySections`; `items` is `none` when the
argument is not an array. -/
def renderTimeSlotsBySections (p : Page) (s : State) (items : Option (List SlotItem))
    (courtPrice : Nat) (courtName : String) : State :=
  match items with
  | none => showTimeSlotsMessage p s "Нет доступных слотов на выбранную дату"
  | some items =>
    if items.length = 0 then
      showTimeSlotsMessage p s "Нет доступных слотов на выбранную дату"
    else
      let s1 := renderTimeSection p s .morning (morningItems items) courtPrice courtName
      let s2 := renderTimeSection p s1 .day (dayItems items) courtPrice courtName
      renderTimeSection p s2 .evening (eveningItems items) courtPrice courtName

/-- How a `fetch` ends: it rejects, or it yields a response with its `ok` flag
and, when the body is JSON, the parsed body. -/
inductive FetchOutcome (α : Type) where
  | networkError
  | response (ok : Bool) (body : Option α)
deriving Repr

/-- Body of a reply of `/booking/available-slots/`. -/
structure SlotsResponse where
  success : Bool
  items : Option (List SlotItem) := none
  slots : Option (List SlotItem) := none
  court_price : Nat := 0
  court_name : String := ""
  available_count : Option Nat := none
  message : Option String := none
deriving DecidableEq, Repr

/-- The second `then` callback of `loadTimeSlots`. -/
def loadTimeSlots_then (stack : Nat) (p : Page) (s : State) (data : SlotsResponse) :
    Except Halt State :=
  if data.success then
    .ok (renderTimeSlotsBySections p s (data.items <|> data.slots) data.court_price
      data.court_name)
  else
    showMessage stack s (orDefault data.message "Ошибка загрузки слотов") "error"

/-- The `catch` callback of `loadTimeSlots`. -/
def loadTimeSlots_catch (stack : Nat) (s : State) : Except Halt State :=
  showMessage stack s "Ошибка загрузки. Пожалуйста, попробуйте позже." "error"

/-- The promise chain of `loadTimeSlots` once the request has ended. A throw of
the `then` callback happens before it has changed anything, so the `catch`
callback starts from `s`. -/
def loadTimeSlots_settle (stack : Nat) (p : Page) (s : State)
    (outcome : FetchOutcome SlotsResponse) : Except Halt State :=
  match outcome with
  | .response true (some data) =>
    match loadTimeSlots_then stack p s data with
    | .ok s1 => .ok s1
    | .error (.thrown _) => loadTimeSlots_catch stack s
    | .error .unmodelled => .error .unmodelled
  | _ => loadTimeSlots_catch stack s

/-! ## Slot and duration selection -/

/-- The function `showSelectedTimeInfo`. -/
def showSelectedTimeInfo (s : State) (courtName : String) (courtPrice : Nat) : State :=
  match s.selectedTimeInfo, s.selectedTimeSlot with
  | some _, some slot =>
    let info : SelectedTimeInfo :=
      { visible := true
        court := courtName
        date := formatDisplayDate s.selectedDate
        time := slot.startTime ++ " - " ++ slot.endTime
        price := toString courtPrice ++ " ₽" }
    { s with selectedTimeInfo := some info }
  | _, _ => s

/-- The function `showDurationSelector`, which replaces any open duration
selector by a new one. -/
def showDurationSelector (s : State) (startTime _endTime : String) (courtPrice : Nat)
    (courtName : String) (_hour : Int) : State :=
  let range : Nat → Option String := fun hours =>
    (calculateEndTime startTime hours).map fun e => startTime ++ " - " ++ e
  let modal : DurationModal :=
    { startTime := startTime
      courtPrice := courtPrice
      courtName := courtName
      option1 := (toString courtPrice ++ " ₽", range 1)
      option2 := (toString (courtPrice * 2) ++ " ₽", range 2)
      option3 := (toString (courtPrice * 3) ++ " ₽", range 3) }
  { s with durationModal := some modal }

/-- Effect of `classList.add('selected')` on a slot element. -/
def SlotElement.select : SlotElement → SlotElement
  | .free card startTime endTime hour courtPrice courtName _ =>
    .free card startTime endTime hour courtPrice courtName true
  | .partner bookingId startTime endTime hour joinButton notice =>
    .partner bookingId startTime endTime hour joinButton notice

/-- The slot element at position `i` of the grid of a section, if any. -/
def State.slotElement (s : State) (sectionName : SectionName) (i : Nat) : Option SlotElement :=
  match s.getSection sectionName with
  | some el =>
    match el.content with
    | .grid elements => elements.get? i
    | _ => none
  | none => none

/-- Applies `f` to the slot element at position `i` of the grid of a section. -/
def State.modifySlotElement (s : State) (sectionName : SectionName) (i : Nat)
    (f : SlotElement → SlotElement) : State :=
  match s.getSection sectionName with
  | some el =>
    match el.content with
    | .grid elements =>
      let elements1 := elements.enum.map fun je => if je.1 = i then f je.2 else je.2
      s.setSection sectionName (some { el with content := .grid elements1 })
    | _ => s
  | none => s

/-- The function `handleTimeSlotSelection`, called by the click handler of the
free slot element at position `i` of a section. -/
def handleTimeSlotSelection (p : Page) (s : State) (sectionName : SectionName) (i : Nat) :
    State :=
  match s.slotElement sectionName i with
  | some (.free _ startTime endTime hour courtPrice courtName _) =>
    let s1 := resetTimeSelection p s
    let s2 := s1.modifySlotElement sectionName i SlotElement.select
    let slot : TimeSlot := { startTime := startTime, endTime := endTime, hour := hour }
    let s3 : State := { s2 with selectedTimeSlot := some slot }
    if p.isNewLayout then
      showSelectedTimeInfo s3 courtName courtPrice
    else
      showDurationSelector s3 slot.startTime slot.endTime courtPrice courtName slot.hour
  | _ => s

/-! ## Availability re-check and confirmation -/

/-- The function `checkExtendedAvailability`, up to the point where the
request is sent. -/
def checkExtendedAvailability (s : State) (startTime endTime : String) (duration : Nat)
    (courtPrice : Nat) (courtName : String) : State :=
  let s1 : State :=
    match s.timeSlots with
    | some _ => { s with timeSlots := some .checking }
    | none => s
  let req : CheckRequest :=
    { court_id := s1.selectedCourt
      date := formatDate s1.selectedDate
      start_time := startTime
      duration := duration
      endTime := endTime
      courtPrice := courtPrice
      courtName := courtName }
  { s1 with log := s1.log ++ [.fetchCheck req] }

/-- The three buttons `.duration-option` of the duration selector. -/
inductive DurationOption where
  | one
  | two
  | three
deriving DecidableEq, Repr

/-- The attribute `data-hours` of a duration button. -/
def DurationOption.hours : DurationOption → Nat
  | .one => 1
  | .two => 2
  | .three => 3

/-- The click handler of a duration button of the open duration selector. -/
def durationOptionClick (s : State) (option : DurationOption) : Except Halt State :=
  match s.durationModal with
  | none => .ok s
  | some modal =>
    let hours := option.hours
    let s1 : State := { s with selectedDuration := hours }
    match calculateEndTime modal.startTime hours with
    | none => .error .unmodelled
    | some endTime =>
      let s2 := checkExtendedAvailability s1 modal.startTime endTime hours modal.courtPrice
        modal.courtName
      .ok { s2 with durationModal := none }

/-- The function `createDynamicBookingModal`. -/
def createDynamicBookingModal (s : State) (courtName date startTime endTime : String)
    (totalPrice duration : Nat) : State :=
  let modal : ConfirmModal :=
    { dynamic := true
      visible := true
      courtName := courtName
      date := date
      time := startTime ++ " - " ++ endTime ++ " (" ++ toString duration ++ " ч)"
      price := toString totalPrice ++ " ₽"
      formCourtId := s.selectedCourt.getD "null"
      formDate := formatDate s.selectedDate
      formStartTime := startTime
      formEndTime := endTime
      formDuration := some (toString duration) }
  { s with bookingConfirmModal := some modal }

/-- Fills and shows the confirmation modal `modal` that is already in the
document: the shared tail of `showBookingConfirmation` and
`showBookingConfirmationModal`. The elements `#modal-court-name`,
`#modal-date`, ... are those of the template; a modal built by
`createDynamicBookingModal` has none of them, and writing to the result of
the lookup throws. -/
def fillConfirmModal (s : State) (modal : ConfirmModal) (courtName date startTime
    endTime : String) (totalPrice duration : Nat) : Except Halt State :=
  if modal.dynamic then .error (.thrown .typeError)
  else
    let filled : ConfirmModal :=
      { modal with
        courtName := courtName
        date := date
        time := startTime ++ " - " ++ endTime
        price := toString totalPrice ++ " ₽"
        formCourtId := s.selectedCourt.getD ""
        formDate := formatDate s.selectedDate
        formStartTime := startTime
        formEndTime := endTime
        formDuration := some (toString duration)
        visible := true }
    .ok { s with bookingConfirmModal := some filled }

/-- The function `showBookingConfirmation`. -/
def showBookingConfirmation (s : State) (startTime endTime : String) (duration : Nat)
    (courtPrice : Nat) (_courtName : String) : Except Halt State :=
  match activeCourt s with
  | none => .ok s
  | some courtElement =>
    let courtNameDisplay := courtElement.name
    let formattedDate := formatDisplayDate s.selectedDate
    let totalPrice := courtPrice * duration
    match s.bookingConfirmModal with
    | some existingModal =>
      fillConfirmModal s existingModal courtNameDisplay formattedDate startTime endTime
        totalPrice duration
    | none =>
      .ok (createDynamicBookingModal s courtNameDisplay formattedDate startTime endTime
        totalPrice duration)

/-- The function `showBookingConfirmationModal`. -/
def showBookingConfirmationModal (s : State) (courtName date startTime endTime : String)
    (totalPrice duration : Nat) : Except Halt State :=
  match s.bookingConfirmModal with
  | none => .ok s
  | some modal => fillConfirmModal s modal courtName date startTime endTime totalPrice duration

/-- The function `handleBookingConfirmation`, the click handler of
`#confirm-booking-btn`. -/
def handleBookingConfirmation (stack : Nat) (p : Page) (s : State) : Except Halt State :=
  match truthy s.selectedCourt, s.selectedTimeSlot with
  | true, some selectedTimeSlot =>
    let duration := if p.isNewLayout then 1 else s.selectedDuration
    match activeCourt s with
    | none => .ok s
    | some courtElement =>
      let courtNameDisplay := courtElement.name
      let formattedDate := formatDisplayDate s.selectedDate
      let courtPrice := courtElement.courtPrice
      let totalPrice := courtPrice * duration
      let endTime :=
        if p.isNewLayout then some selectedTimeSlot.endTime
        else calculateEndTime selectedTimeSlot.startTime duration
      match endTime with
      | none => .error .unmodelled
      | some endTime =>
        showBookingConfirmationModal s courtNameDisplay formattedDate
          selectedTimeSlot.startTime endTime totalPrice duration
  | _, _ => showMessage stack s "Пожалуйста, выберите корт и время" "error"

/-- Body of a reply of `/booking/check-availability/`. -/
structure CheckResponse where
  success : Bool
  available : Bool
  message : Option String := none
deriving DecidableEq, Repr

/-- The second `then` callback of `checkExtendedAvailability`; `req` carries
the arguments of the call that sent the request. -/
def checkExtendedAvailability_then (stack : Nat) (p : Page) (s : State) (req : CheckRequest)
    (data : CheckResponse) : Except Halt State :=
  if data.success && data.available then
    showBookingConfirmation s req.start_time req.endTime req.duration req.courtPrice
      req.courtName
  else
    match showErrorMessage stack s (orDefault data.message "Выбранное время уже занято") with
    | .error e => .error e
    | .ok s1 =>
      if truthy s1.selectedCourt then
        .ok (loadTimeSlots p s1 (s1.selectedCourt.getD "") (formatDate s1.selectedDate))
      else
        .ok s1

/-- The `catch` callback of `checkExtendedAvailability`. -/
def checkExtendedAvailability_catch (stack : Nat) (s : State) : Except Halt State :=
  showErrorMessage stack s "Ошибка при проверке доступности"

/-- The promise chain of `checkExtendedAvailability` once the request has
ended. A throw of the `then` callback happens before it has changed anything,
so the `catch` callback starts from `s`. -/
def checkExtendedAvailability_settle (stack : Nat) (p : Page) (s : State)
    (req : CheckRequest) (outcome : FetchOutcome CheckResponse) : Except Halt State :=
  match outcome with
  | .response _ (some data) =>
    match checkExtendedAvailability_then stack p s req data with
    | .ok s1 => .ok s1
    | .error (.thrown _) => checkExtendedAvailability_catch stack s
    | .error .unmodelled => .error .unmodelled
  | _ => checkExtendedAvailability_catch stack s

/-! ## Events and runs -/

/-- The script up to its first handler: the variable declarations and, on a
page with the four calendar elements, `initCalendar`. -/
def pageLoad (p : Page) (today : JsDate) (dom : State) : State :=
  let s0 := State.initial today dom
  if p.weekNav && p.prevWeekBtn && p.nextWeekBtn && p.monthHeader then
    initCalendar p today s0
  else
    s0

/-- The click handler of `#prev-week`. -/
def prevWeekClick (p : Page) (today : JsDate) (s : State) : State :=
  if !p.prevWeekBtn then s
  else if s.prevDisabled then s
  else navigateWeek p today s (-1)

/-- The click handler of `#next-week`. -/
def nextWeekClick (p : Page) (today : JsDate) (s : State) : State :=
  if !p.nextWeekBtn then s
  else navigateWeek p today s 1

/-- The handlers of the duration selector that only remove it: the close
button, the cancel button and a click on the backdrop. -/
def closeDurationSelector (s : State) : State :=
  { s with durationModal := none }

/-- State in which a handler leaves the page: its result when it returns, and
the state it started from when it throws, because every throw of the handlers
modelled here happens before the handler has written anything. There is none
when the run is outside the model. -/
def finalState (s : State) (r : Except Halt State) : Option State :=
  match r with
  | .ok s1 => some s1
  | .error (.thrown _) => some s
  | .error .unmodelled => none

/-- What can happen on the page after it has loaded: a click of the user or
the end of a request. -/
inductive Event where
  /-- A call `navigateWeek(direction)`. -/
  | navigateWeek (direction : Int)
  /-- A click on `#prev-week`. -/
  | prevWeekClick
  /-- A click on `#next-week`. -/
  | nextWeekClick
  /-- A click on the `i`-th day cell. -/
  | dayClick (i : Nat)
  /-- A click on the `i`-th court element. -/
  | courtClick (i : Nat)
  /-- The end of the slot request sent for `(courtId, dateStr)`. -/
  | slotsSettled (courtId dateStr : String) (outcome : FetchOutcome SlotsResponse)
  /-- A click on the `i`-th slot element of a section. -/
  | slotClick (sectionName : SectionName) (i : Nat)
  /-- A click on a duration button of the open duration selector. -/
  | durationClick (option : DurationOption)
  /-- A click that closes the duration selector. -/
  | durationClose
  /-- The end of the re-check request `req`. -/
  | checkSettled (req : CheckRequest) (outcome : FetchOutcome CheckResponse)
  /-- A click on `#confirm-booking-btn`. -/
  | confirmClick

/-- Effect of one event. The end of a request is only possible for a request
that has been sent; a click on an element the page does not have changes
nothing. -/
def step (stack : Nat) (p : Page) (today : JsDate) (s : State) : Event → Option State
  | .navigateWeek direction => some (navigateWeek p today s direction)
  | .prevWeekClick => some (prevWeekClick p today s)
  | .nextWeekClick => some (nextWeekClick p today s)
  | .dayClick i => some (dayClick p s i)
  | .courtClick i => some (courtClick p s i)
  | .slotsSettled courtId dateStr outcome =>
    if Effect.fetchSlots courtId dateStr ∈ s.log then
      finalState s (loadTimeSlots_settle stack p s outcome)
    else some s
  | .slotClick sectionName i => some (handleTimeSlotSelection p s sectionName i)
  | .durationClick option => finalState s (durationOptionClick s option)
  | .durationClose => some (closeDurationSelector s)
  | .checkSettled req outcome =>
    if Effect.fetchCheck req ∈ s.log then
      finalState s (checkExtendedAvailability_settle stack p s req outcome)
    else some s
  | .confirmClick =>
    if p.confirmBookingBtn then finalState s (handleBookingConfirmation stack p s)
    else some s

/-- Effect of a sequence of events, in order. -/
def run (stack : Nat) (p : Page) (today : JsDate) : State → List Event → Option State
  | s, [] => some s
  | s, e :: es =>
    match step stack p today s e with
    | some s1 => run stack p today s1 es
    | none => none

/-! ## White space -/

/-- The class `\s` of a regular expression, which is also what `trim()`
removes: white space and line terminators. -/
def isJsWhitespace (c : Char) : Bool :=
  let n := c.toNat
  n == 0x09 || n == 0x0A || n == 0x0B || n == 0x0C || n == 0x0D || n == 0x20 ||
  n == 0xA0 || n == 0x1680 || (decide (0x2000 ≤ n) && decide (n ≤ 0x200A)) ||
  n == 0x2028 || n == 0x2029 || n == 0x202F || n == 0x205F || n == 0x3000 || n == 0xFEFF

/-- The method `trim()`. -/
def jsTrim (s : String) : String :=
  String.mk ((s.data.dropWhile isJsWhitespace).reverse.dropWhile isJsWhitespace).reverse

/-! ## Number formatting (`analytics.js`) -/

/-- Word characters of a regular expression, `[A-Za-z0-9_]`. -/
def isWordChar (c : Char) : Bool := c.isAlphanum || c == '_'

/-- The assertion `\B` at a position, given the character before it and the
character after it (`none` at the start or the end of the text): the two sides
are both word characters or both not. -/
def notWordBoundary (before after : Option Char) : Bool :=
  (before.map isWordChar).getD false == (after.map isWordChar).getD false

/-- The assertion `(?!\d)` on the text after a position. -/
def noDigitAhead : List Char → Bool
  | [] => true
  | c :: _ => !c.isDigit

/-- The pattern `(\d{3})+(?!\d)` matched at the head of a text: one or more
groups of three digits, the last one not followed by a digit. -/
def threeDigitGroups : List Char → Bool
  | d1 :: d2 :: d3 :: rest =>
    d1.isDigit && d2.isDigit && d3.isDigit && (noDigitAhead rest || threeDigitGroups rest)
  | _ => false

/-- The call `text.replace(/\B(?=(\d{3})+(?!\d))/g, " ")` on the text that
follows the character `before`: a space is put at every position where the
pattern matches. -/
def replaceGroupPositions : Option Char → List Char → List Char
  | _, [] => []
  | before, c :: cs =>
    if notWordBoundary before (some c) && threeDigitGroups (c :: cs) then
      ' ' :: c :: replaceGroupPositions (some c) cs
    else
      c :: replaceGroupPositions (some c) cs

/-- The function `formatNumber` of `analytics.js` on a non-negative integer
up to `MAX_SAFE_INTEGER`, where `num.toString()` is the decimal numeral of the
integer. The result is `none` above it: there the argument is a
floating-point number whose text is its shortest round-trip digits, or
exponent form, which is not covered. -/
def formatNumber (num : Nat) : Option String :=
  if num ≤ MAX_SAFE_INTEGER then
    some (String.mk (replaceGroupPositions none (toString num).data))
  else none

/-- The function `formatCurrency` on a non-negative integer, which
`Math.round` leaves as it is. -/
def formatCurrency (num : Nat) : Option String :=
  (formatNumber num).map fun text => text ++ " ₽"

/-! ## Timers (`analytics.js`, `schedule.js`) -/

/-- The function a timer runs: the refresh callback of `enableAutoRefresh`,
the search callback of the user search (with the query it has captured), or a
function of another script. -/
inductive TimerCallback where
  | autoRefresh
  | userSearch (query : String)
  | other
deriving DecidableEq, Repr

/-- A timer of the window: its handle, what it runs, its delay in
milliseconds, and whether it is an interval. -/
structure Timer where
  handle : Nat
  callback : TimerCallback
  delay : Nat
  repeating : Bool
deriving DecidableEq, Repr

/-- The timers of a window: the number of handles given out so far (handles
are positive and count up) and the timers that are active. -/
structure Timers where
  issued : Nat := 0
  active : List Timer := []
deriving DecidableEq, Repr

/-- The call `setInterval(callback, delay)`: the new handle and the timers. -/
def setInterval (t : Timers) (callback : TimerCallback) (delay : Nat) : Nat × Timers :=
  let handle := t.issued + 1
  (handle, { issued := handle, active := t.active ++ [⟨handle, callback, delay, true⟩] })

/-- The call `setTimeout(callback, delay)`: the new handle and the timers. -/
def setTimeout (t : Timers) (callback : TimerCallback) (delay : Nat) : Nat × Timers :=
  let handle := t.issued + 1
  (handle, { issued := handle, active := t.active ++ [⟨handle, callback, delay, false⟩] })

/-- The call `clearInterval(handle)`; a handle that is `null` or `undefined`
clears nothing. -/
def clearInterval (t : Timers) (handle : Option Nat) : Timers :=
  match handle with
  | some h => { t with active := t.active.filter fun timer => timer.handle != h }
  | none => t

/-- The call `clearTimeout(handle)`, over the same handles as `clearInterval`. -/
def clearTimeout (t : Timers) (handle : Option Nat) : Timers :=
  clearInterval t handle

/-- Truthiness of a variable that holds `null`/`undefined` or a timer handle. -/
def truthyHandle (v : Option Nat) : Bool :=
  match v with
  | some h => h != 0
  | none => false

/-- State of `analytics.js`: the timers of the window and the variable
`refreshInterval`. -/
structure AnalyticsState where
  timers : Timers := {}
  refreshInterval : Option Nat := none
deriving DecidableEq, Repr

/-- The function `enableAutoRefresh(intervalMinutes = 5)`; the argument is
`none` when the call leaves it out. -/
def enableAutoRefresh (s : AnalyticsState) (intervalMinutes : Option Nat) : AnalyticsState :=
  let minutes := intervalMinutes.getD 5
  let s1 : AnalyticsState :=
    if truthyHandle s.refreshInterval then
      { s with timers := clearInterval s.timers s.refreshInterval }
    else s
  let r := setInterval s1.timers .autoRefresh (minutes * 60 * 1000)
  { s1 with timers := r.2, refreshInterval := some r.1 }

/-- The function `disableAutoRefresh`. -/
def disableAutoRefresh (s : AnalyticsState) : AnalyticsState :=
  if truthyHandle s.refreshInterval then
    { s with timers := clearInterval s.timers s.refreshInterval, refreshInterval := none }
  else s

/-- A call of one of the two auto-refresh functions. -/
inductive AutoRefreshCall where
  | enable (intervalMinutes : Option Nat)
  | disable
deriving DecidableEq, Repr

/-- Runs the calls in order. -/
def runAutoRefresh (s : AnalyticsState) (calls : List AutoRefreshCall) : AnalyticsState :=
  calls.foldl (fun st call =>
    match call with
    | .enable intervalMinutes => enableAutoRefresh st intervalMinutes
    | .disable => disableAutoRefresh st) s

/-- The active timers that run the auto-refresh callback. -/
def AnalyticsState.autoRefreshTimers (s : AnalyticsState) : List Timer :=
  s.timers.active.filter fun timer => timer.callback == .autoRefresh

/-- State of the user search of `schedule.js`: the timers of the window, the
variable `userSearchTimeout`, whether the suggestion list carries the class
`active`, and the queries sent to the search endpoint so far. -/
structure SearchState where
  timers : Timers := {}
  userSearchTimeout : Option Nat := none
  suggestionsActive : Bool := false
  searches : List String := []
deriving DecidableEq, Repr

/-- The property `length` of a string: the number of UTF-16 code units, two
for a character outside the basic plane. -/
def utf16Length (s : String) : Nat :=
  s.data.foldl (fun n c => n + (if c.toNat < 0x10000 then 1 else 2)) 0

/-- The `input` handler of `setupUserSearch`, for the text of the field. -/
def searchInput (s : SearchState) (value : String) : SearchState :=
  let query := jsTrim value
  let s1 : SearchState := { s with timers := clearTimeout s.timers s.userSearchTimeout }
  if utf16Length query < 2 then
    { s1 with suggestionsActive := false }
  else
    let r := setTimeout s1.timers (.userSearch query) 300
    { s1 with timers := r.2, userSearchTimeout := some r.1 }

/-- The timeout with the given handle fires, if it is active: it leaves the
active timers and, when it is a search timer, sends its query. -/
def timeoutFires (s : SearchState) (handle : Nat) : SearchState :=
  match s.timers.active.find? fun timer => timer.handle == handle && !timer.repeating with
  | some timer =>
    let timers : Timers :=
      { s.timers with active := s.timers.active.filter fun t => t.handle != handle }
    match timer.callback with
    | .userSearch query => { s with timers := timers, searches := s.searches ++ [query] }
    | _ => { s with timers := timers }
  | none => s

/-- What happens on the schedule page as far as the search timers go. -/
inductive SearchEvent where
  | input (value : String)
  | fires (handle : Nat)
deriving DecidableEq, Repr

/-- Runs the events in order. -/
def runSearch (s : SearchState) (events : List SearchEvent) : SearchState :=
  events.foldl (fun st event =>
    match event with
    | .input value => searchInput st value
    | .fires handle => timeoutFires st handle) s

/-- Whether a timer runs the search callback. -/
def Timer.isUserSearch (timer : Timer) : Bool :=
  match timer.callback with
  | .userSearch _ => true
  | _ => false

/-- The active timers that run the search callback. -/
def SearchState.pendingSearches (s : SearchState) : List Timer :=
  s.timers.active.filter Timer.isUserSearch

/-! ## Booking time validation (`schedule.js`) -/

/-- Value of two decimal digits. -/
def twoDigits (a b : Char) : Option Nat :=
  match digitValue a, digitValue b with
  | some x, some y => some (10 * x + y)
  | _, _ => none

/-- Time value of the date-time text `1970-01-01T` followed by `time`, for a
`time` that is `HH:MM` or empty; see `parseDate`. -/
def parseTimeOfDay : List Char → Option (Option Int)
  | [] => some none
  | [h1, h2, c, m1, m2] =>
    if c = ':' then
      match twoDigits h1 h2, twoDigits m1 m2 with
      | some h, some m =>
        if h ≤ 23 ∧ m ≤ 59 then some (some (((h * 60 + m) * 60000 : Nat) : Int))
        else if h = 24 ∧ m = 0 then some (some 86400000)
        else some none
      | _, _ => none
    else none
  | _ => none

/-- Time value of `new Date(text)`, in milliseconds of local time from the
start of 1970-01-01, for the texts `1970-01-01T` followed by `HH:MM` or by
nothing. The inner value `none` is the time value `NaN` of an invalid date:
that is what an hour above 24, a minute above 59 or a missing time gives. The
result is `none` for every other text. -/
def parseDate (text : String) : Option (Option Int) :=
  if text.data.take 11 = "1970-01-01T".data then parseTimeOfDay (text.data.drop 11)
  else none

/-- The comparison `a <= b` of two numbers, false when one of them is `NaN`. -/
def numLe (a b : Option Int) : Bool :=
  match a, b with
  | some x, some y => decide (x ≤ y)
  | _, _ => false

/-- The comparison `a < b` of two numbers, false when one of them is `NaN`. -/
def numLt (a b : Option Int) : Bool :=
  match a, b with
  | some x, some y => decide (x < y)
  | _, _ => false

/-- The difference `a - b` of two numbers, `NaN` when one of them is `NaN`. -/
def numSub (a b : Option Int) : Option Int :=
  match a, b with
  | some x, some y => some (x - y)
  | _, _ => none

/-- Result object of `validateBookingTime`. -/
structure Validation where
  valid : Bool
  error : Option String := none
deriving DecidableEq, Repr

/-- The function `validateBookingTime`, `none` when one of the two dates is
outside the texts covered by `parseDate`. The source divides the difference by
3 600 000 and compares the quotient with 0.5 and 4; here the difference in
milliseconds is compared with 1 800 000 and 14 400 000, which decides the
same. -/
def validateBookingTime (startTime endTime : String) : Option Validation :=
  match parseDate ("1970-01-01T" ++ startTime), parseDate ("1970-01-01T" ++ endTime) with
  | some start, some end_ =>
    if numLe end_ start then
      some { valid := false, error := some "Время окончания должно быть позже времени начала" }
    else
      let duration := numSub end_ start
      if numLt duration (some 1800000) then
        some { valid := false, error := some "Минимальная длительность бронирования - 30 минут" }
      else if numLt (some 14400000) duration then
        some { valid := false, error := some "Максимальная длительность бронирования - 4 часа" }
      else
        some { valid := true }
  | _, _ => none

/-- What the `submit` handler of `#quickCreateForm` does to the event:
whether it prevents the submission, and the toast it asks for. -/
structure SubmitOutcome where
  defaultPrevented : Bool
  toast : Option (Option String × String)
deriving DecidableEq, Repr

/-- The `submit` handler of `#quickCreateForm`, for the values of the fields
`#startTime` and `#endTime`. -/
def quickCreateSubmit (startTime endTime : String) : Option SubmitOutcome :=
  (validateBookingTime startTime endTime).map fun validation =>
    if !validation.valid then
      { defaultPrevented := true, toast := some (validation.error, "error") }
    else
      { defaultPrevented := false, toast := none }

/-- The text `HH:MM` of an hour and a minute, each written with two digits. -/
def timeText (h m : Nat) : String :=
  String.mk [Nat.digitChar (h / 10), Nat.digitChar (h % 10), ':',
    Nat.digitChar (m / 10), Nat.digitChar (m % 10)]

/-! ## Email validation (`profile.js`) -/

/-- The class `[^\s@]`. -/
def emailAtom (c : Char) : Bool := !isJsWhitespace c && c != '@'

/-- The anchor `$` (without the flag `m`): the text has ended. -/
def reEnd : List Char → Bool
  | [] => true
  | _ :: _ => false

/-- A pattern made of the character `ch` followed by the pattern `k`. -/
def reChar (ch : Char) (k : List Char → Bool) : List Char → Bool
  | [] => false
  | c :: cs => c == ch && k cs

/-- A pattern made of one or more characters of the class `cls` followed by
the pattern `k`. -/
def rePlus (cls : Char → Bool) (k : List Char → Bool) : List Char → Bool
  | [] => false
  | c :: cs => cls c && (k cs || rePlus cls k cs)

/-- The function `isValidEmail`: the test of `/^[^\s@]+@[^\s@]+\.[^\s@]+$/`. -/
def isValidEmail (email : String) : Bool :=
  rePlus emailAtom (reChar '@' (rePlus emailAtom (reChar '.' (rePlus emailAtom reEnd))))
    email.data

/-- The part of the profile page that the email editor works on: whether the
elements `#emailError` and `#emailInput` were in the document when the page
loaded, the error text shown, the marks on the input and the save button, and
the emails sent to `/users/ajax/update-email/` so far. -/
structure EmailEditor where
  emailError : Bool := true
  emailInput : Bool := true
  errorText : Option String := none
  inputInvalid : Bool := false
  saveDisabled : Bool := false
  requests : List String := []
deriving DecidableEq, Repr

/-- The function `showEmailError`. -/
def showEmailError (s : EmailEditor) (message : String) : EmailEditor :=
  let s1 : EmailEditor := if s.emailError then { s with errorText := some message } else s
  if s1.emailInput then { s1 with inputInvalid := true } else s1

/-- The click handler of the save button set up by `setupEmailEditHandlers`,
for the text of the input, up to the point where the request is sent. -/
def saveEmailClick (s : EmailEditor) (value : String) : EmailEditor :=
  let email := jsTrim value
  if email = "" then
    showEmailError s "Пожалуйста, введите email"
  else if !isValidEmail email then
    showEmailError s "Введите корректный email адрес"
  else
    { s with saveDisabled := true, requests := s.requests ++ [email] }

/-- The tokens that decide how blocks nest: `if (...) {`, `else {`, any other
`{` (a function body or an object literal) and `}`. -/
inductive BlockToken where
  | ifOpen
  | elseOpen
  | otherOpen
  | close
deriving DecidableEq, Repr

/-- Whether the blocks of a passage nest as the grammar asks, for a passage in
which every `if` and `else` has braces. The first argument holds, for each
open brace, whether it opened the block of an `if`; the second says that the
token just read closed the block of an `if`, the only place where an `else`
may come. -/
def blocksParse : List Bool → Bool → List BlockToken → Bool
  | _, _, [] => true
  | stack, _, .ifOpen :: rest => blocksParse (true :: stack) false rest
  | stack, _, .otherOpen :: rest => blocksParse (false :: stack) false rest
  | stack, afterIf, .elseOpen :: rest => afterIf && blocksParse (false :: stack) false rest
  | [], _, .close :: _ => false
  | isIf :: stack, _, .close :: rest => blocksParse stack isIf rest

/-- The braces and `else` of lines 926 to 972 of `profile.js`, each with its
line: the `then` callback of the save handler, from `.then(data => {` to the
`} else {` of line 972. Braces inside template literals are not tokens. -/
def saveHandlerBlocks : List (Nat × BlockToken) :=
  [(926, .otherOpen), (927, .ifOpen), (929, .ifOpen), (933, .otherOpen), (935, .close),
   (936, .close), (936, .elseOpen), (946, .ifOpen), (949, .close), (955, .otherOpen),
   (971, .close), (972, .close), (972, .elseOpen)]

/-- The braces and `else` of lines 987 to 1033 of `profile.js`, each with its
line: the block that sets up the cancel handler, which has the same shape. -/
def cancelHandlerBlocks : List (Nat × BlockToken) :=
  [(987, .ifOpen), (988, .otherOpen), (991, .ifOpen), (1001, .otherOpen), (1017, .close),
   (1018, .close), (1018, .elseOpen), (1031, .close), (1032, .close), (1033, .close)]

/-- Whether `profile.js` parses: it does not when the passage of the save
handler does not. A script that does not parse runs no statement, so none of
its functions exists and none of its handlers is installed. -/
def profileScriptParses : Bool :=
  blocksParse [] false (saveHandlerBlocks.map Prod.snd)

/-- A click on `#saveEmailBtn` as the page handles it: the handler of
`setupEmailEditHandlers` is there only when the script has parsed; otherwise
the button has no handler and the click changes nothing. -/
def saveButtonClick (s : EmailEditor) (value : String) : EmailEditor :=
  if profileScriptParses then saveEmailClick s value else s

/-! ## Specification-side notions -/

/-- Invariant of week navigation: the window start is a whole number of weeks,
given by the week index, after the Monday of the current week. -/
def WeekInv (today : JsDate) (s : State) : Prop :=
  ∃ ws, s.currentWeekStart = some ws ∧
    ws.day = (getWeekStartDate today).day + 7 * s.currentWeekIndex ∧
    ws.msOfDay = (getWeekStartDate today).msOfDay ∧
    0 ≤ s.currentWeekIndex ∧ s.currentWeekIndex ≤ 12

/-- The text `HH:00` for hour `n`: the decimal of `n` left-padded with zeros
to two digits, followed by `:00`. -/
def hourText (n : Nat) : String :=
  String.mk [Nat.digitChar (n / 10), Nat.digitChar (n % 10), ':', '0', '0']

/-- Rendered content of a section for the items of its bucket: the "no slots"
placeholder for an empty bucket, and otherwise a grid with one element per
item, in order. -/
def bucketContent (p : Page) (bucket : List SlotItem) (courtPrice : Nat) (courtName : String) :
    SectionContent :=
  if bucket.length = 0 then .noSlots
  else .grid (bucket.map fun item => createTimeSlotElement p item courtPrice courtName)

/-- A section is not blank: it holds a message, the "no slots" placeholder,
or a grid with at least one slot element. -/
def SectionContent.notBlank : SectionContent → Bool
  | .template => false
  | .loading => false
  | .message _ => true
  | .noSlots => true
  | .grid elements => !elements.isEmpty

/-- Text of the time range on the confirmation surface after a run, if the
run ends with a confirmation modal in the document. -/
def shownTime (r : Except Halt State) : Option String :=
  r.toOption.bind fun s => s.bookingConfirmModal.map fun m => m.time

/-- Text of the total price on the confirmation surface after a run, if the
run ends with a confirmation modal in the document. -/
def shownPrice (r : Except Halt State) : Option String :=
  r.toOption.bind fun s => s.bookingConfirmModal.map fun m => m.price

/-- The selected date lies within the rendered week window, as calendar days:
window start ≤ selected date ≤ window start + 6 days. -/
def inWindow (s : State) : Bool :=
  match s.currentWeekStart with
  | some ws => decide (ws.day ≤ s.selectedDate.day) && decide (s.selectedDate.day ≤ ws.day + 6)
  | none => false

/-- Events of the calendar: week navigation by one week and day-cell clicks. -/
def Event.isCalendar : Event → Bool
  | .navigateWeek direction => direction == -1 || direction == 1
  | .prevWeekClick => true
  | .nextWeekClick => true
  | .dayClick _ => true
  | _ => false

/-- Invariant of the calendar: `WeekInv`, every rendered day cell is a day of
the window, and the selected date is a day of one of the thirteen weeks that
can be shown. -/
def CalInv (today : JsDate) (s : State) : Prop :=
  ∃ ws, s.currentWeekStart = some ws ∧
    ws.day = (getWeekStartDate today).day + 7 * s.currentWeekIndex ∧
    ws.msOfDay = (getWeekStartDate today).msOfDay ∧
    0 ≤ s.currentWeekIndex ∧ s.currentWeekIndex ≤ 12 ∧
    (∀ c ∈ s.weekDays, ws.day ≤ c.date.day ∧ c.date.day ≤ ws.day + 6) ∧
    (getWeekStartDate today).day ≤ s.selectedDate.day ∧
    s.selectedDate.day ≤ (getWeekStartDate today).day + 90

/-- Slot elements of a section element. -/
def SectionEl.elements (el : Option SectionEl) : List SlotElement :=
  match el with
  | some e =>
    match e.content with
    | .grid elements => elements
    | _ => []
  | none => []

/-- All slot elements on the page, in the order morning, day, evening: the
rendering of the slot set that was loaded last. -/
def State.slotElements (s : State) : List SlotElement :=
  SectionEl.elements s.morningSlots ++ SectionEl.elements s.daySlots ++
    SectionEl.elements s.eveningSlots

/-- A slot element is the "book this slot" element of the slot `t`. -/
def SlotElement.isSlot (t : TimeSlot) : SlotElement → Bool
  | .free _ startTime endTime hour _ _ _ =>
    startTime == t.startTime && endTime == t.endTime && hour == t.hour
  | .partner _ _ _ _ _ _ => false

/-- The selected time slot, if there is one, is a slot of the slot set that
was loaded last. -/
def selectionInLoadedSet (s : State) : Bool :=
  match s.selectedTimeSlot with
  | none => true
  | some t => s.slotElements.any (SlotElement.isSlot t)

/-- A slot load has failed: the request was rejected, the status was not 2xx,
the body was not JSON, or the body has `success = false`. -/
def slotLoadFailed : FetchOutcome SlotsResponse → Bool
  | .networkError => true
  | .response false _ => true
  | .response true none => true
  | .response true (some data) => !data.success

/-- The log holds no re-check request. -/
def noCheckRequest (s : State) : Bool :=
  s.log.all fun e =>
    match e with
    | .fetchCheck _ => false
    | _ => true

/-- A slot element is a partner-booking card ("join existing group"). -/
def SlotElement.isPartner : SlotElement → Bool
  | .partner _ _ _ _ _ _ => true
  | .free _ _ _ _ _ _ _ => false

/-- A slot element carries a join action. -/
def SlotElement.hasJoinAction : SlotElement → Bool
  | .partner _ _ _ _ joinButton _ => joinButton
  | .free _ _ _ _ _ _ _ => false

/-- Text a partner-booking card shows in place of the join button. -/
def SlotElement.notice : SlotElement → Option String
  | .partner _ _ _ _ _ notice => notice
  | .free _ _ _ _ _ _ _ => none

/-- A slot element is the "book this slot" element, which a click selects. -/
def SlotElement.isBookable : SlotElement → Bool
  | .free _ _ _ _ _ _ _ => true
  | .partner _ _ _ _ _ _ => false

/-- The step from `s` to `s1` has touched neither the confirmation modal nor
`selectedDuration`. -/
def KeepsConfirmation (s s1 : State) : Prop :=
  s1.bookingConfirmModal = s.bookingConfirmModal ∧ s1.selectedDuration = s.selectedDuration

/-- The confirmation modal is in the document, visible, and its form holds
the start time `startTime`, the end time `endTime` and the duration
`duration`. -/
def ShowsConfirmation (s : State) (startTime endTime : String) (duration : Nat) : Prop :=
  ∃ m, s.bookingConfirmModal = some m ∧ m.visible = true ∧
    m.formStartTime = startTime ∧ m.formEndTime = endTime ∧
    m.formDuration = some (toString duration)

/-- A slot element carries the class `selected`. -/
def SlotElement.isSelected : SlotElement → Bool
  | .free _ _ _ _ _ _ selected => selected
  | .partner _ _ _ _ _ _ => false

/-- A free slot element carries the class that `resetTimeSelection` looks for
in the given layout: `time-slot-card` in the section-based layout and
`time-slot` in the legacy one. -/
def SlotElement.hasLayoutClass (isNewLayout : Bool) : SlotElement → Bool
  | .free card _ _ _ _ _ _ => card == isNewLayout
  | .partner _ _ _ _ _ _ => true

/-- An item lies in the hours covered by the three sections. -/
def SlotItem.inSections (item : SlotItem) : Bool :=
  decide (8 ≤ item.hour) && decide (item.hour < 22)

/-! ## Sample pages and runs -/

/-- A page in the legacy layout. -/
def examplePage : Page :=
  { isNewLayout := false, weekNav := true, prevWeekBtn := true, nextWeekBtn := true,
    monthHeader := true, confirmBookingBtn := true }

/-- A page in the section-based layout. -/
def exampleNewPage : Page :=
  { isNewLayout := true, weekNav := true, prevWeekBtn := true, nextWeekBtn := true,
    monthHeader := true, confirmBookingBtn := true }

/-- Friday 2026-11-06, 10:00. -/
def exampleToday : JsDate := { day := 20763, msOfDay := 36000000 }

/-- Two courts, none active. -/
def exampleCourts : List CourtEl :=
  [{ courtId := "1", courtPrice := 1000, name := "Корт A" },
   { courtId := "2", courtPrice := 1500, name := "Корт B" }]

/-- A template confirmation modal, hidden and not yet filled. -/
def exampleModal : ConfirmModal :=
  { dynamic := false, visible := false, courtName := "", date := "", time := "", price := "",
    formCourtId := "", formDate := "", formStartTime := "", formEndTime := "",
    formDuration := none }

/-- DOM of a page with two courts, the three sections, `#time-slots` and a
template confirmation modal. -/
def exampleDom : State :=
  { selectedDate := exampleToday
    courts := exampleCourts
    morningSlots := some { sectionContent := true, content := .template }
    daySlots := some { sectionContent := true, content := .template }
    eveningSlots := some { sectionContent := true, content := .template }
    timeSlots := some .template
    bookingConfirmModal := some exampleModal }

/-- The legacy page after `initCalendar`. -/
def exampleStart : State := initCalendar examplePage exampleToday exampleDom

/-- The legacy page after twelve steps forward from `exampleStart`. -/
def exampleLastWeek : State :=
  navigateWeeks examplePage exampleToday exampleStart (List.replicate 12 1)

/-- Slot items at 8, 10, 13 and 19 o'clock. -/
def exampleItems : List SlotItem :=
  [{ start_time := "08:00", end_time := "09:00", hour := 8 },
   { start_time := "10:00", end_time := "11:00", hour := 10 },
   { start_time := "13:00", end_time := "14:00", hour := 13 },
   { start_time := "19:00", end_time := "20:00", hour := 19 }]

/-- A successful reply of the slot list for court A. -/
def exampleSlotsResponse : SlotsResponse :=
  { success := true, items := some exampleItems, court_price := 1000, court_name := "Корт A",
    available_count := some 4 }

/-- Legacy-layout run: court A is chosen, its slots arrive, the user picks the
slot at 10:00 and then two hours. -/
def exampleLegacyChosen : State :=
  let s1 := courtClick examplePage exampleStart 0
  let s2 := (loadTimeSlots_settle 1000 examplePage s1
    (.response true (some exampleSlotsResponse))).toOption.getD s1
  let s3 := handleTimeSlotSelection examplePage s2 .morning 1
  (durationOptionClick s3 .two).toOption.getD s3

/-- The re-check request sent by the run `exampleLegacyChosen`. -/
def exampleCheckRequest : CheckRequest :=
  { court_id := some "1", date := "2026-11-06", start_time := "10:00", duration := 2,
    endTime := "12:00", courtPrice := 1000, courtName := "Корт A" }

/-- A reply of the re-check that reports the slot as taken. -/
def exampleTakenResponse : CheckResponse :=
  { success := true, available := false, message := some "Выбранное время уже занято" }

/-- A reply of the re-check that reports the slot as free. -/
def exampleFreeResponse : CheckResponse := { success := true, available := true }

/-- A successful reply of the slot list with one slot of ninety minutes. -/
def exampleLongSlotResponse : SlotsResponse :=
  { success := true
    items := some [{ start_time := "10:00", end_time := "11:30", hour := 10 }]
    court_price := 1000, court_name := "Корт A", available_count := some 1 }

/-- The section-based page after `initCalendar` and a click on court A. -/
def exampleNewLoading : State :=
  courtClick exampleNewPage (initCalendar exampleNewPage exampleToday exampleDom) 0

/-- Section-based layout run: court A is chosen, its slots arrive and the user
picks the slot at 10:00. -/
def exampleNewSelected : State :=
  let s2 := (loadTimeSlots_settle 1000 exampleNewPage exampleNewLoading
    (.response true (some exampleLongSlotResponse))).toOption.getD exampleNewLoading
  handleTimeSlotSelection exampleNewPage s2 .morning 0

/-- A successful reply of the slot list for court B. -/
def exampleCourtBResponse : SlotsResponse :=
  { success := true
    items := some [{ start_time := "09:00", end_time := "10:00", hour := 9 }]
    court_price := 1500, court_name := "Корт B", available_count := some 1 }

/-- Section-based run from `exampleNewSelected`: the user clicks the day cell
of Saturday 7 November and the slots of that day arrive. -/
def exampleDateChanged : Option State :=
  run 64 exampleNewPage exampleToday exampleNewSelected
    [.dayClick 5,
     .slotsSettled "1" "2026-11-07" (.response true (some exampleSlotsResponse))]

/-- Section-based run from `exampleNewLoading`, where the request for court A
is pending: the user clicks court B and the reply for court B arrives. -/
def exampleCourtBShown : State :=
  (run 64 exampleNewPage exampleToday exampleNewLoading
    [.courtClick 1,
     .slotsSettled "2" "2026-11-06" (.response true (some exampleCourtBResponse))]).getD
    exampleNewLoading

/-- Section-based run from `exampleNewLoading`, where the request for court A
is pending: the user clicks court B, the reply for court B arrives, and then
the reply for court A. -/
def exampleStaleReply : Option State :=
  run 64 exampleNewPage exampleToday exampleNewLoading
    [.courtClick 1,
     .slotsSettled "2" "2026-11-06" (.response true (some exampleCourtBResponse)),
     .slotsSettled "1" "2026-11-06" (.response true (some exampleSlotsResponse))]

/-- Legacy run from `exampleStart`: court A is chosen, its slots arrive, the
user picks the slot at 10:00, closes the duration selector and clicks the
confirm button. -/
def exampleConfirmWithoutCheck : Option State :=
  run 64 examplePage exampleToday exampleStart
    [.courtClick 0,
     .slotsSettled "1" "2026-11-06" (.response true (some exampleSlotsResponse)),
     .slotClick .morning 1,
     .durationClose,
     .confirmClick]

/-- A partner booking that can be joined. -/
def examplePartnerItem : SlotItem :=
  { type := some "partner_booking", start_time := "18:00", end_time := "19:00", hour := 18,
    booking_id := 7, creator_name := "Анна", current_players := 2, max_players := 4,
    price_per_person := 500, can_join := true }

/-- A partner booking that cannot be joined and gives no reason. -/
def exampleFullPartnerItem : SlotItem :=
  { type := some "partner_booking", start_time := "19:00", end_time := "20:00", hour := 19,
    booking_id := 8, creator_name := "Иван", current_players := 4, max_players := 4,
    price_per_person := 500, can_join := false }

/-- The legacy page once the slots of court A are shown, before any slot is
picked. -/
def exampleLegacyShown : State :=
  let s1 := courtClick examplePage exampleStart 0
  (loadTimeSlots_settle 1000 examplePage s1
    (.response true (some exampleSlotsResponse))).toOption.getD s1

/-- Slot items at 7, 9, 14, 22 and 18 o'clock, in this order. -/
def exampleEdgeItems : List SlotItem :=
  [{ start_time := "07:00", end_time := "08:00", hour := 7 },
   { start_time := "09:00", end_time := "10:00", hour := 9 },
   { start_time := "14:00", end_time := "15:00", hour := 14 },
   { start_time := "22:00", end_time := "23:00", hour := 22 },
   { start_time := "18:00", end_time := "19:00", hour := 18 }]

/-- Friday 2026-11-06, 23:30. -/
def exampleLateEvening : JsDate := { day := 20763, msOfDay := 84600000 }

/-- Saturday 2026-11-07, 00:10. -/
def exampleAfterMidnight : JsDate := { day := 20764, msOfDay := 600000 }

/-- The legacy page loaded on Friday at 23:30, with a click on the next-week
control and then on the previous-week control on Saturday at 00:10. -/
def examplePastMidnight : State :=
  prevWeekClick examplePage exampleAfterMidnight
    (nextWeekClick examplePage exampleAfterMidnight
      (initCalendar examplePage exampleLateEvening exampleDom))

/-- A successful reply of the slot list with no items. -/
def exampleEmptyResponse : SlotsResponse :=
  { success := true, items := some [], court_price := 1000, court_name := "Корт A",
    available_count := some 0 }

/-! # Theorems -/

/-! ## Calendar navigator -/

theorem setAllSectionContent_week (s : State) (c : SectionContent) :
    (s.setAllSectionContent c).currentWeekIndex = s.currentWeekIndex ∧
    (s.setAllSectionContent c).currentWeekStart = s.currentWeekStart := by
  simp [State.setAllSectionContent]

theorem showTimeSlotsMessage_week (p : Page) (s : State) (m : String) :
    (showTimeSlotsMessage p s m).currentWeekIndex = s.currentWeekIndex ∧
    (showTimeSlotsMessage p s m).currentWeekStart = s.currentWeekStart := by
  unfold showTimeSlotsMessage
  split
  · exact setAllSectionContent_week s _
  · split <;> simp

theorem loadTimeSlots_week (p : Page) (s : State) (c d : String) :
    (loadTimeSlots p s c d).currentWeekIndex = s.currentWeekIndex ∧
    (loadTimeSlots p s c d).currentWeekStart = s.currentWeekStart := by
  unfold loadTimeSlots
  by_cases h : p.isNewLayout <;> simp [h, State.setAllSectionContent]

theorem dayClick_week (p : Page) (s : State) (i : Nat) :
    (dayClick p s i).currentWeekIndex = s.currentWeekIndex ∧
    (dayClick p s i).currentWeekStart = s.currentWeekStart := by
  unfold dayClick
  split
  · simp
  · simp only []
    split
    · rw [(loadTimeSlots_week _ _ _ _).1, (loadTimeSlots_week _ _ _ _).2]; simp
    · split
      · rw [(showTimeSlotsMessage_week _ _ _).1, (showTimeSlotsMessage_week _ _ _).2]; simp
      · split <;> simp

theorem updatePrevButtonState_week (p : Page) (t : JsDate) (s : State) :
    (updatePrevButtonState p t s).currentWeekIndex = s.currentWeekIndex ∧
    (updatePrevButtonState p t s).currentWeekStart = s.currentWeekStart := by
  unfold updatePrevButtonState
  split
  · simp
  · simp only []
    split
    · simp
    · split <;> simp

theorem renderWeek_week (p : Page) (t : JsDate) (s : State) (d : JsDate) :
    (renderWeek p t s d).currentWeekIndex = s.currentWeekIndex ∧
    (renderWeek p t s d).currentWeekStart = s.currentWeekStart := by
  unfold renderWeek
  split
  · simp
  · simp only []
    split
    · rw [(dayClick_week _ _ _).1, (dayClick_week _ _ _).2,
        (updatePrevButtonState_week _ _ _).1, (updatePrevButtonState_week _ _ _).2]; simp
    · rw [(updatePrevButtonState_week _ _ _).1, (updatePrevButtonState_week _ _ _).2]; simp

theorem highlightSelectedDate_week (p : Page) (s : State) :
    (highlightSelectedDate p s).currentWeekIndex = s.currentWeekIndex ∧
    (highlightSelectedDate p s).currentWeekStart = s.currentWeekStart := by
  unfold highlightSelectedDate
  split
  · simp
  · simp only []
    split <;> simp

theorem navigateWeek_index_bounds (p : Page) (today : JsDate) (s : State) (direction : Int)
    (h : 0 ≤ s.currentWeekIndex ∧ s.currentWeekIndex ≤ 12) :
    0 ≤ (navigateWeek p today s direction).currentWeekIndex ∧
      (navigateWeek p today s direction).currentWeekIndex ≤ 12 := by
  unfold navigateWeek
  split
  · exact h
  · simp only []
    split
    · simp
    · split
      · simp [MAX_WEEKS_AHEAD]
      · rw [(renderWeek_week _ _ _ _).1]
        simp only [MAX_WEEKS_AHEAD] at *
        constructor <;> omega

theorem navigateWeeksAt_index_bounds (p : Page) (steps : List (JsDate × Int)) :
    ∀ s : State, (0 ≤ s.currentWeekIndex ∧ s.currentWeekIndex ≤ 12) →
      0 ≤ (navigateWeeksAt p s steps).currentWeekIndex ∧
        (navigateWeeksAt p s steps).currentWeekIndex ≤ 12 := by
  induction steps with
  | nil => intro s h; simpa [navigateWeeksAt] using h
  | cons st rest ih =>
    intro s h
    have := ih (navigateWeek p st.1 s st.2) (navigateWeek_index_bounds p st.1 s st.2 h)
    simpa [navigateWeeksAt] using this

/-- C1: from a state with week index 0, after any finite sequence of
`navigateWeek` calls with directions -1 or +1 (whatever the current date is
at each call) `currentWeekIndex` lies in `[0, 12]`. -/
theorem navigateWeek_sequence_index_in_range (p : Page) (s : State)
    (steps : List (JsDate × Int)) (hinit : s.currentWeekIndex = 0)
    (_hdir : ∀ st ∈ steps, st.2 = -1 ∨ st.2 = 1) :
    0 ≤ (navigateWeeksAt p s steps).currentWeekIndex ∧
      (navigateWeeksAt p s steps).currentWeekIndex ≤ 12 :=
  navigateWeeksAt_index_bounds p steps s (by omega)

/-- Witness of C1 on the sample page, for the steps forward, back, back. -/
theorem navigateWeek_sequence_index_in_range_witness :
    exampleStart.currentWeekIndex = 0 ∧
    (∀ st ∈ [(exampleToday, (1 : Int)), (exampleToday, -1), (exampleToday, -1)],
      st.2 = -1 ∨ st.2 = 1) ∧
    0 ≤ (navigateWeeksAt examplePage exampleStart
      [(exampleToday, 1), (exampleToday, -1), (exampleToday, -1)]).currentWeekIndex ∧
    (navigateWeeksAt examplePage exampleStart
      [(exampleToday, 1), (exampleToday, -1), (exampleToday, -1)]).currentWeekIndex ≤ 12 :=
  ⟨by decide, by decide,
    navigateWeek_sequence_index_in_range examplePage exampleStart _ (by decide) (by decide)⟩

theorem setDate_getDate_add (d : JsDate) (k : Int) :
    (d.setDate (d.getDate + k)).day = d.day + k ∧
      (d.setDate (d.getDate + k)).msOfDay = d.msOfDay := by
  simp only [JsDate.setDate]
  constructor
  · omega
  · trivial

theorem getWeekStartDate_day (date : JsDate) :
    (getWeekStartDate date).day = date.day - (date.day + 3) % 7 ∧
      (getWeekStartDate date).msOfDay = date.msOfDay := by
  simp only [getWeekStartDate, JsDate.setDate, JsDate.getDay]
  constructor
  · split <;> omega
  · trivial

theorem initCalendar_weekInv (p : Page) (today : JsDate) (s : State) :
    WeekInv today (initCalendar p today s) := by
  refine ⟨getWeekStartDate today, ?_, ?_, rfl, ?_, ?_⟩ <;>
    simp [initCalendar, (highlightSelectedDate_week _ _).1, (highlightSelectedDate_week _ _).2,
      (renderWeek_week _ _ _ _).1, (renderWeek_week _ _ _ _).2]

theorem navigateWeek_weekInv (p : Page) (today : JsDate) (s : State) (direction : Int)
    (hdir : direction = -1 ∨ direction = 1) (h : WeekInv today s) :
    WeekInv today (navigateWeek p today s direction) := by
  obtain ⟨ws, hws, hday, hms, h0, h12⟩ := h
  unfold navigateWeek
  rw [hws]
  simp only [MAX_WEEKS_AHEAD]
  split
  · exact ⟨ws, rfl, by simp only []; omega, hms, by simp, by simp⟩
  · split
    · exact ⟨ws, rfl, by simp only []; omega, hms, by simp, by simp⟩
    · refine ⟨ws.setDate (ws.getDate + direction * 7), ?_, ?_, ?_, ?_, ?_⟩
      · rw [(renderWeek_week _ _ _ _).2]
      · rw [(renderWeek_week _ _ _ _).1, (setDate_getDate_add _ _).1]
        simp only []; omega
      · rw [(setDate_getDate_add _ _).2]; exact hms
      · rw [(renderWeek_week _ _ _ _).1]; simp only [] at *; omega
      · rw [(renderWeek_week _ _ _ _).1]; simp only [] at *; omega

theorem navigateWeeks_weekInv (p : Page) (today : JsDate) (directions : List Int) :
    ∀ s : State, (∀ d ∈ directions, d = -1 ∨ d = 1) → WeekInv today s →
      WeekInv today (navigateWeeks p today s directions) := by
  induction directions with
  | nil => intro s _ h; simpa [navigateWeeks] using h
  | cons d rest ih =>
    intro s hd h
    have h1 := navigateWeek_weekInv p today s d (hd d (by simp)) h
    have := ih (navigateWeek p today s d) (fun x hx => hd x (by simp [hx])) h1
    simpa [navigateWeeks] using this

/-- C2: with the current date held fixed, after `initCalendar` and any finite
sequence of `navigateWeek` calls with directions -1 or +1 the window start
`currentWeekStart` is set and does not precede the Monday of the week that
contains today: neither as a time stamp compared with `getWeekStartDate(today)`
nor as a calendar day compared with today minus its number of days since
Monday. -/
theorem navigateWeek_sequence_start_not_before_monday (p : Page) (today : JsDate)
    (dom : State) (directions : List Int) (hdir : ∀ d ∈ directions, d = -1 ∨ d = 1) :
    ∃ ws, (navigateWeeks p today (initCalendar p today dom) directions).currentWeekStart
        = some ws ∧
      (getWeekStartDate today).getTime ≤ ws.getTime ∧
      today.day - (today.day + 3) % 7 ≤ ws.day := by
  obtain ⟨ws, hws, hday, hms, h0, _⟩ :=
    navigateWeeks_weekInv p today directions _ hdir (initCalendar_weekInv p today dom)
  refine ⟨ws, hws, ?_, ?_⟩
  · simp only [JsDate.getTime, JsDate.msPerDay, hms]
    omega
  · rw [← (getWeekStartDate_day today).1]; omega

/-- Witness of C2 on the sample page, for two steps forward and three back. -/
theorem navigateWeek_sequence_start_not_before_monday_witness :
    (∀ d ∈ [(1 : Int), 1, -1, -1, -1], d = -1 ∨ d = 1) ∧
    ∃ ws, (navigateWeeks examplePage exampleToday (initCalendar examplePage exampleToday
        exampleDom) [1, 1, -1, -1, -1]).currentWeekStart = some ws ∧
      (getWeekStartDate exampleToday).getTime ≤ ws.getTime ∧
      exampleToday.day - (exampleToday.day + 3) % 7 ≤ ws.day :=
  ⟨by decide, navigateWeek_sequence_start_not_before_monday examplePage exampleToday
    exampleDom [1, 1, -1, -1, -1] (by decide)⟩

/-- C3: `navigateWeek(-1)` in a state with week index 0, and `navigateWeek(+1)`
in a state with week index 12, return the state they were given: week index,
window start, selected date and every other field are unchanged, and the log
has no new `renderWeek` entry. -/
theorem navigateWeek_noop_at_bounds (p : Page) (today : JsDate) (s : State) :
    (s.currentWeekIndex = 0 → navigateWeek p today s (-1) = s) ∧
    (s.currentWeekIndex = 12 → navigateWeek p today s 1 = s) := by
  constructor
  · intro h
    unfold navigateWeek
    split
    · rfl
    · cases s
      simp only [] at h
      simp [h]
  · intro h
    unfold navigateWeek
    split
    · rfl
    · cases s
      simp only [] at h
      simp [h, MAX_WEEKS_AHEAD]

/-- Witness of C3 on the sample page: the first week and the last week. -/
theorem navigateWeek_noop_at_bounds_witness :
    exampleStart.currentWeekIndex = 0 ∧
    navigateWeek examplePage exampleToday exampleStart (-1) = exampleStart ∧
    exampleLastWeek.currentWeekIndex = 12 ∧
    navigateWeek examplePage exampleToday exampleLastWeek 1 = exampleLastWeek :=
  ⟨by decide,
    (navigateWeek_noop_at_bounds examplePage exampleToday exampleStart).1 (by decide),
    by decide,
    (navigateWeek_noop_at_bounds examplePage exampleToday exampleLastWeek).2 (by decide)⟩

/-! ## End time -/

theorem digitsValue_no_colon (hs : List Char) :
    ∀ (acc h : Nat), digitsValue acc hs = some h → ∀ c ∈ hs, c ≠ ':' := by
  induction hs with
  | nil => intro _ _ _ c hc; simp at hc
  | cons x xs ih =>
    intro acc h hv c hc
    simp only [digitsValue] at hv
    cases hx : digitValue x with
    | none => simp [hx] at hv
    | some v =>
      simp only [hx] at hv
      rcases List.mem_cons.1 hc with rfl | hmem
      · intro hcolon
        rw [hcolon] at hx
        have hnone : digitValue ':' = none := by decide
        rw [hnone] at hx
        exact Option.noConfusion hx
      · exact ih _ _ hv c hmem

theorem splitOnChar_append (sep : Char) (hs rest : List Char) (h : ∀ c ∈ hs, c ≠ sep) :
    splitOnChar sep (hs ++ sep :: rest) = hs :: splitOnChar sep rest := by
  induction hs with
  | nil => simp [splitOnChar]
  | cons x xs ih =>
    have hx : x ≠ sep := h x (by simp)
    have := ih (fun c hc => h c (by simp [hc]))
    simp [splitOnChar, hx, this]

theorem padStart2_two_digits (n : Nat) (hn : n ≤ 26) : padStart2 n ++ ":00" = hourText n := by
  interval_cases n <;> rfl

theorem calculateEndTime_hour_field (hs rest : List Char) (h d : Nat)
    (hfield : jsNumber hs = some h) (hbound : h + d ≤ 26) :
    calculateEndTime (String.mk (hs ++ ':' :: rest)) d = some (hourText (h + d)) := by
  have hsplit := splitOnChar_append ':' hs rest (digitsValue_no_colon hs 0 h hfield)
  have hsafe : h + d ≤ MAX_SAFE_INTEGER := by unfold MAX_SAFE_INTEGER; omega
  simp only [calculateEndTime, hsplit, List.map_cons, List.head?_cons, hfield, hsafe, if_true]
  rw [padStart2_two_digits (h + d) hbound]

/-- C4: for a start time whose hour field (the text before the first colon)
is a decimal numeral of value `h` with `h ≤ 23`, and a duration `d` of 1, 2
or 3, `calculateEndTime(start, d)` is the decimal of `h + d` left-padded with
zeros to two digits, followed by ":00", with no wrap at 24; in particular
`calculateEndTime("18:00", 2) = "20:00"` and
`calculateEndTime("23:00", 2) = "25:00"`. -/
theorem calculateEndTime_adds_hours (hs rest : List Char) (h d : Nat)
    (hfield : jsNumber hs = some h) (hh : h ≤ 23) (hd : d = 1 ∨ d = 2 ∨ d = 3) :
    calculateEndTime (String.mk (hs ++ ':' :: rest)) d = some (hourText (h + d)) ∧
      calculateEndTime "18:00" 2 = some "20:00" ∧
      calculateEndTime "23:00" 2 = some "25:00" :=
  ⟨calculateEndTime_hour_field hs rest h d hfield (by omega), by rfl, by rfl⟩

/-- Witness of C4: the start time "09:30" with three hours gives "12:00". -/
theorem calculateEndTime_adds_hours_witness :
    jsNumber ['0', '9'] = some 9 ∧ 9 ≤ 23 ∧ (3 = 1 ∨ 3 = 2 ∨ 3 = 3) ∧
    String.mk (['0', '9'] ++ ':' :: ['3', '0']) = "09:30" ∧ hourText (9 + 3) = "12:00" ∧
    (calculateEndTime (String.mk (['0', '9'] ++ ':' :: ['3', '0'])) 3 =
        some (hourText (9 + 3)) ∧
      calculateEndTime "18:00" 2 = some "20:00" ∧
      calculateEndTime "23:00" 2 = some "25:00") :=
  ⟨by decide, by decide, by decide, by rfl, by rfl,
    calculateEndTime_adds_hours ['0', '9'] ['3', '0'] 9 3 (by decide) (by decide) (by decide)⟩

/-! ## Court selector -/

theorem loadTimeSlots_selection (p : Page) (s : State) (c d : String) :
    (loadTimeSlots p s c d).selectedDuration = s.selectedDuration ∧
    (loadTimeSlots p s c d).selectedTimeSlot = s.selectedTimeSlot := by
  unfold loadTimeSlots
  by_cases h : p.isNewLayout <;> simp [h, State.setAllSectionContent]

/-- C5, counterexample: in the legacy layout, after the user has picked the
slot at 10:00 and two hours on court A, a click on court B clears
`selectedTimeSlot` but leaves `selectedDuration` at 2, not at its default 1. -/
theorem courtClick_keeps_duration_counterexample :
    exampleLegacyChosen.selectedDuration = 2 ∧
    (courtClick examplePage exampleLegacyChosen 1).selectedDuration = 2 ∧
    ¬ ((courtClick examplePage exampleLegacyChosen 1).selectedTimeSlot = none ∧
        (courtClick examplePage exampleLegacyChosen 1).selectedDuration = 1) := by
  decide

/-- C5, amended: for every state, after the click handler of a court element
has run, `selectedTimeSlot` is null and `selectedDuration` has the value it
had before the click. -/
theorem courtClick_clears_slot_keeps_duration (p : Page) (s : State) (i : Nat)
    (hi : i < s.courts.length) :
    (courtClick p s i).selectedTimeSlot = none ∧
      (courtClick p s i).selectedDuration = s.selectedDuration := by
  unfold courtClick
  have hget : s.courts.get? i = some (s.courts.get ⟨i, hi⟩) := List.get?_eq_get hi
  rw [hget]
  simp [resetTimeSelection, (loadTimeSlots_selection _ _ _ _).1]

/-- Witness of the amended C5: a click on court B after a slot and two hours
were chosen on court A. -/
theorem courtClick_clears_slot_keeps_duration_witness :
    1 < exampleLegacyChosen.courts.length ∧
    exampleLegacyChosen.selectedTimeSlot =
      some { startTime := "10:00", endTime := "11:00", hour := 10 } ∧
    (courtClick examplePage exampleLegacyChosen 1).selectedTimeSlot = none ∧
      (courtClick examplePage exampleLegacyChosen 1).selectedDuration =
        exampleLegacyChosen.selectedDuration :=
  ⟨by decide, by decide,
    courtClick_clears_slot_keeps_duration examplePage exampleLegacyChosen 1 (by decide)⟩

/-! ## Slot loader -/

theorem renderTimeSlotsBySections_sections (p : Page) (s : State) (items : List SlotItem)
    (courtPrice : Nat) (courtName : String) (m d e : SectionEl) (hne : items ≠ [])
    (hm : s.morningSlots = some m) (hd : s.daySlots = some d) (he : s.eveningSlots = some e) :
    (renderTimeSlotsBySections p s (some items) courtPrice courtName).morningSlots =
        some { m with content := bucketContent p (morningItems items) courtPrice courtName } ∧
    (renderTimeSlotsBySections p s (some items) courtPrice courtName).daySlots =
        some { d with content := bucketContent p (dayItems items) courtPrice courtName } ∧
    (renderTimeSlotsBySections p s (some items) courtPrice courtName).eveningSlots =
        some { e with content := bucketContent p (eveningItems items) courtPrice courtName } := by
  have hlen : ¬ items.length = 0 := by
    intro h; exact hne (List.length_eq_zero.1 h)
  simp only [renderTimeSlotsBySections, hlen, if_false]
  refine ⟨?_, ?_, ?_⟩ <;>
    simp only [renderTimeSection, State.getSection, State.setSection, hm, hd, he, bucketContent] <;>
    (repeat' split) <;> simp_all

theorem buckets_of_hours_8_13_19 (items : List SlotItem)
    (h : items.map (fun item => item.hour) = [8, 13, 19]) :
    (morningItems items).length = 1 ∧ (dayItems items).length = 1 ∧
      (eveningItems items).length = 1 := by
  rcases items with _ | ⟨a, _ | ⟨b, _ | ⟨c, _ | ⟨d, l⟩⟩⟩⟩
  · simp at h
  · simp at h
  · simp at h
  · simp only [List.map_cons, List.map_nil, List.cons.injEq, and_true] at h
    obtain ⟨ha, hb, hc⟩ := h
    simp [morningItems, dayItems, eveningItems, List.filter, ha, hb, hc]
  · simp at h

/-- C6: for every non-empty list of slot items (hours are integers) rendered
by `renderTimeSlotsBySections` on a page that has the three section elements,
an item is in the morning bucket iff `8 ≤ hour < 12`, in the day bucket iff
`12 ≤ hour < 17` and in the evening bucket iff `17 ≤ hour < 22`; no item is
in two buckets; each section then holds the rendering of exactly its own
bucket; and items with hours `[8, 13, 19]` give exactly one item per bucket. -/
theorem renderTimeSlotsBySections_buckets (p : Page) (s : State) (items : List SlotItem)
    (courtPrice : Nat) (courtName : String) (m d e : SectionEl) (hne : items ≠ [])
    (hm : s.getSection .morning = some m) (hd : s.getSection .day = some d)
    (he : s.getSection .evening = some e) :
    (∀ item, item ∈ morningItems items ↔ item ∈ items ∧ 8 ≤ item.hour ∧ item.hour < 12) ∧
    (∀ item, item ∈ dayItems items ↔ item ∈ items ∧ 12 ≤ item.hour ∧ item.hour < 17) ∧
    (∀ item, item ∈ eveningItems items ↔ item ∈ items ∧ 17 ≤ item.hour ∧ item.hour < 22) ∧
    (∀ item, ¬ (item ∈ morningItems items ∧ item ∈ dayItems items) ∧
      ¬ (item ∈ morningItems items ∧ item ∈ eveningItems items) ∧
      ¬ (item ∈ dayItems items ∧ item ∈ eveningItems items)) ∧
    ((renderTimeSlotsBySections p s (some items) courtPrice courtName).getSection .morning =
        some { m with content := bucketContent p (morningItems items) courtPrice courtName } ∧
      (renderTimeSlotsBySections p s (some items) courtPrice courtName).getSection .day =
        some { d with content := bucketContent p (dayItems items) courtPrice courtName } ∧
      (renderTimeSlotsBySections p s (some items) courtPrice courtName).getSection .evening =
        some { e with content := bucketContent p (eveningItems items) courtPrice courtName }) ∧
    (items.map (fun item => item.hour) = [8, 13, 19] →
      (morningItems items).length = 1 ∧ (dayItems items).length = 1 ∧
        (eveningItems items).length = 1) := by
  have hmem1 : ∀ item, item ∈ morningItems items ↔
      item ∈ items ∧ 8 ≤ item.hour ∧ item.hour < 12 := by
    intro item; simp [morningItems, List.mem_filter]
  have hmem2 : ∀ item, item ∈ dayItems items ↔
      item ∈ items ∧ 12 ≤ item.hour ∧ item.hour < 17 := by
    intro item; simp [dayItems, List.mem_filter]
  have hmem3 : ∀ item, item ∈ eveningItems items ↔
      item ∈ items ∧ 17 ≤ item.hour ∧ item.hour < 22 := by
    intro item; simp [eveningItems, List.mem_filter]
  refine ⟨hmem1, hmem2, hmem3, ?_, ?_, buckets_of_hours_8_13_19 items⟩
  · intro item
    rw [hmem1, hmem2, hmem3]
    refine ⟨?_, ?_, ?_⟩ <;> intro h <;> omega
  · exact renderTimeSlotsBySections_sections p s items courtPrice courtName m d e hne hm hd he

/-- Witness of C6: the sample items at 8, 10, 13 and 19 o'clock, rendered on
the sample page. -/
theorem renderTimeSlotsBySections_buckets_witness :
    exampleItems ≠ [] ∧
    (morningItems exampleItems).map (fun item => item.hour) = [8, 10] ∧
    (dayItems exampleItems).map (fun item => item.hour) = [13] ∧
    (eveningItems exampleItems).map (fun item => item.hour) = [19] ∧
    (renderTimeSlotsBySections examplePage exampleStart (some exampleItems) 1000
        "Корт A").getSection .morning =
      some { sectionContent := true,
             content := bucketContent examplePage (morningItems exampleItems) 1000 "Корт A" } :=
  ⟨by decide, by decide, by decide, by decide,
    (renderTimeSlotsBySections_buckets examplePage exampleStart exampleItems 1000 "Корт A"
      { sectionContent := true, content := .template }
      { sectionContent := true, content := .template }
      { sectionContent := true, content := .template }
      (by decide) (by decide) (by decide) (by decide)).2.2.2.2.1.1⟩

theorem bucketContent_notBlank (p : Page) (bucket : List SlotItem) (cp : Nat) (cn : String) :
    (bucketContent p bucket cp cn).notBlank = true := by
  unfold bucketContent
  split
  · rfl
  · cases bucket with
    | nil => simp at *
    | cons a l => simp [SectionContent.notBlank]

theorem showTimeSlotsMessage_new_sections (p : Page) (s : State) (msg : String)
    (m d e : SectionEl) (hp : p.isNewLayout = true)
    (hm : s.morningSlots = some m) (hd : s.daySlots = some d) (he : s.eveningSlots = some e)
    (hcm : m.sectionContent = true) (hcd : d.sectionContent = true)
    (hce : e.sectionContent = true) :
    (showTimeSlotsMessage p s msg).morningSlots = some { m with content := .message msg } ∧
    (showTimeSlotsMessage p s msg).daySlots = some { d with content := .message msg } ∧
    (showTimeSlotsMessage p s msg).eveningSlots = some { e with content := .message msg } := by
  simp [showTimeSlotsMessage, hp, State.setAllSectionContent, hm, hd, he, hcm, hcd, hce]

/-- C10, legacy layout: on the legacy page a successful reply with
`items = []` writes the message into `#time-slots` only. The three sections
stay as they were: blank when nothing was rendered before, and with the four
slot elements of the earlier load when slots were shown. -/
theorem loadTimeSlots_empty_legacy_blank_counterexample :
    examplePage.isNewLayout = false ∧
    exampleEmptyResponse.success = true ∧ exampleEmptyResponse.items = some [] ∧
    (∃ s1, loadTimeSlots_settle 0 examplePage (courtClick examplePage exampleStart 0)
        (.response true (some exampleEmptyResponse)) = .ok s1 ∧
      s1.timeSlots = some (.message "Нет доступных слотов на выбранную дату") ∧
      (∀ name, ∃ el, s1.getSection name = some el ∧ el.content = .template ∧
        el.content.notBlank = false)) ∧
    (∃ s1, loadTimeSlots_settle 0 examplePage exampleLegacyShown
        (.response true (some exampleEmptyResponse)) = .ok s1 ∧
      s1.timeSlots = some (.message "Нет доступных слотов на выбранную дату") ∧
      s1.slotElements = exampleLegacyShown.slotElements ∧
      s1.slotElements.length = 4) := by
  refine ⟨by decide, by decide, by decide, ⟨_, rfl, by decide, ?_⟩, ⟨_, rfl, by decide, by decide,
    by decide⟩⟩
  intro name
  cases name <;> exact ⟨_, rfl, by decide, by decide⟩

/-- C10: on a page whose three section elements exist and carry class
`section-content`, the promise chain of `loadTimeSlots` for a reply with
`success = true` ends normally. For a list with at least one item, in either
layout, no section is left blank: each holds the "no slots" placeholder or a
grid with at least one slot element. In the section-based layout no section
is left blank for any reply, and for `items = []` all three sections show the
message "Нет доступных слотов на выбранную дату". In the legacy layout a
reply without items writes that message into `#time-slots` and leaves the
three sections as they were. -/
theorem loadTimeSlots_success_sections_by_layout (stack : Nat) (p : Page) (s : State)
    (data : SlotsResponse) (m d e : SectionEl)
    (hsucc : data.success = true)
    (hm : s.getSection .morning = some m) (hd : s.getSection .day = some d)
    (he : s.getSection .evening = some e)
    (hcm : m.sectionContent = true) (hcd : d.sectionContent = true)
    (hce : e.sectionContent = true) :
    ∃ s1, loadTimeSlots_settle stack p s (.response true (some data)) = .ok s1 ∧
      (∀ items, (data.items <|> data.slots) = some items → items ≠ [] →
        ∀ name, ∃ el, s1.getSection name = some el ∧ el.content.notBlank = true) ∧
      (p.isNewLayout = true →
        (∀ name, ∃ el, s1.getSection name = some el ∧ el.content.notBlank = true) ∧
        (data.items = some [] → ∀ name, ∃ el, s1.getSection name = some el ∧
          el.content = .message "Нет доступных слотов на выбранную дату")) ∧
      (p.isNewLayout = false →
        ((data.items <|> data.slots) = some [] ∨ (data.items <|> data.slots) = none) →
        (∀ name, s1.getSection name = s.getSection name) ∧
        s1.timeSlots =
          s.timeSlots.map fun _ => .message "Нет доступных слотов на выбранную дату") := by
  have hm1 : s.morningSlots = some m := hm
  have hd1 : s.daySlots = some d := hd
  have he1 : s.eveningSlots = some e := he
  have hnonempty : ∀ items, (data.items <|> data.slots) = some items → items ≠ [] →
      ∀ name, ∃ el, (renderTimeSlotsBySections p s (data.items <|> data.slots) data.court_price
        data.court_name).getSection name = some el ∧ el.content.notBlank = true := by
    intro items hitems hne name
    have hr := renderTimeSlotsBySections_sections p s items data.court_price
      data.court_name m d e hne hm1 hd1 he1
    rw [hitems]
    cases name <;> simp [State.getSection, hr, bucketContent_notBlank]
  refine ⟨renderTimeSlotsBySections p s (data.items <|> data.slots) data.court_price
    data.court_name, by simp [loadTimeSlots_settle, loadTimeSlots_then, hsucc], hnonempty,
    ?_, ?_⟩
  · intro hp
    have hmsg := showTimeSlotsMessage_new_sections p s
      "Нет доступных слотов на выбранную дату" m d e hp hm1 hd1 he1 hcm hcd hce
    constructor
    · cases hitems : (data.items <|> data.slots) with
      | none =>
        intro name
        cases name <;>
          simp [renderTimeSlotsBySections, State.getSection, hmsg, SectionContent.notBlank]
      | some items =>
        cases items with
        | nil =>
          intro name
          cases name <;>
            simp [renderTimeSlotsBySections, State.getSection, hmsg, SectionContent.notBlank]
        | cons a l =>
          have := hnonempty (a :: l) hitems (by simp)
          rw [hitems] at this
          exact this
    · intro hitems name
      cases name <;>
        simp [hitems, renderTimeSlotsBySections, State.getSection, hmsg]
  · intro hp hempty
    have hrender : renderTimeSlotsBySections p s (data.items <|> data.slots) data.court_price
        data.court_name =
        showTimeSlotsMessage p s "Нет доступных слотов на выбранную дату" := by
      rcases hempty with h | h <;> rw [h] <;> simp [renderTimeSlotsBySections]
    rw [hrender]
    simp only [showTimeSlotsMessage, hp, Bool.false_eq_true, if_false]
    cases hts : s.timeSlots with
    | none => exact ⟨fun name => by cases name <;> rfl, hts⟩
    | some c => exact ⟨fun name => by cases name <;> rfl, rfl⟩

/-- Witness of C10: the reply with the sample items arrives on the
section-based page while its sections show the spinner. -/
theorem loadTimeSlots_success_sections_by_layout_witness :
    exampleSlotsResponse.success = true ∧ exampleNewPage.isNewLayout = true ∧
    exampleNewLoading.getSection .morning =
      some { sectionContent := true, content := .loading } ∧
    (∃ s1, loadTimeSlots_settle 0 exampleNewPage exampleNewLoading
        (.response true (some exampleEmptyResponse)) = .ok s1 ∧
      s1.getSection .morning =
        some (SectionEl.mk true (.message "Нет доступных слотов на выбранную дату"))) ∧
    ∃ s1, loadTimeSlots_settle 0 exampleNewPage exampleNewLoading
        (.response true (some exampleSlotsResponse)) = .ok s1 ∧
      (∀ items, (exampleSlotsResponse.items <|> exampleSlotsResponse.slots) = some items →
        items ≠ [] →
        ∀ name, ∃ el, s1.getSection name = some el ∧ el.content.notBlank = true) ∧
      (exampleNewPage.isNewLayout = true →
        (∀ name, ∃ el, s1.getSection name = some el ∧ el.content.notBlank = true) ∧
        (exampleSlotsResponse.items = some [] → ∀ name, ∃ el, s1.getSection name = some el ∧
          el.content = .message "Нет доступных слотов на выбранную дату")) ∧
      (exampleNewPage.isNewLayout = false →
        ((exampleSlotsResponse.items <|> exampleSlotsResponse.slots) = some [] ∨
          (exampleSlotsResponse.items <|> exampleSlotsResponse.slots) = none) →
        (∀ name, s1.getSection name = exampleNewLoading.getSection name) ∧
        s1.timeSlots = exampleNewLoading.timeSlots.map fun _ =>
          .message "Нет доступных слотов на выбранную дату") :=
  ⟨by decide, by decide, by decide, ⟨_, rfl, by decide⟩,
    loadTimeSlots_success_sections_by_layout 0 exampleNewPage exampleNewLoading
      exampleSlotsResponse
      { sectionContent := true, content := .loading }
      { sectionContent := true, content := .loading }
      { sectionContent := true, content := .loading }
      (by decide) (by decide) (by decide) (by decide) (by decide) (by decide)
      (by decide)⟩

/-! ## Availability re-check and confirmation -/

theorem showMessage_overflows (stack : Nat) :
    ∀ (s : State) (message type : String),
      showMessage stack s message type = .error (.thrown .stackOverflow) := by
  induction stack with
  | zero => intro s message type; rfl
  | succ n ih =>
    intro s message type
    simp only [showMessage, showMessageDefined, if_true]
    exact ih s type message

theorem showErrorMessage_overflows (stack : Nat) (s : State) (message : String) :
    showErrorMessage stack s message = .error (.thrown .stackOverflow) := by
  cases stack with
  | zero => rfl
  | succ n =>
    simp only [showErrorMessage, showMessageDefined, if_true]
    exact showMessage_overflows n s "error" message

theorem checkExtendedAvailability_settle_unavailable (stack : Nat) (p : Page) (s : State)
    (req : CheckRequest) (data : CheckResponse) (ok : Bool)
    (h : (data.success && data.available) = false) :
    checkExtendedAvailability_then stack p s req data = .error (.thrown .stackOverflow) ∧
    checkExtendedAvailability_settle stack p s req (.response ok (some data)) =
      .error (.thrown .stackOverflow) := by
  have hthen : checkExtendedAvailability_then stack p s req data =
      .error (.thrown .stackOverflow) := by
    simp [checkExtendedAvailability_then, h, showErrorMessage_overflows]
  exact ⟨hthen, by
    simp [checkExtendedAvailability_settle, hthen, checkExtendedAvailability_catch,
      showErrorMessage_overflows]⟩

/-- C7, the code at the failing input: the re-check request of the sample run
is answered with `available = false` and a message. Whatever the size of the
call stack, the `then` callback does not return: `showErrorMessage` calls the
`showMessage` of `booking.js`, which calls itself until the stack is
exhausted. The `catch` callback fails in the same way, so the promise chain
ends with an uncaught error: no message is shown and no slot list is
requested. -/
theorem checkExtendedAvailability_unavailable_overflows (stack : Nat) :
    exampleLegacyChosen.log.getLast? = some (.fetchCheck exampleCheckRequest) ∧
    checkExtendedAvailability_then stack examplePage exampleLegacyChosen exampleCheckRequest
        exampleTakenResponse = .error (.thrown .stackOverflow) ∧
    checkExtendedAvailability_settle stack examplePage exampleLegacyChosen exampleCheckRequest
        (.response true (some exampleTakenResponse)) = .error (.thrown .stackOverflow) := by
  have h := checkExtendedAvailability_settle_unavailable stack examplePage exampleLegacyChosen
    exampleCheckRequest exampleTakenResponse true (by decide)
  exact ⟨by decide, h.1, h.2⟩

/-- C8: when the reply of the re-check has `success = true` and
`available = true`, the `then` callback of `checkExtendedAvailability` is the
call of `showBookingConfirmation` with the start time, end time, duration,
price and court name of the request; if the promise chain ends normally, the
log is the one it started with, so no slot list was requested; and on a page
with an active court element whose confirmation modal, if present, is the one
of the template, the chain ends normally with the confirmation modal visible
and filled with the same start time, end time and duration. -/
theorem checkExtendedAvailability_available_confirms (stack : Nat) (p : Page) (s : State)
    (req : CheckRequest) (data : CheckResponse) (ok : Bool)
    (hs : data.success = true) (ha : data.available = true) :
    checkExtendedAvailability_then stack p s req data =
        showBookingConfirmation s req.start_time req.endTime req.duration req.courtPrice
          req.courtName ∧
    (∀ s1, checkExtendedAvailability_settle stack p s req (.response ok (some data)) = .ok s1 →
      s1.log = s.log) ∧
    (∀ court, activeCourt s = some court →
      (∀ modal, s.bookingConfirmModal = some modal → modal.dynamic = false) →
      ∃ s1 modal, checkExtendedAvailability_settle stack p s req (.response ok (some data))
          = .ok s1 ∧
        s1.log = s.log ∧
        s1.bookingConfirmModal = some modal ∧ modal.visible = true ∧
        modal.formStartTime = req.start_time ∧ modal.formEndTime = req.endTime ∧
        modal.formDuration = some (toString req.duration) ∧
        modal.time = req.start_time ++ " - " ++ req.endTime ++
          (if modal.dynamic then " (" ++ toString req.duration ++ " ч)" else "")) := by
  have hthen : checkExtendedAvailability_then stack p s req data =
      showBookingConfirmation s req.start_time req.endTime req.duration req.courtPrice
        req.courtName := by
    simp [checkExtendedAvailability_then, hs, ha]
  refine ⟨hthen, ?_, ?_⟩
  · intro s1 h
    simp only [checkExtendedAvailability_settle, hthen] at h
    simp only [checkExtendedAvailability_catch, showErrorMessage_overflows] at h
    unfold showBookingConfirmation at h
    cases hc : activeCourt s with
    | none => simp [hc] at h; rw [← h]
    | some court =>
      simp only [hc] at h
      cases hm : s.bookingConfirmModal with
      | none =>
        simp [hm, createDynamicBookingModal] at h
        rw [← h]
      | some modal =>
        simp only [hm, fillConfirmModal] at h
        by_cases hdyn : modal.dynamic = true
        · simp [hdyn] at h
        · simp [hdyn] at h
          rw [← h]
  · intro court hc hmodal
    simp only [checkExtendedAvailability_settle, hthen]
    unfold showBookingConfirmation
    simp only [hc]
    cases hm : s.bookingConfirmModal with
    | none =>
      simp [createDynamicBookingModal, String.append_assoc]
    | some modal =>
      have hdyn := hmodal modal hm
      simp [fillConfirmModal, hdyn]

/-- Witness of C8: the re-check request of the sample run is answered with
`success = true` and `available = true`. -/
theorem checkExtendedAvailability_available_confirms_witness :
    exampleFreeResponse.success = true ∧ exampleFreeResponse.available = true ∧
    activeCourt exampleLegacyChosen =
      some { courtId := "1", courtPrice := 1000, name := "Корт A", active := true } ∧
    ∃ s1 modal, checkExtendedAvailability_settle 0 examplePage exampleLegacyChosen
        exampleCheckRequest (.response true (some exampleFreeResponse)) = .ok s1 ∧
      s1.log = exampleLegacyChosen.log ∧
      s1.bookingConfirmModal = some modal ∧ modal.visible = true ∧
      modal.formStartTime = exampleCheckRequest.start_time ∧
      modal.formEndTime = exampleCheckRequest.endTime ∧
      modal.formDuration = some (toString exampleCheckRequest.duration) ∧
      modal.time = exampleCheckRequest.start_time ++ " - " ++ exampleCheckRequest.endTime ++
        (if modal.dynamic then " (" ++ toString exampleCheckRequest.duration ++ " ч)"
          else "") :=
  ⟨by decide, by decide, by decide,
    (checkExtendedAvailability_available_confirms 0 examplePage exampleLegacyChosen
      exampleCheckRequest exampleFreeResponse true (by decide) (by decide)).2.2
      { courtId := "1", courtPrice := 1000, name := "Корт A", active := true } (by decide)
      (by decide)⟩

/-- C9, counterexample: in the section-based layout the user has picked a
slot from 10:00 to 11:30; the confirmation surface shows "10:00 - 11:30", the
end time of the slot as the server sent it, and not "10:00 - 11:00", the
start hour plus the duration 1. -/
theorem confirmation_range_new_layout_counterexample :
    exampleNewSelected.selectedTimeSlot =
        some { startTime := "10:00", endTime := "11:30", hour := 10 } ∧
    shownTime (handleBookingConfirmation 0 exampleNewPage exampleNewSelected) =
        some "10:00 - 11:30" ∧
    calculateEndTime "10:00" 1 = some "11:00" ∧
    shownTime (handleBookingConfirmation 0 exampleNewPage exampleNewSelected) ≠
        some ("10:00" ++ " - " ++ "11:00") := by
  decide

/-- C9, amended: on a page with an active court element of price `p` and the
confirmation modal of the template, with a court and a slot selected, the
start time of the slot having an hour field of value `h ≤ 23` and
`selectedDuration` being 1, 2 or 3:
the confirm button (`handleBookingConfirmation`) shows, in the legacy layout,
the total `p * selectedDuration` and the range from the start time to
`h + selectedDuration` o'clock, and in the section-based layout the total
`p * 1` and the range from the start time to the end time of the selected
slot;
after a re-check (`showBookingConfirmation` called with the end time that
`calculateEndTime` gives for a duration button `d`) the surface shows the
total `price * d` and the range from the start time to `h + d` o'clock;
and in the sample run (price 1000, start 10:00, two hours) it shows
"2000 ₽" and "10:00 - 12:00". -/
theorem confirmation_total_and_range (stack : Nat) (p : Page) (s : State) (court : CourtEl)
    (modal : ConfirmModal) (slot : TimeSlot) (hs rest : List Char) (h : Nat)
    (hcourt : activeCourt s = some court)
    (hmodal : s.bookingConfirmModal = some modal) (hstatic : modal.dynamic = false)
    (hsel : truthy s.selectedCourt = true) (hslot : s.selectedTimeSlot = some slot)
    (hstart : slot.startTime = String.mk (hs ++ ':' :: rest))
    (hfield : jsNumber hs = some h) (hh : h ≤ 23)
    (hdur : s.selectedDuration = 1 ∨ s.selectedDuration = 2 ∨ s.selectedDuration = 3) :
    (shownPrice (handleBookingConfirmation stack p s) =
        some (toString (court.courtPrice * (if p.isNewLayout then 1 else s.selectedDuration))
          ++ " ₽") ∧
      shownTime (handleBookingConfirmation stack p s) =
        some (slot.startTime ++ " - " ++
          (if p.isNewLayout then slot.endTime else hourText (h + s.selectedDuration)))) ∧
    (∀ (d : DurationOption) (price : Nat) (name : String),
      ∃ e, calculateEndTime slot.startTime d.hours = some e ∧ e = hourText (h + d.hours) ∧
        shownPrice (showBookingConfirmation s slot.startTime e d.hours price name) =
          some (toString (price * d.hours) ++ " ₽") ∧
        shownTime (showBookingConfirmation s slot.startTime e d.hours price name) =
          some (slot.startTime ++ " - " ++ e)) ∧
    (shownPrice (checkExtendedAvailability_settle stack examplePage exampleLegacyChosen
        exampleCheckRequest (.response true (some exampleFreeResponse))) = some "2000 ₽" ∧
      shownTime (checkExtendedAvailability_settle stack examplePage exampleLegacyChosen
        exampleCheckRequest (.response true (some exampleFreeResponse))) =
          some "10:00 - 12:00") := by
  refine ⟨?_, ?_, ?_⟩
  · by_cases hp : p.isNewLayout = true
    · simp [handleBookingConfirmation, hsel, hslot, hp, hcourt, showBookingConfirmationModal,
        hmodal, fillConfirmModal, hstatic, shownPrice, shownTime, Except.toOption]
    · have hend := calculateEndTime_hour_field hs rest h s.selectedDuration hfield (by omega)
      rw [← hstart] at hend
      simp [handleBookingConfirmation, hsel, hslot, hp, hcourt, showBookingConfirmationModal,
        hmodal, fillConfirmModal, hstatic, shownPrice, shownTime, Except.toOption, hend]
  · intro d price name
    have hd : d.hours ≤ 3 := by cases d <;> simp [DurationOption.hours]
    have hend := calculateEndTime_hour_field hs rest h d.hours hfield (by omega)
    rw [← hstart] at hend
    refine ⟨hourText (h + d.hours), hend, rfl, ?_, ?_⟩ <;>
      simp [showBookingConfirmation, hcourt, hmodal, fillConfirmModal, hstatic, shownPrice,
        shownTime, Except.toOption]
  · have hthen : checkExtendedAvailability_then stack examplePage exampleLegacyChosen
        exampleCheckRequest exampleFreeResponse =
          showBookingConfirmation exampleLegacyChosen "10:00" "12:00" 2 1000 "Корт A" := by
      simp [checkExtendedAvailability_then, exampleFreeResponse, exampleCheckRequest]
    have hprice : shownPrice (showBookingConfirmation exampleLegacyChosen "10:00" "12:00" 2
        1000 "Корт A") = some "2000 ₽" := by decide
    have htime : shownTime (showBookingConfirmation exampleLegacyChosen "10:00" "12:00" 2
        1000 "Корт A") = some "10:00 - 12:00" := by decide
    simp only [checkExtendedAvailability_settle, hthen]
    cases hres : showBookingConfirmation exampleLegacyChosen "10:00" "12:00" 2 1000
        "Корт A" with
    | ok s1 =>
      rw [hres] at hprice htime
      exact ⟨hprice, htime⟩
    | error e =>
      rw [hres] at hprice
      simp [shownPrice, Except.toOption] at hprice

/-- Witness of the amended C9: the confirm button in the sample legacy run,
with the slot at 10:00 and two hours chosen on court A. -/
theorem confirmation_total_and_range_witness :
    activeCourt exampleLegacyChosen =
      some { courtId := "1", courtPrice := 1000, name := "Корт A", active := true } ∧
    exampleLegacyChosen.selectedTimeSlot =
      some { startTime := "10:00", endTime := "11:00", hour := 10 } ∧
    exampleLegacyChosen.selectedDuration = 2 ∧
    shownPrice (handleBookingConfirmation 0 examplePage exampleLegacyChosen) =
      some (toString (1000 * (if examplePage.isNewLayout then 1 else
        exampleLegacyChosen.selectedDuration)) ++ " ₽") ∧
    shownTime (handleBookingConfirmation 0 examplePage exampleLegacyChosen) =
      some ("10:00" ++ " - " ++ (if examplePage.isNewLayout then "11:00" else
        hourText (10 + exampleLegacyChosen.selectedDuration))) :=
  ⟨by decide, by decide, by decide,
    (confirmation_total_and_range 0 examplePage exampleLegacyChosen
      { courtId := "1", courtPrice := 1000, name := "Корт A", active := true } exampleModal
      { startTime := "10:00", endTime := "11:00", hour := 10 } ['1', '0'] ['0', '0'] 10
      (by decide) (by decide) (by decide) (by decide) (by decide) (by decide) (by decide)
      (by decide) (by decide)).1⟩

/-! ## Week start and week navigation -/

/-- C13: for every date, `getWeekStartDate(date)` is the Monday of the week
that contains it: the result falls on a Monday (`getDay()` is 1), keeps the
time of day, is not after the date and is at most 6 days before it; a Sunday
maps to the Monday 6 days earlier and a Monday maps to itself. -/
theorem getWeekStartDate_is_monday (date : JsDate) :
    (getWeekStartDate date).getDay = 1 ∧
    (getWeekStartDate date).msOfDay = date.msOfDay ∧
    (getWeekStartDate date).day ≤ date.day ∧
    date.day - (getWeekStartDate date).day ≤ 6 ∧
    (getWeekStartDate date).getTime ≤ date.getTime ∧
    (date.getDay = 0 → (getWeekStartDate date).day = date.day - 6) ∧
    (date.getDay = 1 → getWeekStartDate date = date) := by
  have hday := (getWeekStartDate_day date).1
  have hms := (getWeekStartDate_day date).2
  refine ⟨?_, hms, ?_, ?_, ?_, ?_, ?_⟩
  · simp only [JsDate.getDay, hday]; omega
  · omega
  · omega
  · simp only [JsDate.getTime, JsDate.msPerDay, hms]; omega
  · intro h; simp only [JsDate.getDay] at h; omega
  · intro h
    simp only [JsDate.getDay] at h
    have hd : (getWeekStartDate date).day = date.day := by omega
    have hext : ∀ a b : JsDate, a.day = b.day → a.msOfDay = b.msOfDay → a = b := by
      intro a b h1 h2
      obtain ⟨d1, m1⟩ := a
      obtain ⟨d2, m2⟩ := b
      simp only at h1 h2
      subst h1 h2
      rfl
    exact hext _ _ hd hms

/-- Witness of C13: Sunday 8 November 2026 maps to Monday 2 November, and
that Monday maps to itself. -/
theorem getWeekStartDate_is_monday_witness :
    JsDate.getDay { day := 20765, msOfDay := 0 } = 0 ∧
    (getWeekStartDate { day := 20765, msOfDay := 0 }).day = 20765 - 6 ∧
    JsDate.getDay { day := 20759, msOfDay := 5 } = 1 ∧
    getWeekStartDate { day := 20759, msOfDay := 5 } = { day := 20759, msOfDay := 5 } :=
  ⟨by decide,
    (getWeekStartDate_is_monday { day := 20765, msOfDay := 0 }).2.2.2.2.2.1 (by decide),
    by decide,
    (getWeekStartDate_is_monday { day := 20759, msOfDay := 5 }).2.2.2.2.2.2 (by decide)⟩

theorem setAllSectionContent_log (s : State) (c : SectionContent) :
    (s.setAllSectionContent c).log = s.log := by
  simp [State.setAllSectionContent]

theorem showTimeSlotsMessage_log (p : Page) (s : State) (m : String) :
    (showTimeSlotsMessage p s m).log = s.log := by
  unfold showTimeSlotsMessage
  split
  · exact setAllSectionContent_log s _
  · split <;> simp

theorem loadTimeSlots_log (p : Page) (s : State) (c d : String) :
    (loadTimeSlots p s c d).log = s.log ++ [.fetchSlots c d] := by
  unfold loadTimeSlots
  by_cases h : p.isNewLayout <;> simp [h, State.setAllSectionContent]

theorem dayClick_log_mem (p : Page) (s : State) (i : Nat) (e : Effect) (he : e ∈ s.log) :
    e ∈ (dayClick p s i).log := by
  unfold dayClick
  split
  · exact he
  · simp only []
    split
    · rw [loadTimeSlots_log]; simp [he]
    · split
      · rw [showTimeSlotsMessage_log]; exact he
      · split <;> exact he

theorem updatePrevButtonState_log (p : Page) (t : JsDate) (s : State) :
    (updatePrevButtonState p t s).log = s.log := by
  unfold updatePrevButtonState
  split
  · rfl
  · simp only []
    split
    · rfl
    · split <;> rfl

theorem renderWeek_logs (p : Page) (today : JsDate) (s : State) (startDate : JsDate)
    (hnav : p.weekNav = true) :
    Effect.renderWeek startDate ∈ (renderWeek p today s startDate).log := by
  unfold renderWeek
  simp only [hnav, Bool.not_true, Bool.false_eq_true, if_false]
  have hmem : Effect.renderWeek startDate ∈ (updatePrevButtonState p today
      { s with weekDays := (List.range 7).map (makeDayCell today startDate),
               log := s.log ++ [.renderWeek startDate] }).log := by
    rw [updatePrevButtonState_log]; simp
  split
  · exact dayClick_log_mem _ _ _ _ hmem
  · exact hmem

/-- C14: when the calendar is initialised and `navigateWeek(direction)` is
called with direction -1 or +1 such that the week index plus the direction
lies in `[0, 12]`, the week index changes by exactly the direction and the
window start moves by exactly `direction * 7` calendar days, at the same
local time of day; on a page with a week strip the week is rendered again
from the new start. -/
theorem navigateWeek_shifts_by_week (p : Page) (today : JsDate) (s : State)
    (ws : JsDate) (direction : Int)
    (hws : s.currentWeekStart = some ws)
    (hdir : direction = -1 ∨ direction = 1)
    (hlo : 0 ≤ s.currentWeekIndex + direction) (hhi : s.currentWeekIndex + direction ≤ 12) :
    (navigateWeek p today s direction).currentWeekIndex = s.currentWeekIndex + direction ∧
    ∃ ws1, (navigateWeek p today s direction).currentWeekStart = some ws1 ∧
      ws1.day = ws.day + direction * 7 ∧ ws1.msOfDay = ws.msOfDay ∧
      (p.weekNav = true →
        Effect.renderWeek ws1 ∈ (navigateWeek p today s direction).log) := by
  have _ := hdir
  have h1 : ¬ (s.currentWeekIndex + direction < 0) := by omega
  have h2 : ¬ (s.currentWeekIndex + direction > MAX_WEEKS_AHEAD) := by
    simp only [MAX_WEEKS_AHEAD]; omega
  unfold navigateWeek
  rw [hws]
  simp only [h1, h2, if_false]
  refine ⟨(renderWeek_week _ _ _ _).1, ws.setDate (ws.getDate + direction * 7),
    (renderWeek_week _ _ _ _).2, (setDate_getDate_add _ _).1, (setDate_getDate_add _ _).2,
    ?_⟩
  intro hnav
  exact renderWeek_logs p today _ _ hnav

/-- Witness of C14: one step forward from the first week of the sample page. -/
theorem navigateWeek_shifts_by_week_witness :
    exampleStart.currentWeekStart = some { day := 20759, msOfDay := 36000000 } ∧
    ((1 : Int) = -1 ∨ (1 : Int) = 1) ∧
    (navigateWeek examplePage exampleToday exampleStart 1).currentWeekIndex =
      exampleStart.currentWeekIndex + 1 ∧
    ∃ ws1, (navigateWeek examplePage exampleToday exampleStart 1).currentWeekStart = some ws1 ∧
      ws1.day = (20759 : Int) + 1 * 7 ∧ ws1.msOfDay = 36000000 ∧
      (examplePage.weekNav = true →
        Effect.renderWeek ws1 ∈ (navigateWeek examplePage exampleToday exampleStart 1).log) :=
  ⟨by decide, by decide,
    navigateWeek_shifts_by_week examplePage exampleToday exampleStart
      { day := 20759, msOfDay := 36000000 } 1 (by decide) (by decide) (by decide)
      (by decide)⟩

/-! ## Selected date and rendered window -/

theorem showTimeSlotsMessage_cal (p : Page) (s : State) (m : String) :
    (showTimeSlotsMessage p s m).weekDays = s.weekDays ∧
    (showTimeSlotsMessage p s m).selectedDate = s.selectedDate := by
  unfold showTimeSlotsMessage
  split
  · simp [State.setAllSectionContent]
  · split <;> simp

theorem loadTimeSlots_cal (p : Page) (s : State) (c d : String) :
    (loadTimeSlots p s c d).weekDays = s.weekDays ∧
    (loadTimeSlots p s c d).selectedDate = s.selectedDate := by
  unfold loadTimeSlots
  by_cases h : p.isNewLayout <;> simp [h, State.setAllSectionContent]

theorem updatePrevButtonState_cal (p : Page) (t : JsDate) (s : State) :
    (updatePrevButtonState p t s).weekDays = s.weekDays ∧
    (updatePrevButtonState p t s).selectedDate = s.selectedDate := by
  unfold updatePrevButtonState
  split
  · simp
  · simp only []
    split
    · simp
    · split <;> simp

theorem dayClick_none (p : Page) (s : State) (i : Nat) (h : s.weekDays.get? i = none) :
    dayClick p s i = s := by
  unfold dayClick
  rw [h]

theorem dayClick_some (p : Page) (s : State) (i : Nat) (cell : DayCell)
    (h : s.weekDays.get? i = some cell) :
    (dayClick p s i).selectedDate = cell.date ∧
    (dayClick p s i).weekDays =
      s.weekDays.enum.map (fun jc => { jc.2 with selected := decide (jc.1 = i) }) := by
  unfold dayClick
  rw [h]
  simp only []
  split
  · rw [(loadTimeSlots_cal _ _ _ _).1, (loadTimeSlots_cal _ _ _ _).2]; simp
  · split
    · rw [(showTimeSlotsMessage_cal _ _ _).1, (showTimeSlotsMessage_cal _ _ _).2]; simp
    · split <;> simp

theorem dayClick_cells (p : Page) (s : State) (i : Nat) (P : JsDate → Prop)
    (h : ∀ c ∈ s.weekDays, P c.date) : ∀ c ∈ (dayClick p s i).weekDays, P c.date := by
  cases hget : s.weekDays.get? i with
  | none => rw [dayClick_none p s i hget]; exact h
  | some cell =>
    rw [(dayClick_some p s i cell hget).2]
    intro c hc
    obtain ⟨jc, hjc, rfl⟩ := List.mem_map.1 hc
    exact h jc.2 (List.snd_mem_of_mem_enum hjc)

theorem dayClick_selectedDate (p : Page) (s : State) (i : Nat) :
    (dayClick p s i).selectedDate = s.selectedDate ∨
      ∃ c ∈ s.weekDays, (dayClick p s i).selectedDate = c.date := by
  cases hget : s.weekDays.get? i with
  | none => left; rw [dayClick_none p s i hget]
  | some cell =>
    right
    exact ⟨cell, List.get?_mem hget, (dayClick_some p s i cell hget).1⟩

theorem makeDayCell_day (today startDate : JsDate) (i : Nat) :
    (makeDayCell today startDate i).date.day = startDate.day + i := by
  simp only [makeDayCell]
  exact (setDate_getDate_add startDate i).1

theorem renderWeek_cells (p : Page) (today : JsDate) (s : State) (startDate : JsDate)
    (hnav : p.weekNav = true) :
    ∀ c ∈ (renderWeek p today s startDate).weekDays,
      startDate.day ≤ c.date.day ∧ c.date.day ≤ startDate.day + 6 := by
  have hcells : ∀ c ∈ (List.range 7).map (makeDayCell today startDate),
      startDate.day ≤ c.date.day ∧ c.date.day ≤ startDate.day + 6 := by
    intro c hc
    obtain ⟨i, hi, rfl⟩ := List.mem_map.1 hc
    have hi7 : i < 7 := List.mem_range.1 hi
    rw [makeDayCell_day]
    omega
  unfold renderWeek
  simp only [hnav, Bool.not_true, Bool.false_eq_true, if_false]
  split
  · refine dayClick_cells p _ _
      (fun d => startDate.day ≤ d.day ∧ d.day ≤ startDate.day + 6) ?_
    rw [(updatePrevButtonState_cal _ _ _).1]
    exact hcells
  · rw [(updatePrevButtonState_cal _ _ _).1]
    exact hcells

theorem renderWeek_selectedDate (p : Page) (today : JsDate) (s : State) (startDate : JsDate)
    (hnav : p.weekNav = true) :
    (renderWeek p today s startDate).selectedDate = s.selectedDate ∨
      (startDate.day ≤ (renderWeek p today s startDate).selectedDate.day ∧
        (renderWeek p today s startDate).selectedDate.day ≤ startDate.day + 6) := by
  have hcells : ∀ c ∈ (List.range 7).map (makeDayCell today startDate),
      startDate.day ≤ c.date.day ∧ c.date.day ≤ startDate.day + 6 := by
    intro c hc
    obtain ⟨i, hi, rfl⟩ := List.mem_map.1 hc
    have hi7 : i < 7 := List.mem_range.1 hi
    rw [makeDayCell_day]
    omega
  unfold renderWeek
  simp only [hnav, Bool.not_true, Bool.false_eq_true, if_false]
  split
  · rename_i i _
    rcases dayClick_selectedDate p (updatePrevButtonState p today
      { s with weekDays := (List.range 7).map (makeDayCell today startDate),
               log := s.log ++ [.renderWeek startDate] }) i with h | ⟨c, hc, h⟩
    · left; rw [h, (updatePrevButtonState_cal _ _ _).2]
    · right
      rw [h]
      rw [(updatePrevButtonState_cal _ _ _).1] at hc
      exact hcells c hc
  · left; rw [(updatePrevButtonState_cal _ _ _).2]

theorem highlightSelectedDate_cal (p : Page) (s : State) (P : JsDate → Prop)
    (h : ∀ c ∈ s.weekDays, P c.date) :
    (highlightSelectedDate p s).selectedDate = s.selectedDate ∧
      ∀ c ∈ (highlightSelectedDate p s).weekDays, P c.date := by
  unfold highlightSelectedDate
  split
  · exact ⟨rfl, h⟩
  · simp only []
    have hcl : ∀ c ∈ s.weekDays.map (fun c => { c with selected := false }), P c.date := by
      intro c hc
      obtain ⟨c0, hc0, rfl⟩ := List.mem_map.1 hc
      exact h c0 hc0
    split
    · refine ⟨rfl, ?_⟩
      intro c hc
      simp only [] at hc
      obtain ⟨jc, hjc, rfl⟩ := List.mem_map.1 hc
      have := hcl jc.2 (List.snd_mem_of_mem_enum hjc)
      split <;> exact this
    · exact ⟨rfl, hcl⟩

theorem initCalendar_calInv (p : Page) (today : JsDate) (dom : State)
    (hnav : p.weekNav = true) :
    CalInv today (initCalendar p today dom) ∧ inWindow (initCalendar p today dom) = true := by
  have hmon := (getWeekStartDate_day today).1
  have hidx : (initCalendar p today dom).currentWeekIndex = 0 := by
    simp [initCalendar, (highlightSelectedDate_week _ _).1, (renderWeek_week _ _ _ _).1]
  have hstart : (initCalendar p today dom).currentWeekStart = some (getWeekStartDate today) := by
    simp [initCalendar, (highlightSelectedDate_week _ _).2, (renderWeek_week _ _ _ _).2]
  have hcal := highlightSelectedDate_cal p
    { renderWeek p today { dom with currentWeekStart := some (getWeekStartDate today),
                                    currentWeekIndex := 0 } (getWeekStartDate today) with
      selectedDate := today }
    (fun d => (getWeekStartDate today).day ≤ d.day ∧ d.day ≤ (getWeekStartDate today).day + 6)
    (renderWeek_cells p today _ _ hnav)
  have hsel : (initCalendar p today dom).selectedDate = today := by
    simp only [initCalendar]; exact hcal.1
  have hcells : ∀ c ∈ (initCalendar p today dom).weekDays,
      (getWeekStartDate today).day ≤ c.date.day ∧
        c.date.day ≤ (getWeekStartDate today).day + 6 := by
    simp only [initCalendar]; exact hcal.2
  constructor
  · refine ⟨getWeekStartDate today, hstart, ?_, rfl, ?_, ?_, hcells, ?_, ?_⟩
    · rw [hidx]; omega
    · rw [hidx]
    · rw [hidx]; omega
    · rw [hsel]; omega
    · rw [hsel]; omega
  · simp only [inWindow, hstart, hsel, Bool.and_eq_true, decide_eq_true_eq]
    constructor <;> omega

theorem dayClick_calInv (p : Page) (today : JsDate) (s : State) (i : Nat)
    (h : CalInv today s) : CalInv today (dayClick p s i) := by
  obtain ⟨ws, hws, hday, hms, h0, h12, hcells, hlo, hhi⟩ := h
  refine ⟨ws, ?_, ?_, hms, ?_, ?_, ?_, ?_⟩
  · rw [(dayClick_week _ _ _).2]; exact hws
  · rw [(dayClick_week _ _ _).1]; exact hday
  · rw [(dayClick_week _ _ _).1]; exact h0
  · rw [(dayClick_week _ _ _).1]; exact h12
  · exact dayClick_cells p s i (fun d => ws.day ≤ d.day ∧ d.day ≤ ws.day + 6) hcells
  · rcases dayClick_selectedDate p s i with h | ⟨c, hc, h⟩
    · rw [h]; exact ⟨hlo, hhi⟩
    · rw [h]
      have := hcells c hc
      constructor <;> omega

theorem dayClick_inWindow (p : Page) (today : JsDate) (s : State) (i : Nat)
    (h : CalInv today s) (hi : i < s.weekDays.length) : inWindow (dayClick p s i) = true := by
  obtain ⟨ws, hws, _, _, _, _, hcells, _, _⟩ := h
  have hget : s.weekDays.get? i = some (s.weekDays.get ⟨i, hi⟩) := List.get?_eq_get hi
  have hsel := (dayClick_some p s i _ hget).1
  have hin := hcells _ (List.get?_mem hget)
  simp only [inWindow, (dayClick_week _ _ _).2, hws, hsel, Bool.and_eq_true, decide_eq_true_eq]
  exact hin

theorem navigateWeek_calInv (p : Page) (today : JsDate) (s : State) (direction : Int)
    (hnav : p.weekNav = true) (hdir : direction = -1 ∨ direction = 1) (h : CalInv today s) :
    CalInv today (navigateWeek p today s direction) ∧
      ((navigateWeek p today s direction).selectedDate = s.selectedDate ∨
        inWindow (navigateWeek p today s direction) = true) := by
  obtain ⟨ws, hws, hday, hms, h0, h12, hcells, hlo, hhi⟩ := h
  unfold navigateWeek
  rw [hws]
  simp only [MAX_WEEKS_AHEAD]
  split
  · exact ⟨⟨ws, rfl, by simp only []; omega, hms, by simp, by simp, hcells, hlo, hhi⟩,
      Or.inl rfl⟩
  · split
    · exact ⟨⟨ws, rfl, by simp only []; omega, hms, by simp, by simp, hcells, hlo, hhi⟩,
        Or.inl rfl⟩
    · have hnd := (setDate_getDate_add ws (direction * 7)).1
      have hsel := renderWeek_selectedDate p today
        { s with currentWeekIndex := s.currentWeekIndex + direction,
                 currentWeekStart := some (ws.setDate (ws.getDate + direction * 7)) }
        (ws.setDate (ws.getDate + direction * 7)) hnav
      constructor
      · refine ⟨ws.setDate (ws.getDate + direction * 7), ?_, ?_, ?_, ?_, ?_, ?_, ?_⟩
        · rw [(renderWeek_week _ _ _ _).2]
        · rw [(renderWeek_week _ _ _ _).1, hnd]
          simp only []; omega
        · rw [(setDate_getDate_add _ _).2]; exact hms
        · rw [(renderWeek_week _ _ _ _).1]; simp only [] at *; omega
        · rw [(renderWeek_week _ _ _ _).1]; simp only [] at *; omega
        · exact renderWeek_cells p today _ _ hnav
        · rcases hsel with h | h
          · rw [h]; exact ⟨hlo, hhi⟩
          · simp only [] at *
            constructor <;> omega
      · rcases hsel with h | h
        · left; rw [h]
        · right
          simp only [inWindow, (renderWeek_week _ _ _ _).2, Bool.and_eq_true,
            decide_eq_true_eq]
          exact h

theorem step_calInv (stack : Nat) (p : Page) (today : JsDate) (s : State) (e : Event)
    (hnav : p.weekNav = true) (he : e.isCalendar = true) (h : CalInv today s) :
    ∃ s1, step stack p today s e = some s1 ∧ CalInv today s1 := by
  cases e with
  | navigateWeek direction =>
    have hdir : direction = -1 ∨ direction = 1 := by
      simpa [Event.isCalendar] using he
    exact ⟨_, rfl, (navigateWeek_calInv p today s direction hnav hdir h).1⟩
  | prevWeekClick =>
    refine ⟨_, rfl, ?_⟩
    unfold prevWeekClick
    split
    · exact h
    · split
      · exact h
      · exact (navigateWeek_calInv p today s (-1) hnav (Or.inl rfl) h).1
  | nextWeekClick =>
    refine ⟨_, rfl, ?_⟩
    unfold nextWeekClick
    split
    · exact h
    · exact (navigateWeek_calInv p today s 1 hnav (Or.inr rfl) h).1
  | dayClick i => exact ⟨_, rfl, dayClick_calInv p today s i h⟩
  | courtClick i => simp [Event.isCalendar] at he
  | slotsSettled c d o => simp [Event.isCalendar] at he
  | slotClick n i => simp [Event.isCalendar] at he
  | durationClick o => simp [Event.isCalendar] at he
  | durationClose => simp [Event.isCalendar] at he
  | checkSettled r o => simp [Event.isCalendar] at he
  | confirmClick => simp [Event.isCalendar] at he

theorem run_calInv (stack : Nat) (p : Page) (today : JsDate) (events : List Event)
    (hnav : p.weekNav = true) :
    ∀ s : State, (∀ e ∈ events, e.isCalendar = true) → CalInv today s →
      ∃ s1, run stack p today s events = some s1 ∧ CalInv today s1 := by
  induction events with
  | nil => intro s _ h; exact ⟨s, rfl, h⟩
  | cons e rest ih =>
    intro s hev h
    obtain ⟨s1, hs1, hinv⟩ := step_calInv stack p today s e hnav (hev e (by simp)) h
    obtain ⟨s2, hs2, hinv2⟩ := ih s1 (fun x hx => hev x (by simp [hx])) hinv
    exact ⟨s2, by simp [run, hs1, hs2], hinv2⟩

/-- C12, counterexample: one step forward from the first week of the sample
page shows the week of 9 November while the selected date is still today,
6 November: the selected date is outside the rendered window. -/
theorem selectedDate_outside_window_counterexample :
    exampleStart = initCalendar examplePage exampleToday exampleDom ∧
    (navigateWeek examplePage exampleToday exampleStart 1).currentWeekStart =
      some { day := 20766, msOfDay := 36000000 } ∧
    (navigateWeek examplePage exampleToday exampleStart 1).selectedDate.day = 20763 ∧
    inWindow (navigateWeek examplePage exampleToday exampleStart 1) = false := by
  decide

/-- C12, amended: on a page with a week strip, with the current date held
fixed, the selected date lies within the rendered week window right after
`initCalendar`; after any sequence of week navigations (by one week) and
day-cell clicks the window start is set and the selected date lies between
the Monday of the current week and the last day of the twelfth week after
it; from such a state a click on a day cell puts the selected date inside the
rendered window, and `navigateWeek` by one week either leaves the selected
date as it was or puts it inside the new window. -/
theorem selectedDate_after_calendar_events (stack : Nat) (p : Page) (today : JsDate)
    (dom : State) (events : List Event) (hnav : p.weekNav = true)
    (hev : ∀ e ∈ events, e.isCalendar = true) :
    inWindow (initCalendar p today dom) = true ∧
    ∃ s, run stack p today (initCalendar p today dom) events = some s ∧
      (∃ ws, s.currentWeekStart = some ws) ∧
      (today.day - (today.day + 3) % 7 ≤ s.selectedDate.day ∧
        s.selectedDate.day ≤ today.day - (today.day + 3) % 7 + 90) ∧
      (∀ i, i < s.weekDays.length → inWindow (dayClick p s i) = true) ∧
      (∀ direction, direction = -1 ∨ direction = 1 →
        (navigateWeek p today s direction).selectedDate = s.selectedDate ∨
          inWindow (navigateWeek p today s direction) = true) := by
  obtain ⟨hinit, hwin⟩ := initCalendar_calInv p today dom hnav
  obtain ⟨s, hrun, hinv⟩ := run_calInv stack p today events hnav _ hev hinit
  refine ⟨hwin, s, hrun, ?_, ?_, ?_, ?_⟩
  · obtain ⟨ws, hws, _⟩ := hinv
    exact ⟨ws, hws⟩
  · obtain ⟨ws, _, _, _, _, _, _, hlo, hhi⟩ := hinv
    rw [← (getWeekStartDate_day today).1]
    exact ⟨hlo, hhi⟩
  · intro i hi
    exact dayClick_inWindow p today s i hinv hi
  · intro direction hdir
    exact (navigateWeek_calInv p today s direction hnav hdir hinv).2

/-- Witness of the amended C12: forward one week, then a click on the third
day cell, on the sample page. -/
theorem selectedDate_after_calendar_events_witness :
    examplePage.weekNav = true ∧
    (∀ e ∈ [Event.navigateWeek 1, Event.dayClick 2], e.isCalendar = true) ∧
    inWindow (initCalendar examplePage exampleToday exampleDom) = true ∧
    ∃ s, run 0 examplePage exampleToday (initCalendar examplePage exampleToday exampleDom)
        [Event.navigateWeek 1, Event.dayClick 2] = some s ∧
      (∃ ws, s.currentWeekStart = some ws) ∧
      (exampleToday.day - (exampleToday.day + 3) % 7 ≤ s.selectedDate.day ∧
        s.selectedDate.day ≤ exampleToday.day - (exampleToday.day + 3) % 7 + 90) ∧
      (∀ i, i < s.weekDays.length → inWindow (dayClick examplePage s i) = true) ∧
      (∀ direction, direction = -1 ∨ direction = 1 →
        (navigateWeek examplePage exampleToday s direction).selectedDate = s.selectedDate ∨
          inWindow (navigateWeek examplePage exampleToday s direction) = true) :=
  ⟨by decide, by decide,
    selectedDate_after_calendar_events 0 examplePage exampleToday exampleDom
      [Event.navigateWeek 1, Event.dayClick 2] (by decide) (by decide)⟩

/-! ## Selected slot and loaded slot set -/

/-- C11, the code at the failing input: in the section-based layout the user
has picked the slot 10:00-11:30 of court A for 6 November, then clicks the day
cell of 7 November. The click changes the selected date and requests the
slots of the new date but does not clear `selectedTimeSlot`; when the new
slot set has arrived, `selectedTimeSlot` is still the slot 10:00-11:30, which
is not in that set, and the confirm button offers it for 7 November. A click
on another court, from the same state, does clear the selection. -/
theorem dayClick_keeps_selected_slot :
    exampleNewSelected.selectedTimeSlot =
      some { startTime := "10:00", endTime := "11:30", hour := 10 } ∧
    selectionInLoadedSet exampleNewSelected = true ∧
    (dayClick exampleNewPage exampleNewSelected 5).selectedDate.day = 20764 ∧
    (dayClick exampleNewPage exampleNewSelected 5).selectedTimeSlot =
      some { startTime := "10:00", endTime := "11:30", hour := 10 } ∧
    selectionInLoadedSet (dayClick exampleNewPage exampleNewSelected 5) = false ∧
    exampleDateChanged.map (fun s => (s.selectedTimeSlot, selectionInLoadedSet s)) =
      some (some { startTime := "10:00", endTime := "11:30", hour := 10 }, false) ∧
    exampleDateChanged.map (fun s =>
        (handleBookingConfirmation 64 exampleNewPage s).toOption.bind fun s1 =>
          s1.bookingConfirmModal.map fun m => (m.formDate, m.formStartTime, m.formEndTime)) =
      some (some ("2026-11-07", "10:00", "11:30")) ∧
    (courtClick exampleNewPage exampleNewSelected 1).selectedTimeSlot = none := by
  decide

/-! ## Failed and stale slot loads -/

/-- C15, counterexample: in the section-based layout the slot request of the
sample page fails (rejected request, status other than 2xx, or a body with
`success = false`) while the sections show the spinner. When the promise
chain has ended each section still shows the spinner, not an error
placeholder. -/
theorem loadTimeSlots_failure_no_placeholder_counterexample :
    exampleNewLoading.getSection .morning =
      some { sectionContent := true, content := .loading } ∧
    (finalState exampleNewLoading (loadTimeSlots_settle 64 exampleNewPage exampleNewLoading
        .networkError)).map (fun s => s.getSection .morning) =
      some (some { sectionContent := true, content := .loading }) ∧
    (finalState exampleNewLoading (loadTimeSlots_settle 64 exampleNewPage exampleNewLoading
        (.response false none))).map (fun s => s.getSection .day) =
      some (some { sectionContent := true, content := .loading }) ∧
    (finalState exampleNewLoading (loadTimeSlots_settle 64 exampleNewPage exampleNewLoading
        (.response true (some { success := false, message := some "Корт закрыт" })))).map
        (fun s => s.getSection .evening) =
      some (some { sectionContent := true, content := .loading }) := by
  decide

theorem loadTimeSlots_settle_failed (stack : Nat) (p : Page) (s : State)
    (outcome : FetchOutcome SlotsResponse) (hfail : slotLoadFailed outcome = true) :
    loadTimeSlots_settle stack p s outcome = .error (.thrown .stackOverflow) := by
  unfold loadTimeSlots_settle
  cases outcome with
  | networkError => simp [loadTimeSlots_catch, showMessage_overflows]
  | response ok body =>
    cases ok with
    | false => simp [loadTimeSlots_catch, showMessage_overflows]
    | true =>
      cases body with
      | none => simp [loadTimeSlots_catch, showMessage_overflows]
      | some data =>
        have hs : data.success = false := by simpa [slotLoadFailed] using hfail
        simp [loadTimeSlots_then, hs, loadTimeSlots_catch, showMessage_overflows]

/-- C15, amended: when a slot load fails (rejected request, status other than
2xx, body that is not JSON, or `success = false`), `loadTimeSlots` hands an
error text to `showMessage` (for `success = false` the message of the server,
or "Ошибка загрузки слотов"; otherwise the text of the `catch` callback) and
writes nothing into the sections: when the promise chain has ended, the three
sections and `#time-slots` hold what they held before, and `selectedCourt` and
`selectedDate` are unchanged. -/
theorem loadTimeSlots_failure_keeps_page (stack : Nat) (p : Page) (s : State)
    (outcome : FetchOutcome SlotsResponse) (hfail : slotLoadFailed outcome = true) :
    (∀ data, data.success = false → loadTimeSlots_then stack p s data =
      showMessage stack s (orDefault data.message "Ошибка загрузки слотов") "error") ∧
    loadTimeSlots_catch stack s =
      showMessage stack s "Ошибка загрузки. Пожалуйста, попробуйте позже." "error" ∧
    ∃ s1, finalState s (loadTimeSlots_settle stack p s outcome) = some s1 ∧
      (∀ name, s1.getSection name = s.getSection name) ∧
      s1.timeSlots = s.timeSlots ∧
      s1.selectedCourt = s.selectedCourt ∧ s1.selectedDate = s.selectedDate := by
  refine ⟨?_, rfl, s, ?_, fun _ => rfl, rfl, rfl, rfl⟩
  · intro data hs
    simp [loadTimeSlots_then, hs]
  · rw [loadTimeSlots_settle_failed stack p s outcome hfail]
    rfl

/-- Witness of the amended C15: the slot request of the sample page is
answered with status 500. -/
theorem loadTimeSlots_failure_keeps_page_witness :
    slotLoadFailed (.response false none) = true ∧
    ∃ s1, finalState exampleNewLoading (loadTimeSlots_settle 8 exampleNewPage
        exampleNewLoading (.response false none)) = some s1 ∧
      (∀ name, s1.getSection name = exampleNewLoading.getSection name) ∧
      s1.timeSlots = exampleNewLoading.timeSlots ∧
      s1.selectedCourt = exampleNewLoading.selectedCourt ∧
      s1.selectedDate = exampleNewLoading.selectedDate :=
  ⟨by decide,
    (loadTimeSlots_failure_keeps_page 8 exampleNewPage exampleNewLoading (.response false none)
      (by decide)).2.2⟩

/-- C16, counterexample: on the section-based sample page the request for
court A is pending when the user clicks court B; the reply for court B
arrives first and the reply for court A after it. In the end court B is
selected and the morning section shows the slots of court A. -/
theorem stale_slot_response_rendered_counterexample :
    exampleNewLoading.selectedCourt = some "1" ∧
    exampleStaleReply.map (fun s => s.selectedCourt) = some (some "2") ∧
    exampleStaleReply.map (fun s => s.getSection .morning) =
      some (some (SectionEl.mk true (.grid
        [.free true "08:00" "09:00" 8 1000 "Корт A" false,
         .free true "10:00" "11:00" 10 1000 "Корт A" false]))) := by
  decide

/-- C16, amended: `loadTimeSlots` has no check of the selection: the reply to
any slot request that was sent, if it has `success = true`, is rendered when
it arrives, whatever court and date are selected then. The state after the
reply is the rendering of its items by `renderTimeSlotsBySections`, and on a
page with the three section elements each section holds the rendering of its
bucket of these items. -/
theorem slot_response_rendered_on_arrival (stack : Nat) (p : Page) (today : JsDate)
    (s : State) (courtId dateStr : String) (data : SlotsResponse)
    (hreq : Effect.fetchSlots courtId dateStr ∈ s.log) (hsucc : data.success = true) :
    step stack p today s (.slotsSettled courtId dateStr (.response true (some data))) =
      some (renderTimeSlotsBySections p s (data.items <|> data.slots) data.court_price
        data.court_name) ∧
    (∀ (selectedCourt : Option String) (selectedDate : JsDate),
      step stack p today { s with selectedCourt := selectedCourt, selectedDate := selectedDate }
          (.slotsSettled courtId dateStr (.response true (some data))) =
        some (renderTimeSlotsBySections p
          { s with selectedCourt := selectedCourt, selectedDate := selectedDate }
          (data.items <|> data.slots) data.court_price data.court_name)) ∧
    (∀ (items : List SlotItem) (m d e : SectionEl),
      (data.items <|> data.slots) = some items → items ≠ [] →
      s.getSection .morning = some m → s.getSection .day = some d →
      s.getSection .evening = some e →
      ∃ s1, step stack p today s
          (.slotsSettled courtId dateStr (.response true (some data))) = some s1 ∧
        s1.getSection .morning = some { m with
          content := bucketContent p (morningItems items) data.court_price data.court_name } ∧
        s1.getSection .day = some { d with
          content := bucketContent p (dayItems items) data.court_price data.court_name } ∧
        s1.getSection .evening = some { e with
          content := bucketContent p (eveningItems items) data.court_price data.court_name })
    := by
  have hstep : ∀ s0 : State, Effect.fetchSlots courtId dateStr ∈ s0.log →
      step stack p today s0 (.slotsSettled courtId dateStr (.response true (some data))) =
        some (renderTimeSlotsBySections p s0 (data.items <|> data.slots) data.court_price
          data.court_name) := by
    intro s0 h0
    simp [step, h0, loadTimeSlots_settle, loadTimeSlots_then, hsucc, finalState]
  refine ⟨hstep s hreq, ?_, ?_⟩
  · intro c d
    exact hstep _ hreq
  · intro items m d e hitems hne hm hd he
    refine ⟨_, hstep s hreq, ?_⟩
    rw [hitems]
    exact renderTimeSlotsBySections_sections p s items data.court_price data.court_name
      m d e hne hm hd he

/-- Witness of the amended C16: the reply for court A arrives on the sample
page after court B was chosen and its slots were rendered. -/
theorem slot_response_rendered_on_arrival_witness :
    Effect.fetchSlots "1" "2026-11-06" ∈ exampleCourtBShown.log ∧
    exampleSlotsResponse.success = true ∧
    exampleCourtBShown.selectedCourt = some "2" ∧
    step 64 exampleNewPage exampleToday exampleCourtBShown
        (.slotsSettled "1" "2026-11-06" (.response true (some exampleSlotsResponse))) =
      some (renderTimeSlotsBySections exampleNewPage exampleCourtBShown
        (exampleSlotsResponse.items <|> exampleSlotsResponse.slots)
        exampleSlotsResponse.court_price exampleSlotsResponse.court_name) :=
  ⟨by decide, by decide, by decide,
    (slot_response_rendered_on_arrival 64 exampleNewPage exampleToday exampleCourtBShown "1"
      "2026-11-06" exampleSlotsResponse (by decide) (by decide)).1⟩

/-! ## Slot elements -/

/-- C19: for every slot item `createTimeSlotElement` chooses the element by
the field `type` alone: the result is the partner-booking card iff
`type = "partner_booking"` and the "book this slot" element otherwise, with
the start time, end time and hour of the item. A partner-booking card carries
a join action iff `can_join` is true; a card without one shows `join_message`,
or "Недоступно" when the message is absent or empty. -/
theorem createTimeSlotElement_by_type (p : Page) (item : SlotItem) (courtPrice : Nat)
    (courtName : String) :
    ((createTimeSlotElement p item courtPrice courtName).isPartner = true ↔
      item.type = some "partner_booking") ∧
    ((createTimeSlotElement p item courtPrice courtName).isBookable = true ↔
      item.type ≠ some "partner_booking") ∧
    (item.type = some "partner_booking" →
      createTimeSlotElement p item courtPrice courtName =
        .partner item.booking_id item.start_time item.end_time item.hour item.can_join
          (if item.can_join then none
            else some (if item.join_message = none ∨ item.join_message = some ""
              then "Недоступно" else item.join_message.getD ""))) ∧
    (item.type ≠ some "partner_booking" →
      createTimeSlotElement p item courtPrice courtName =
        .free p.isNewLayout item.start_time item.end_time item.hour courtPrice courtName
          false) ∧
    ((createTimeSlotElement p item courtPrice courtName).hasJoinAction = true ↔
      item.type = some "partner_booking" ∧ item.can_join = true) := by
  by_cases ht : item.type = some "partner_booking"
  · have hnotice : orDefault item.join_message "Недоступно" =
        (if item.join_message = none ∨ item.join_message = some ""
          then "Недоступно" else item.join_message.getD "") := by
      cases hm : item.join_message with
      | none => simp [orDefault]
      | some m =>
        by_cases he : m = ""
        · simp [orDefault, he]
        · simp [orDefault, he]
    simp only [createTimeSlotElement, ht, if_true, createPartnerBookingElement, hnotice]
    simp [SlotElement.isPartner, SlotElement.isBookable, SlotElement.hasJoinAction]
  · simp only [createTimeSlotElement, ht, if_false, createFreeSlotElement]
    simp [SlotElement.isPartner, SlotElement.isBookable, SlotElement.hasJoinAction, ht]

/-- Witness of C19: a partner booking that can be joined, one that cannot,
and a free slot. -/
theorem createTimeSlotElement_by_type_witness :
    examplePartnerItem.type = some "partner_booking" ∧
    createTimeSlotElement examplePage examplePartnerItem 1000 "Корт A" =
      .partner 7 "18:00" "19:00" 18 true none ∧
    exampleFullPartnerItem.type = some "partner_booking" ∧
    createTimeSlotElement examplePage exampleFullPartnerItem 1000 "Корт A" =
      .partner 8 "19:00" "20:00" 19 false (some "Недоступно") ∧
    (createTimeSlotElement examplePage
      { start_time := "08:00", end_time := "09:00", hour := 8 } 1000 "Корт A").isBookable
      = true :=
  ⟨by decide,
    ((createTimeSlotElement_by_type examplePage examplePartnerItem 1000 "Корт A").2.2.1
      (by decide)).trans (by decide),
    by decide,
    ((createTimeSlotElement_by_type examplePage exampleFullPartnerItem 1000 "Корт A").2.2.1
      (by decide)).trans (by decide),
    (createTimeSlotElement_by_type examplePage
      { start_time := "08:00", end_time := "09:00", hour := 8 } 1000 "Корт A").2.1.2
      (by decide)⟩

/-! ## Confirmation: missing selection, re-check, duration -/

theorem handleBookingConfirmation_missing_selection (stack : Nat) (p : Page) (s : State)
    (h : truthy s.selectedCourt = false ∨ s.selectedTimeSlot = none) :
    handleBookingConfirmation stack p s = .error (.thrown .stackOverflow) := by
  unfold handleBookingConfirmation
  rcases h with h | h
  · rw [h]
    simp [showMessage_overflows]
  · rw [h]
    cases truthy s.selectedCourt <;> simp [showMessage_overflows]

/-- C20, the code at the failing input: on the sample page no court and no
slot are selected and the user clicks the confirm button. Whatever the size
of the call stack, `handleBookingConfirmation` does not return: its call of
`showMessage` for the error text ends in the exhaustion of the call stack
(the defect of C7), so no error is shown to the user. The handler has changed
nothing by then: the form and the modal are untouched and the selection is
as before. -/
theorem handleBookingConfirmation_no_selection_overflows (stack : Nat) :
    exampleStart.selectedCourt = none ∧ exampleStart.selectedTimeSlot = none ∧
    handleBookingConfirmation stack examplePage exampleStart =
      .error (.thrown .stackOverflow) ∧
    step stack examplePage exampleToday exampleStart .confirmClick = some exampleStart := by
  have h := handleBookingConfirmation_missing_selection stack examplePage exampleStart
    (Or.inr (by decide))
  refine ⟨by decide, by decide, h, ?_⟩
  have hbtn : examplePage.confirmBookingBtn = true := by decide
  simp only [step, hbtn, if_true, h, finalState]

theorem KeepsConfirmation.refl (s : State) : KeepsConfirmation s s := ⟨rfl, rfl⟩

theorem KeepsConfirmation.trans {a b c : State} (h1 : KeepsConfirmation a b)
    (h2 : KeepsConfirmation b c) : KeepsConfirmation a c :=
  ⟨h2.1.trans h1.1, h2.2.trans h1.2⟩

theorem setAllSectionContent_keeps (s : State) (c : SectionContent) :
    KeepsConfirmation s (s.setAllSectionContent c) := by
  simp [KeepsConfirmation, State.setAllSectionContent]

theorem showTimeSlotsMessage_keeps (p : Page) (s : State) (m : String) :
    KeepsConfirmation s (showTimeSlotsMessage p s m) := by
  unfold showTimeSlotsMessage
  split
  · exact setAllSectionContent_keeps s _
  · split <;> simp [KeepsConfirmation]

theorem loadTimeSlots_keeps (p : Page) (s : State) (c d : String) :
    KeepsConfirmation s (loadTimeSlots p s c d) := by
  unfold loadTimeSlots
  by_cases h : p.isNewLayout <;> simp [h, KeepsConfirmation, State.setAllSectionContent]

theorem updatePrevButtonState_keeps (p : Page) (t : JsDate) (s : State) :
    KeepsConfirmation s (updatePrevButtonState p t s) := by
  unfold updatePrevButtonState
  split
  · exact KeepsConfirmation.refl s
  · simp only []
    split
    · exact KeepsConfirmation.refl s
    · split <;> simp [KeepsConfirmation]

theorem dayClick_keeps (p : Page) (s : State) (i : Nat) :
    KeepsConfirmation s (dayClick p s i) := by
  unfold dayClick
  split
  · exact KeepsConfirmation.refl s
  · simp only []
    split
    · exact KeepsConfirmation.trans (by simp [KeepsConfirmation]) (loadTimeSlots_keeps _ _ _ _)
    · split
      · exact KeepsConfirmation.trans (by simp [KeepsConfirmation])
          (showTimeSlotsMessage_keeps _ _ _)
      · split <;> simp [KeepsConfirmation]

theorem renderWeek_keeps (p : Page) (t : JsDate) (s : State) (d : JsDate) :
    KeepsConfirmation s (renderWeek p t s d) := by
  unfold renderWeek
  split
  · exact KeepsConfirmation.refl s
  · simp only []
    have h1 : KeepsConfirmation s (updatePrevButtonState p t
        { s with weekDays := (List.range 7).map (makeDayCell t d),
                 log := s.log ++ [.renderWeek d] }) :=
      KeepsConfirmation.trans (by simp [KeepsConfirmation]) (updatePrevButtonState_keeps _ _ _)
    split
    · exact KeepsConfirmation.trans h1 (dayClick_keeps _ _ _)
    · exact h1

theorem navigateWeek_keeps (p : Page) (t : JsDate) (s : State) (direction : Int) :
    KeepsConfirmation s (navigateWeek p t s direction) := by
  unfold navigateWeek
  split
  · exact KeepsConfirmation.refl s
  · simp only []
    split
    · simp [KeepsConfirmation]
    · split
      · simp [KeepsConfirmation]
      · exact KeepsConfirmation.trans (by simp [KeepsConfirmation]) (renderWeek_keeps _ _ _ _)

theorem resetTimeSelection_keeps (p : Page) (s : State) :
    KeepsConfirmation s (resetTimeSelection p s) := by
  simp [KeepsConfirmation, resetTimeSelection]

theorem courtClick_keeps (p : Page) (s : State) (i : Nat) :
    KeepsConfirmation s (courtClick p s i) := by
  unfold courtClick
  split
  · exact KeepsConfirmation.refl s
  · simp only []
    exact KeepsConfirmation.trans
      (KeepsConfirmation.trans (by simp [KeepsConfirmation]) (loadTimeSlots_keeps _ _ _ _))
      (resetTimeSelection_keeps _ _)

theorem setSection_keeps (s : State) (name : SectionName) (el : Option SectionEl) :
    KeepsConfirmation s (s.setSection name el) := by
  cases name <;> simp [KeepsConfirmation, State.setSection]

theorem renderTimeSection_keeps (p : Page) (s : State) (name : SectionName)
    (items : List SlotItem) (cp : Nat) (cn : String) :
    KeepsConfirmation s (renderTimeSection p s name items cp cn) := by
  unfold renderTimeSection
  split
  · exact KeepsConfirmation.refl s
  · split <;> exact setSection_keeps _ _ _

theorem renderTimeSlotsBySections_keeps (p : Page) (s : State)
    (items : Option (List SlotItem)) (cp : Nat) (cn : String) :
    KeepsConfirmation s (renderTimeSlotsBySections p s items cp cn) := by
  unfold renderTimeSlotsBySections
  split
  · exact showTimeSlotsMessage_keeps _ _ _
  · split
    · exact showTimeSlotsMessage_keeps _ _ _
    · exact KeepsConfirmation.trans
        (KeepsConfirmation.trans (renderTimeSection_keeps _ _ _ _ _ _)
          (renderTimeSection_keeps _ _ _ _ _ _))
        (renderTimeSection_keeps _ _ _ _ _ _)

theorem loadTimeSlots_settle_keeps (stack : Nat) (p : Page) (s s1 : State)
    (outcome : FetchOutcome SlotsResponse)
    (h : finalState s (loadTimeSlots_settle stack p s outcome) = some s1) :
    KeepsConfirmation s s1 := by
  by_cases hf : slotLoadFailed outcome = true
  · rw [loadTimeSlots_settle_failed stack p s outcome hf] at h
    simp only [finalState, Option.some.injEq] at h
    rw [← h]
    exact KeepsConfirmation.refl s
  · match outcome, hf with
    | .response true (some data), hf =>
      have hs : data.success = true := by simpa [slotLoadFailed] using hf
      simp only [loadTimeSlots_settle, loadTimeSlots_then, hs, if_true, finalState,
        Option.some.injEq] at h
      rw [← h]
      exact renderTimeSlotsBySections_keeps _ _ _ _ _
    | .networkError, hf => simp [slotLoadFailed] at hf
    | .response false _, hf => simp [slotLoadFailed] at hf
    | .response true none, hf => simp [slotLoadFailed] at hf

theorem showSelectedTimeInfo_keeps (s : State) (cn : String) (cp : Nat) :
    KeepsConfirmation s (showSelectedTimeInfo s cn cp) := by
  unfold showSelectedTimeInfo
  split <;> simp [KeepsConfirmation]

theorem showDurationSelector_keeps (s : State) (st et : String) (cp : Nat) (cn : String)
    (h : Int) : KeepsConfirmation s (showDurationSelector s st et cp cn h) := by
  simp [KeepsConfirmation, showDurationSelector]

theorem modifySlotElement_keeps (s : State) (name : SectionName) (i : Nat)
    (f : SlotElement → SlotElement) : KeepsConfirmation s (s.modifySlotElement name i f) := by
  unfold State.modifySlotElement
  split
  · split
    · exact setSection_keeps _ _ _
    · exact KeepsConfirmation.refl s
  · exact KeepsConfirmation.refl s

theorem handleTimeSlotSelection_keeps (p : Page) (s : State) (name : SectionName) (i : Nat) :
    KeepsConfirmation s (handleTimeSlotSelection p s name i) := by
  unfold handleTimeSlotSelection
  split
  · simp only []
    have h2 : KeepsConfirmation s
        ((resetTimeSelection p s).modifySlotElement name i SlotElement.select) :=
      KeepsConfirmation.trans (resetTimeSelection_keeps p s) (modifySlotElement_keeps _ _ _ _)
    split
    · exact KeepsConfirmation.trans
        (KeepsConfirmation.trans h2 (by simp [KeepsConfirmation]))
        (showSelectedTimeInfo_keeps _ _ _)
    · exact KeepsConfirmation.trans
        (KeepsConfirmation.trans h2 (by simp [KeepsConfirmation]))
        (showDurationSelector_keeps _ _ _ _ _ _)
  · exact KeepsConfirmation.refl s

theorem checkExtendedAvailability_modal (s : State) (st et : String) (d cp : Nat)
    (cn : String) :
    KeepsConfirmation s (checkExtendedAvailability s st et d cp cn) := by
  unfold checkExtendedAvailability
  cases s.timeSlots <;> simp [KeepsConfirmation]

theorem durationOptionClick_modal (s s1 : State) (option : DurationOption)
    (h : durationOptionClick s option = .ok s1) :
    s1.bookingConfirmModal = s.bookingConfirmModal ∧
      (s1.selectedDuration = s.selectedDuration ∨ s1.selectedDuration = option.hours) := by
  unfold durationOptionClick at h
  cases hm : s.durationModal with
  | none =>
    rw [hm] at h
    simp only [Except.ok.injEq] at h
    subst h
    exact ⟨rfl, Or.inl rfl⟩
  | some modal =>
    rw [hm] at h
    simp only [] at h
    cases he : calculateEndTime modal.startTime option.hours with
    | none => rw [he] at h; simp at h
    | some e =>
      rw [he] at h
      simp only [Except.ok.injEq] at h
      subst h
      have hk := checkExtendedAvailability_modal
        { s with selectedDuration := option.hours, durationModal := some modal }
        modal.startTime e option.hours modal.courtPrice modal.courtName
      exact ⟨hk.1, Or.inr hk.2⟩

theorem fillConfirmModal_ok (s s1 : State) (modal : ConfirmModal) (cn date st et : String)
    (tp d : Nat) (h : fillConfirmModal s modal cn date st et tp d = .ok s1) :
    s1.log = s.log ∧ s1.selectedDuration = s.selectedDuration ∧
      ShowsConfirmation s1 st et d := by
  unfold fillConfirmModal at h
  split at h
  · simp at h
  · simp only [Except.ok.injEq] at h
    subst h
    exact ⟨rfl, rfl, _, rfl, rfl, rfl, rfl, rfl⟩

theorem showBookingConfirmation_ok (s s1 : State) (st et : String) (d cp : Nat) (cn : String)
    (h : showBookingConfirmation s st et d cp cn = .ok s1) :
    s1.log = s.log ∧ s1.selectedDuration = s.selectedDuration ∧
      (s1.bookingConfirmModal = s.bookingConfirmModal ∨ ShowsConfirmation s1 st et d) := by
  unfold showBookingConfirmation at h
  split at h
  · simp only [Except.ok.injEq] at h
    subst h
    exact ⟨rfl, rfl, Or.inl rfl⟩
  · simp only [] at h
    split at h
    · have := fillConfirmModal_ok _ _ _ _ _ _ _ _ _ h
      exact ⟨this.1, this.2.1, Or.inr this.2.2⟩
    · simp only [Except.ok.injEq] at h
      subst h
      exact ⟨rfl, rfl, Or.inr ⟨_, rfl, rfl, rfl, rfl, rfl⟩⟩

theorem handleBookingConfirmation_ok (stack : Nat) (p : Page) (s s1 : State)
    (h : handleBookingConfirmation stack p s = .ok s1) :
    s1.log = s.log ∧ s1.selectedDuration = s.selectedDuration ∧
      (s1.bookingConfirmModal = s.bookingConfirmModal ∨
        ∃ slot endTime, s.selectedTimeSlot = some slot ∧
          ShowsConfirmation s1 slot.startTime endTime
            (if p.isNewLayout then 1 else s.selectedDuration)) := by
  unfold handleBookingConfirmation at h
  split at h
  · rename_i slot _ hslot
    simp only [] at h
    split at h
    · simp only [Except.ok.injEq] at h
      subst h
      exact ⟨rfl, rfl, Or.inl rfl⟩
    · split at h
      · simp at h
      · rename_i endTime _
        unfold showBookingConfirmationModal at h
        split at h
        · simp only [Except.ok.injEq] at h
          subst h
          exact ⟨rfl, rfl, Or.inl rfl⟩
        · have := fillConfirmModal_ok _ _ _ _ _ _ _ _ _ h
          exact ⟨this.1, this.2.1, Or.inr ⟨slot, endTime, hslot, this.2.2⟩⟩
  · rw [showMessage_overflows] at h
    simp at h

theorem checkExtendedAvailability_settle_ok (stack : Nat) (p : Page) (s s1 : State)
    (req : CheckRequest) (outcome : FetchOutcome CheckResponse)
    (h : finalState s (checkExtendedAvailability_settle stack p s req outcome) = some s1) :
    KeepsConfirmation s s1 ∨
      ∃ ok data, outcome = .response ok (some data) ∧ data.success = true ∧
        data.available = true ∧ s1.log = s.log ∧ s1.selectedDuration = s.selectedDuration ∧
        ShowsConfirmation s1 req.start_time req.endTime req.duration := by
  have hcatch : checkExtendedAvailability_catch stack s = .error (.thrown .stackOverflow) := by
    simp [checkExtendedAvailability_catch, showErrorMessage_overflows]
  cases outcome with
  | networkError =>
    simp only [checkExtendedAvailability_settle, hcatch, finalState, Option.some.injEq] at h
    subst h
    exact Or.inl (KeepsConfirmation.refl _)
  | response ok body =>
    cases body with
    | none =>
      simp only [checkExtendedAvailability_settle, hcatch, finalState, Option.some.injEq] at h
      subst h
      exact Or.inl (KeepsConfirmation.refl _)
    | some data =>
      by_cases hav : (data.success && data.available) = true
      · have hthen : checkExtendedAvailability_then stack p s req data =
            showBookingConfirmation s req.start_time req.endTime req.duration req.courtPrice
              req.courtName := by
          simp [checkExtendedAvailability_then, hav]
        simp only [checkExtendedAvailability_settle, hthen] at h
        cases hres : showBookingConfirmation s req.start_time req.endTime req.duration
            req.courtPrice req.courtName with
        | ok s2 =>
          rw [hres] at h
          simp only [finalState, Option.some.injEq] at h
          subst h
          have := showBookingConfirmation_ok _ _ _ _ _ _ _ hres
          rcases this.2.2 with hm | hm
          · exact Or.inl ⟨hm, this.2.1⟩
          · have hsa : data.success = true ∧ data.available = true := by
              simpa using hav
            exact Or.inr ⟨ok, data, rfl, hsa.1, hsa.2, this.1, this.2.1, hm⟩
        | error err =>
          rw [hres] at h
          cases err with
          | thrown e0 =>
            simp only [hcatch, finalState, Option.some.injEq] at h
            subst h
            exact Or.inl (KeepsConfirmation.refl _)
          | unmodelled => simp [finalState] at h
      · have hf : (data.success && data.available) = false := by
          simpa using hav
        rw [(checkExtendedAvailability_settle_unavailable stack p s req data ok hf).2] at h
        simp only [finalState, Option.some.injEq] at h
        subst h
        exact Or.inl (KeepsConfirmation.refl _)

theorem step_confirmation (stack : Nat) (p : Page) (today : JsDate) (s s1 : State)
    (e : Event) (h : step stack p today s e = some s1) :
    KeepsConfirmation s s1 ∨
    (∃ option, e = .durationClick option ∧
      s1.bookingConfirmModal = s.bookingConfirmModal ∧ s1.selectedDuration = option.hours) ∨
    (e = .confirmClick ∧ s1.log = s.log ∧ s1.selectedDuration = s.selectedDuration ∧
      ∃ slot endTime, s.selectedTimeSlot = some slot ∧
        ShowsConfirmation s1 slot.startTime endTime
          (if p.isNewLayout then 1 else s.selectedDuration)) ∨
    (∃ req ok data, e = .checkSettled req (.response ok (some data)) ∧
      Effect.fetchCheck req ∈ s.log ∧ data.success = true ∧ data.available = true ∧
      s1.log = s.log ∧ s1.selectedDuration = s.selectedDuration ∧
      ShowsConfirmation s1 req.start_time req.endTime req.duration) := by
  cases e with
  | navigateWeek direction =>
    simp only [step, Option.some.injEq] at h
    subst h
    exact Or.inl (navigateWeek_keeps _ _ _ _)
  | prevWeekClick =>
    simp only [step, Option.some.injEq] at h
    subst h
    left
    unfold prevWeekClick
    split
    · exact KeepsConfirmation.refl _
    · split
      · exact KeepsConfirmation.refl _
      · exact navigateWeek_keeps _ _ _ _
  | nextWeekClick =>
    simp only [step, Option.some.injEq] at h
    subst h
    left
    unfold nextWeekClick
    split
    · exact KeepsConfirmation.refl _
    · exact navigateWeek_keeps _ _ _ _
  | dayClick i =>
    simp only [step, Option.some.injEq] at h
    subst h
    exact Or.inl (dayClick_keeps _ _ _)
  | courtClick i =>
    simp only [step, Option.some.injEq] at h
    subst h
    exact Or.inl (courtClick_keeps _ _ _)
  | slotsSettled c d outcome =>
    simp only [step] at h
    split at h
    · exact Or.inl (loadTimeSlots_settle_keeps stack p s s1 outcome h)
    · simp only [Option.some.injEq] at h
      subst h
      exact Or.inl (KeepsConfirmation.refl _)
  | slotClick name i =>
    simp only [step, Option.some.injEq] at h
    subst h
    exact Or.inl (handleTimeSlotSelection_keeps _ _ _ _)
  | durationClick option =>
    simp only [step] at h
    cases hres : durationOptionClick s option with
    | ok s2 =>
      rw [hres] at h
      simp only [finalState, Option.some.injEq] at h
      subst h
      have := durationOptionClick_modal _ _ _ hres
      rcases this.2 with hd | hd
      · exact Or.inl ⟨this.1, hd⟩
      · exact Or.inr (Or.inl ⟨option, rfl, this.1, hd⟩)
    | error err =>
      rw [hres] at h
      cases err with
      | thrown e0 =>
        simp only [finalState, Option.some.injEq] at h
        subst h
        exact Or.inl (KeepsConfirmation.refl _)
      | unmodelled => simp [finalState] at h
  | durationClose =>
    simp only [step, Option.some.injEq] at h
    subst h
    exact Or.inl (by simp [KeepsConfirmation, closeDurationSelector])
  | checkSettled req outcome =>
    simp only [step] at h
    split at h
    · rename_i hlog
      rcases checkExtendedAvailability_settle_ok stack p s s1 req outcome h with hk | hk
      · exact Or.inl hk
      · obtain ⟨ok, data, ho, hs, ha, hl, hd, hshow⟩ := hk
        subst ho
        exact Or.inr (Or.inr (Or.inr ⟨req, ok, data, rfl, hlog, hs, ha, hl, hd, hshow⟩))
    · simp only [Option.some.injEq] at h
      subst h
      exact Or.inl (KeepsConfirmation.refl _)
  | confirmClick =>
    simp only [step] at h
    split at h
    · cases hres : handleBookingConfirmation stack p s with
      | ok s2 =>
        rw [hres] at h
        simp only [finalState, Option.some.injEq] at h
        subst h
        have := handleBookingConfirmation_ok _ _ _ _ hres
        rcases this.2.2 with hm | hm
        · exact Or.inl ⟨hm, this.2.1⟩
        · exact Or.inr (Or.inr (Or.inl ⟨rfl, this.1, this.2.1, hm⟩))
      | error err =>
        rw [hres] at h
        cases err with
        | thrown e0 =>
          simp only [finalState, Option.some.injEq] at h
          subst h
          exact Or.inl (KeepsConfirmation.refl _)
        | unmodelled => simp [finalState] at h
    · simp only [Option.some.injEq] at h
      subst h
      exact Or.inl (KeepsConfirmation.refl _)

/-- C17, counterexample: on the legacy sample page the user chooses court A,
its slots arrive, the user picks the slot at 10:00, closes the duration
selector and clicks the confirm button. The confirmation modal is shown for
10:00-11:00 with duration 1, and no re-check request was ever sent. -/
theorem confirmation_without_recheck_counterexample :
    examplePage.isNewLayout = false ∧ examplePage.confirmBookingBtn = true ∧
    exampleConfirmWithoutCheck.map (fun s => noCheckRequest s) = some true ∧
    exampleConfirmWithoutCheck.map (fun s => s.bookingConfirmModal.map fun m =>
        (m.visible, m.formStartTime, m.formEndTime, m.formDuration)) =
      some (some (true, "10:00", "11:00", some "1")) := by
  decide

/-- C17, amended: an event changes the confirmation modal only in two ways.
Either it is the end of a re-check request that was sent, answered with
`success` and `available`, and then the modal is shown with the start time,
end time and duration of that request (for the court and date selected when
the answer arrives); or it is a click on the confirm button, which sends no
request and shows the modal for the selected slot with the duration
`selectedDuration` (1 in the section-based layout), whether or not a re-check
was made. -/
theorem confirmation_shown_only_by (stack : Nat) (p : Page) (today : JsDate) (s s1 : State)
    (e : Event) (hstep : step stack p today s e = some s1)
    (hchg : s1.bookingConfirmModal ≠ s.bookingConfirmModal) :
    (∃ req ok data, e = .checkSettled req (.response ok (some data)) ∧
      Effect.fetchCheck req ∈ s.log ∧ data.success = true ∧ data.available = true ∧
      ShowsConfirmation s1 req.start_time req.endTime req.duration) ∨
    (e = .confirmClick ∧ s1.log = s.log ∧
      ∃ slot endTime, s.selectedTimeSlot = some slot ∧
        ShowsConfirmation s1 slot.startTime endTime
          (if p.isNewLayout then 1 else s.selectedDuration)) := by
  rcases step_confirmation stack p today s s1 e hstep with hk | ⟨o, _, hm, _⟩ | hc | hr
  · exact absurd hk.1 hchg
  · exact absurd hm hchg
  · exact Or.inr ⟨hc.1, hc.2.1, hc.2.2.2⟩
  · obtain ⟨req, ok, data, he, hlog, hs, ha, _, _, hshow⟩ := hr
    exact Or.inl ⟨req, ok, data, he, hlog, hs, ha, hshow⟩

/-- Witness of the amended C17: the answer to the re-check request of the
sample run reports the slot as free. -/
theorem confirmation_shown_only_by_witness :
    (∃ s1, step 8 examplePage exampleToday exampleLegacyChosen
        (.checkSettled exampleCheckRequest (.response true (some exampleFreeResponse)))
        = some s1 ∧
      s1.bookingConfirmModal ≠ exampleLegacyChosen.bookingConfirmModal ∧
      ((∃ req ok data, Event.checkSettled exampleCheckRequest
            (.response true (some exampleFreeResponse)) =
            .checkSettled req (.response ok (some data)) ∧
          Effect.fetchCheck req ∈ exampleLegacyChosen.log ∧ data.success = true ∧
          data.available = true ∧
          ShowsConfirmation s1 req.start_time req.endTime req.duration) ∨
        (Event.checkSettled exampleCheckRequest (.response true (some exampleFreeResponse)) =
            .confirmClick ∧ s1.log = exampleLegacyChosen.log ∧
          ∃ slot endTime, exampleLegacyChosen.selectedTimeSlot = some slot ∧
            ShowsConfirmation s1 slot.startTime endTime
              (if examplePage.isNewLayout then 1 else exampleLegacyChosen.selectedDuration)))) :=
  ⟨(showBookingConfirmation exampleLegacyChosen "10:00" "12:00" 2 1000 "Корт A").toOption.getD
      exampleLegacyChosen,
    by decide, by decide,
    confirmation_shown_only_by 8 examplePage exampleToday exampleLegacyChosen _ _
      (by decide) (by decide)⟩

theorem highlightSelectedDate_keeps (p : Page) (s : State) :
    KeepsConfirmation s (highlightSelectedDate p s) := by
  unfold highlightSelectedDate
  split
  · exact KeepsConfirmation.refl s
  · simp only []
    split <;> simp [KeepsConfirmation]

theorem pageLoad_selectedDuration (p : Page) (today : JsDate) (dom : State) :
    (pageLoad p today dom).selectedDuration = 1 := by
  unfold pageLoad
  simp only []
  split
  · unfold initCalendar
    simp only []
    rw [(highlightSelectedDate_keeps _ _).2]
    simp only []
    rw [(renderWeek_keeps _ _ _ _).2]
    simp [State.initial]
  · simp [State.initial]

theorem step_selectedDuration (stack : Nat) (p : Page) (today : JsDate) (s s1 : State)
    (e : Event) (h : step stack p today s e = some s1)
    (hd : s.selectedDuration = 1 ∨ s.selectedDuration = 2 ∨ s.selectedDuration = 3) :
    s1.selectedDuration = 1 ∨ s1.selectedDuration = 2 ∨ s1.selectedDuration = 3 := by
  rcases step_confirmation stack p today s s1 e h with hk | ⟨o, _, _, ho⟩ | hc | hr
  · rw [hk.2]; exact hd
  · rw [ho]; cases o <;> simp [DurationOption.hours]
  · rw [hc.2.2.1]; exact hd
  · obtain ⟨_, _, _, _, _, _, _, _, hsd, _⟩ := hr
    rw [hsd]; exact hd

theorem run_selectedDuration (stack : Nat) (p : Page) (today : JsDate) (events : List Event) :
    ∀ s s1 : State, run stack p today s events = some s1 →
      (s.selectedDuration = 1 ∨ s.selectedDuration = 2 ∨ s.selectedDuration = 3) →
      s1.selectedDuration = 1 ∨ s1.selectedDuration = 2 ∨ s1.selectedDuration = 3 := by
  induction events with
  | nil =>
    intro s s1 h hd
    simp only [run, Option.some.injEq] at h
    subst h
    exact hd
  | cons e rest ih =>
    intro s s1 h hd
    simp only [run] at h
    cases hstep : step stack p today s e with
    | none => rw [hstep] at h; simp at h
    | some s2 =>
      rw [hstep] at h
      exact ih s2 s1 h (step_selectedDuration stack p today s s2 e hstep hd)

/-- C18: in every state reached from the loaded page by the events of the
model, `selectedDuration` is 1, 2 or 3; and in the section-based layout the
duration that `handleBookingConfirmation` writes into the booking form is 1,
whatever `selectedDuration` is: whenever the handler changes the modal, the
form holds duration 1, and with a court and a slot selected, an active court
element and the modal of the template it does so. -/
theorem selectedDuration_domain (stack : Nat) (p : Page) (today : JsDate) (dom : State)
    (events : List Event) (s : State)
    (hrun : run stack p today (pageLoad p today dom) events = some s) :
    (s.selectedDuration = 1 ∨ s.selectedDuration = 2 ∨ s.selectedDuration = 3) ∧
    (p.isNewLayout = true → ∀ (s0 s1 : State), handleBookingConfirmation stack p s0 = .ok s1 →
      s1.bookingConfirmModal = s0.bookingConfirmModal ∨
        ∃ m, s1.bookingConfirmModal = some m ∧ m.visible = true ∧
          m.formDuration = some "1") ∧
    (p.isNewLayout = true → ∀ (s0 : State) (court : CourtEl) (modal : ConfirmModal)
        (slot : TimeSlot),
      activeCourt s0 = some court → s0.bookingConfirmModal = some modal →
      modal.dynamic = false → truthy s0.selectedCourt = true →
      s0.selectedTimeSlot = some slot →
      ∃ s1 m, handleBookingConfirmation stack p s0 = .ok s1 ∧
        s1.bookingConfirmModal = some m ∧ m.visible = true ∧
        m.formDuration = some "1") := by
  refine ⟨?_, ?_, ?_⟩
  · exact run_selectedDuration stack p today events _ s hrun
      (Or.inl (pageLoad_selectedDuration p today dom))
  · intro hp s0 s1 h
    rcases (handleBookingConfirmation_ok stack p s0 s1 h).2.2 with hm | ⟨slot, et, _, hshow⟩
    · exact Or.inl hm
    · obtain ⟨m, hm, hv, _, _, hd⟩ := hshow
      rw [hp] at hd
      exact Or.inr ⟨m, hm, hv, by simpa using hd⟩
  · intro hp s0 court modal slot hcourt hmodal hstatic hsel hslot
    have h1 : toString (1 : Nat) = "1" := by rfl
    simp [handleBookingConfirmation, hsel, hslot, hp, hcourt, showBookingConfirmationModal,
      hmodal, fillConfirmModal, hstatic, h1]

/-- Witness of C18: the legacy sample run in which two hours were chosen. -/
theorem selectedDuration_domain_witness :
    run 64 examplePage exampleToday (pageLoad examplePage exampleToday exampleDom)
      [.courtClick 0,
       .slotsSettled "1" "2026-11-06" (.response true (some exampleSlotsResponse)),
       .slotClick .morning 1,
       .durationClick .two] = some exampleLegacyChosen ∧
    exampleLegacyChosen.selectedDuration = 2 ∧
    (exampleLegacyChosen.selectedDuration = 1 ∨ exampleLegacyChosen.selectedDuration = 2 ∨
      exampleLegacyChosen.selectedDuration = 3) :=
  ⟨by decide, by decide,
    (selectedDuration_domain 64 examplePage exampleToday exampleDom
      [.courtClick 0,
       .slotsSettled "1" "2026-11-06" (.response true (some exampleSlotsResponse)),
       .slotClick .morning 1,
       .durationClick .two] exampleLegacyChosen (by decide)).1⟩

/-! ## Messages of the booking page -/

/-- C21: `showMessage(message, kind)` of `booking.js` does not return. The
test for the shared helper is always true, so each call makes the call
`showMessage(kind, message)` of the same function: with room for `stack`
nested calls, for every `stack`, the call ends with the stack exhausted,
whatever the message and kind, and neither an alert nor a log entry is made.
The same holds for `showErrorMessage`, which calls it. -/
theorem showMessage_exhausts_stack (stack : Nat) (s : State) (message kind : String) :
    showMessageDefined = true ∧
    showMessage (stack + 1) s message kind = showMessage stack s kind message ∧
    showMessage stack s message kind = .error (.thrown .stackOverflow) ∧
    (∀ s1, showMessage stack s message kind ≠ .ok s1) ∧
    showErrorMessage stack s message = .error (.thrown .stackOverflow) := by
  refine ⟨rfl, ?_, showMessage_overflows stack s message kind, ?_,
    showErrorMessage_overflows stack s message⟩
  · simp only [showMessage, showMessageDefined, if_true]
  · intro s1 h
    rw [showMessage_overflows stack s message kind] at h
    cases h

/-! ## Slot selection -/

theorem slotElement_congr (s t : State) (hm : t.morningSlots = s.morningSlots)
    (hd : t.daySlots = s.daySlots) (he : t.eveningSlots = s.eveningSlots)
    (name : SectionName) (j : Nat) : t.slotElement name j = s.slotElement name j := by
  cases name <;> simp [State.slotElement, State.getSection, hm, hd, he]

theorem showSelectedTimeInfo_sections (s : State) (courtName : String) (courtPrice : Nat) :
    (showSelectedTimeInfo s courtName courtPrice).morningSlots = s.morningSlots ∧
    (showSelectedTimeInfo s courtName courtPrice).daySlots = s.daySlots ∧
    (showSelectedTimeInfo s courtName courtPrice).eveningSlots = s.eveningSlots ∧
    (showSelectedTimeInfo s courtName courtPrice).selectedTimeSlot = s.selectedTimeSlot := by
  unfold showSelectedTimeInfo
  split <;> simp

theorem mapElements_get (f : SlotElement → SlotElement) (el : SectionEl) (j : Nat) :
    (match (el.mapElements f).content with
      | .grid elements => elements.get? j
      | _ => none) =
    (match el.content with
      | .grid elements => elements.get? j
      | _ => none).map f := by
  unfold SectionEl.mapElements
  cases hc : el.content <;> simp [hc]

theorem resetTimeSelection_slotElement (p : Page) (s : State) (name : SectionName) (j : Nat) :
    (resetTimeSelection p s).slotElement name j =
      (s.slotElement name j).map (SlotElement.deselect p.isNewLayout) := by
  cases name <;> simp only [State.slotElement, State.getSection, resetTimeSelection]
  · cases s.morningSlots with
    | none => rfl
    | some el => exact mapElements_get _ el j
  · cases s.daySlots with
    | none => rfl
    | some el => exact mapElements_get _ el j
  · cases s.eveningSlots with
    | none => rfl
    | some el => exact mapElements_get _ el j

theorem enum_map_get (f : SlotElement → SlotElement) (i j : Nat) (l : List SlotElement) :
    (l.enum.map fun je => if je.1 = i then f je.2 else je.2).get? j =
      if j = i then (l.get? j).map f else l.get? j := by
  simp only [List.get?_eq_getElem?, List.getElem?_map, List.getElem?_enum]
  cases l[j]? with
  | none => simp
  | some a => by_cases h : j = i <;> simp [h]

theorem getSection_setSection (s : State) (name name1 : SectionName) (el : Option SectionEl) :
    (s.setSection name el).getSection name1 =
      if name1 = name then el else s.getSection name1 := by
  cases name <;> cases name1 <;> simp [State.setSection, State.getSection]

theorem modifySlotElement_slotElement (s : State) (name : SectionName) (i : Nat)
    (f : SlotElement → SlotElement) (name1 : SectionName) (j : Nat) :
    (s.modifySlotElement name i f).slotElement name1 j =
      if name1 = name ∧ j = i then (s.slotElement name1 j).map f
      else s.slotElement name1 j := by
  unfold State.modifySlotElement
  cases hsec : s.getSection name with
  | none =>
    simp only []
    by_cases h : name1 = name ∧ j = i
    · obtain ⟨h1, _⟩ := h
      subst h1
      simp [State.slotElement, hsec]
    · simp [h]
  | some el =>
    simp only []
    cases hc : el.content with
    | grid elements =>
      simp only [State.slotElement, getSection_setSection]
      by_cases hn : name1 = name
      · subst hn
        simp only [if_true, true_and, hsec, hc, enum_map_get]
      · simp [hn]
    | template | loading | message _ | noSlots =>
      simp only []
      by_cases h : name1 = name ∧ j = i
      · obtain ⟨h1, _⟩ := h
        subst h1
        simp [State.slotElement, hsec, hc]
      · simp [h]

theorem modifySlotElement_selectedTimeSlot (s : State) (name : SectionName) (i : Nat)
    (f : SlotElement → SlotElement) :
    (s.modifySlotElement name i f).selectedTimeSlot = s.selectedTimeSlot := by
  unfold State.modifySlotElement
  cases s.getSection name with
  | none => rfl
  | some el =>
    simp only []
    cases el.content <;> cases name <;> rfl

theorem slotElement_mem (s : State) (name : SectionName) (j : Nat) (el : SlotElement)
    (h : s.slotElement name j = some el) : el ∈ s.slotElements := by
  have key : ∀ sec : Option SectionEl,
      (match sec with
        | some e =>
          match e.content with
          | .grid elements => elements.get? j
          | _ => none
        | none => none) = some el → el ∈ SectionEl.elements sec := by
    intro sec hsec
    cases sec with
    | none => cases hsec
    | some e =>
      simp only [SectionEl.elements]
      cases hc : e.content with
      | grid elements =>
        simp only [hc] at hsec
        exact List.get?_mem hsec
      | template | loading | message _ | noSlots => simp [hc] at hsec
  simp only [State.slotElements, List.mem_append]
  cases name
  · exact Or.inl (Or.inl (key _ h))
  · exact Or.inl (Or.inr (key _ h))
  · exact Or.inr (key _ h)

theorem createFreeSlotElement_hasLayoutClass (p : Page) (slot : SlotItem) (courtPrice : Nat)
    (courtName : String) :
    (createFreeSlotElement p slot courtPrice courtName).hasLayoutClass p.isNewLayout = true := by
  simp [createFreeSlotElement, SlotElement.hasLayoutClass]

theorem handleTimeSlotSelection_slotElement (p : Page) (s : State) (name : SectionName)
    (i : Nat) (card : Bool) (startTime endTime : String) (hour : Int) (courtPrice : Nat)
    (courtName : String) (selected : Bool)
    (hclick : s.slotElement name i =
      some (.free card startTime endTime hour courtPrice courtName selected))
    (name1 : SectionName) (j : Nat) :
    (handleTimeSlotSelection p s name i).selectedTimeSlot =
      some { startTime := startTime, endTime := endTime, hour := hour } ∧
    (handleTimeSlotSelection p s name i).slotElement name1 j =
      if name1 = name ∧ j = i then
        ((s.slotElement name1 j).map (SlotElement.deselect p.isNewLayout)).map SlotElement.select
      else (s.slotElement name1 j).map (SlotElement.deselect p.isNewLayout) := by
  simp only [handleTimeSlotSelection, hclick]
  by_cases hl : p.isNewLayout = true
  · simp only [hl, if_true]
    refine ⟨by rw [(showSelectedTimeInfo_sections _ _ _).2.2.2], ?_⟩
    rw [slotElement_congr _ _ (showSelectedTimeInfo_sections _ _ _).1
      (showSelectedTimeInfo_sections _ _ _).2.1 (showSelectedTimeInfo_sections _ _ _).2.2.1]
    refine (slotElement_congr (State.modifySlotElement (resetTimeSelection p s) name i
      SlotElement.select) _ (by rfl) (by rfl) (by rfl) name1 j).trans ?_
    rw [modifySlotElement_slotElement, resetTimeSelection_slotElement, hl]
  · have hf : p.isNewLayout = false := by simpa using hl
    simp only [hf, Bool.false_eq_true, if_false]
    refine ⟨rfl, ?_⟩
    refine (slotElement_congr (State.modifySlotElement (resetTimeSelection p s) name i
      SlotElement.select) _ (by rfl) (by rfl) (by rfl) name1 j).trans ?_
    rw [modifySlotElement_slotElement, resetTimeSelection_slotElement, hf]

/-- C22: a click on a free slot element (the element at position `i` of a
section, with every free slot element of the page carrying the class of the
page layout, as `createFreeSlotElement` gives it) leaves `selectedTimeSlot`
equal to the start time, end time and hour of that element, leaves that
element marked selected and otherwise unchanged, and leaves no other slot
element of the page marked selected. -/
theorem handleTimeSlotSelection_selects_only_clicked (p : Page) (s : State)
    (name : SectionName) (i : Nat) (card : Bool) (startTime endTime : String) (hour : Int)
    (courtPrice : Nat) (courtName : String) (selected : Bool)
    (hclick : s.slotElement name i =
      some (.free card startTime endTime hour courtPrice courtName selected))
    (hclass : ∀ el ∈ s.slotElements, el.hasLayoutClass p.isNewLayout = true) :
    (handleTimeSlotSelection p s name i).selectedTimeSlot =
      some { startTime := startTime, endTime := endTime, hour := hour } ∧
    (handleTimeSlotSelection p s name i).slotElement name i =
      some (.free card startTime endTime hour courtPrice courtName true) ∧
    (∀ (name1 : SectionName) (j : Nat) (el : SlotElement),
      (handleTimeSlotSelection p s name i).slotElement name1 j = some el →
      el.isSelected = true → name1 = name ∧ j = i) := by
  have hcard : card = p.isNewLayout := by
    simpa [SlotElement.hasLayoutClass] using hclass _ (slotElement_mem s name i _ hclick)
  refine ⟨(handleTimeSlotSelection_slotElement p s name i card startTime endTime hour courtPrice
    courtName selected hclick name i).1, ?_, ?_⟩
  · rw [(handleTimeSlotSelection_slotElement p s name i card startTime endTime hour courtPrice
      courtName selected hclick name i).2, hclick]
    simp [SlotElement.deselect, SlotElement.select, hcard]
  · intro name1 j el hel hsel
    rw [(handleTimeSlotSelection_slotElement p s name i card startTime endTime hour courtPrice
      courtName selected hclick name1 j).2] at hel
    by_cases hpos : name1 = name ∧ j = i
    · exact hpos
    · exfalso
      rw [if_neg hpos] at hel
      cases hold : s.slotElement name1 j with
      | none => rw [hold] at hel; cases hel
      | some old =>
        rw [hold] at hel
        simp only [Option.map_some', Option.some.injEq] at hel
        subst hel
        cases old with
        | free c st et h cp cn sel =>
          have hc : c = p.isNewLayout := by
            simpa [SlotElement.hasLayoutClass] using hclass _ (slotElement_mem s name1 j _ hold)
          simp [SlotElement.deselect, SlotElement.isSelected, hc] at hsel
        | partner b st et h jb n =>
          simp [SlotElement.deselect, SlotElement.isSelected] at hsel

/-- Witness of C22: on the legacy page showing the slots of court A with the
slot at 08:00 selected, a click on the slot at 10:00 selects that slot only. -/
theorem handleTimeSlotSelection_selects_only_clicked_witness :
    (handleTimeSlotSelection examplePage exampleLegacyShown .morning 0).slotElement .morning 0 =
      some (.free false "08:00" "09:00" 8 1000 "Корт A" true) ∧
    (handleTimeSlotSelection examplePage
        (handleTimeSlotSelection examplePage exampleLegacyShown .morning 0) .morning
        1).selectedTimeSlot = some { startTime := "10:00", endTime := "11:00", hour := 10 } ∧
    (handleTimeSlotSelection examplePage
        (handleTimeSlotSelection examplePage exampleLegacyShown .morning 0) .morning
        1).slotElements =
      [.free false "08:00" "09:00" 8 1000 "Корт A" false,
       .free false "10:00" "11:00" 10 1000 "Корт A" true,
       .free false "13:00" "14:00" 13 1000 "Корт A" false,
       .free false "19:00" "20:00" 19 1000 "Корт A" false] :=
  ⟨by decide,
    (handleTimeSlotSelection_selects_only_clicked examplePage
      (handleTimeSlotSelection examplePage exampleLegacyShown .morning 0) .morning 1 false
      "10:00" "11:00" 10 1000 "Корт A" false (by decide)
      (by decide)).1,
    by decide⟩

/-! ## Previous-week control -/

theorem loadTimeSlots_prevDisabled (p : Page) (s : State) (c d : String) :
    (loadTimeSlots p s c d).prevDisabled = s.prevDisabled := by
  unfold loadTimeSlots
  by_cases h : p.isNewLayout <;> simp [h, State.setAllSectionContent]

theorem showTimeSlotsMessage_prevDisabled (p : Page) (s : State) (m : String) :
    (showTimeSlotsMessage p s m).prevDisabled = s.prevDisabled := by
  unfold showTimeSlotsMessage
  split
  · simp [State.setAllSectionContent]
  · split <;> simp

theorem dayClick_prevDisabled (p : Page) (s : State) (i : Nat) :
    (dayClick p s i).prevDisabled = s.prevDisabled := by
  unfold dayClick
  split
  · rfl
  · simp only []
    split
    · rw [loadTimeSlots_prevDisabled]
    · split
      · rw [showTimeSlotsMessage_prevDisabled]
      · split <;> rfl

theorem highlightSelectedDate_prevDisabled (p : Page) (s : State) :
    (highlightSelectedDate p s).prevDisabled = s.prevDisabled := by
  unfold highlightSelectedDate
  split
  · rfl
  · simp only []
    split <;> rfl

theorem renderWeek_prevDisabled (p : Page) (today : JsDate) (s : State) (startDate ws : JsDate)
    (hnav : p.weekNav = true) (hprev : p.prevWeekBtn = true)
    (hws : s.currentWeekStart = some ws) :
    (renderWeek p today s startDate).prevDisabled =
      decide (ws.getTime ≤ (getWeekStartDate today).getTime) := by
  have hupd : ∀ s0 : State, s0.currentWeekStart = some ws →
      (updatePrevButtonState p today s0).prevDisabled =
        decide (ws.getTime ≤ (getWeekStartDate today).getTime) := by
    intro s0 h0
    simp only [updatePrevButtonState, hprev, Bool.not_true, Bool.false_eq_true, if_false, h0]
    by_cases hle : ws.getTime ≤ (getWeekStartDate today).getTime <;> simp [hle]
  simp only [renderWeek, hnav, Bool.not_true, Bool.false_eq_true, if_false]
  split
  · rw [dayClick_prevDisabled]
    exact hupd _ hws
  · exact hupd _ hws

theorem weekInv_start_le_monday (today : JsDate) (s : State) (ws : JsDate)
    (h : WeekInv today s) (hws : s.currentWeekStart = some ws) :
    ws.getTime ≤ (getWeekStartDate today).getTime ↔ s.currentWeekIndex = 0 := by
  obtain ⟨ws1, hws1, hday, hms, h0, _⟩ := h
  rw [hws] at hws1
  cases hws1
  simp only [JsDate.getTime, JsDate.msPerDay, hday, hms]
  constructor <;> intro h <;> omega

/-- The week invariant together with the state of the previous-week control:
disabled exactly in the first week. -/
theorem navigateWeek_prevInv (p : Page) (today : JsDate) (s : State) (direction : Int)
    (hnav : p.weekNav = true) (hprev : p.prevWeekBtn = true)
    (hdir : direction = -1 ∨ direction = 1) (h : WeekInv today s)
    (hp : s.prevDisabled = true ↔ s.currentWeekIndex = 0) :
    ((navigateWeek p today s direction).prevDisabled = true ↔
      (navigateWeek p today s direction).currentWeekIndex = 0) := by
  have hinv := navigateWeek_weekInv p today s direction hdir h
  obtain ⟨ws, hws, hday, hms, h0, h12⟩ := h
  obtain ⟨ws1, hws1, -⟩ := id hinv
  have key := weekInv_start_le_monday today _ ws1 hinv hws1
  revert hws1 key
  unfold navigateWeek
  rw [hws]
  simp only [MAX_WEEKS_AHEAD]
  split
  · intro _ _
    simp only []
    constructor
    · intro _; trivial
    · intro _; exact hp.2 (by omega)
  · split
    · intro _ _
      simp only []
      constructor
      · intro hd
        have := hp.1 hd
        omega
      · intro h; omega
    · intro hws1 key
      rw [(renderWeek_week _ _ _ _).2] at hws1
      simp only [Option.some.injEq] at hws1
      subst hws1
      rw [renderWeek_prevDisabled p today _ _ _ hnav hprev rfl, decide_eq_true_eq]
      exact key

theorem navigateWeeks_prevInv (p : Page) (today : JsDate) (directions : List Int)
    (hnav : p.weekNav = true) (hprev : p.prevWeekBtn = true) :
    ∀ s : State, (∀ d ∈ directions, d = -1 ∨ d = 1) → WeekInv today s →
      (s.prevDisabled = true ↔ s.currentWeekIndex = 0) →
      ((navigateWeeks p today s directions).prevDisabled = true ↔
        (navigateWeeks p today s directions).currentWeekIndex = 0) := by
  induction directions with
  | nil => intro s _ _ hp; simpa [navigateWeeks] using hp
  | cons d rest ih =>
    intro s hd h hp
    have hd1 := hd d (by simp)
    have h1 := navigateWeek_weekInv p today s d hd1 h
    have hp1 := navigateWeek_prevInv p today s d hnav hprev hd1 h hp
    have := ih (navigateWeek p today s d) (fun x hx => hd x (by simp [hx])) h1 hp1
    simpa [navigateWeeks] using this

theorem initCalendar_prevInv (p : Page) (today : JsDate) (dom : State)
    (hnav : p.weekNav = true) (hprev : p.prevWeekBtn = true) :
    ((initCalendar p today dom).prevDisabled = true ↔
      (initCalendar p today dom).currentWeekIndex = 0) := by
  have hidx : (initCalendar p today dom).currentWeekIndex = 0 := by
    simp [initCalendar, (highlightSelectedDate_week _ _).1, (renderWeek_week _ _ _ _).1]
  have hdis : (initCalendar p today dom).prevDisabled = true := by
    simp only [initCalendar, highlightSelectedDate_prevDisabled]
    rw [renderWeek_prevDisabled p today _ _ (getWeekStartDate today) hnav hprev rfl]
    simp
  simp [hidx, hdis]

/-- C23, with a later clock: the legacy page is loaded on Friday at 23:30, and
on Saturday at 00:10 the user clicks the next-week control and then the
previous-week control. The week index is 0 again and the window starts on
Monday 2 November at 23:30, which is after the Monday that `getWeekStartDate`
gives at 00:10, so the render leaves the previous-week control enabled. -/
theorem prevWeek_enabled_at_first_week_counterexample :
    (initCalendar examplePage exampleLateEvening exampleDom).prevDisabled = true ∧
    examplePastMidnight.currentWeekIndex = 0 ∧
    examplePastMidnight.currentWeekStart = some { day := 20759, msOfDay := 84600000 } ∧
    getWeekStartDate exampleAfterMidnight = { day := 20759, msOfDay := 600000 } ∧
    examplePastMidnight.prevDisabled = false := by
  decide

/-- C23: on a page with the week row and the previous-week control, a render
of a window start leaves the control disabled exactly when that start is not
after the Monday of the current week, as `getWeekStartDate` gives it for the
moment of the render. With the current date and time held fixed, after
`initCalendar` and any sequence of `navigateWeek` calls with directions -1 or
+1, the control is therefore disabled exactly at week index 0: it is enabled at
every index from 1 to 12, and at index 0 a click on it changes nothing. -/
theorem prevWeek_disabled_iff_first_week (p : Page) (today : JsDate) (dom : State)
    (directions : List Int) (hnav : p.weekNav = true) (hprev : p.prevWeekBtn = true)
    (hdir : ∀ d ∈ directions, d = -1 ∨ d = 1) :
    (∀ (s : State) (ws : JsDate), s.currentWeekStart = some ws →
      ((renderWeek p today s ws).prevDisabled = true ↔
        ws.getTime ≤ (getWeekStartDate today).getTime)) ∧
    ((navigateWeeks p today (initCalendar p today dom) directions).prevDisabled = true ↔
      (navigateWeeks p today (initCalendar p today dom) directions).currentWeekIndex = 0) ∧
    (1 ≤ (navigateWeeks p today (initCalendar p today dom) directions).currentWeekIndex →
      (navigateWeeks p today (initCalendar p today dom) directions).currentWeekIndex ≤ 12 ∧
      (navigateWeeks p today (initCalendar p today dom) directions).prevDisabled = false) ∧
    ((navigateWeeks p today (initCalendar p today dom) directions).currentWeekIndex = 0 →
      prevWeekClick p today (navigateWeeks p today (initCalendar p today dom) directions) =
        navigateWeeks p today (initCalendar p today dom) directions) := by
  have hw := navigateWeeks_weekInv p today directions _ hdir (initCalendar_weekInv p today dom)
  have hp := navigateWeeks_prevInv p today directions hnav hprev _ hdir
    (initCalendar_weekInv p today dom) (initCalendar_prevInv p today dom hnav hprev)
  refine ⟨?_, hp, ?_, ?_⟩
  · intro s ws hws
    rw [renderWeek_prevDisabled p today s ws ws hnav hprev hws, decide_eq_true_eq]
  · intro h1
    obtain ⟨_, _, _, _, _, h12⟩ := hw
    refine ⟨h12, ?_⟩
    cases hd : (navigateWeeks p today (initCalendar p today dom) directions).prevDisabled with
    | false => rfl
    | true =>
      have := hp.1 hd
      omega
  · intro h0
    have hd := hp.2 h0
    simp [prevWeekClick, hd]

/-- Witness of C23: on the legacy page the control is disabled after the
first render, enabled after one step forward and after twelve, and disabled
again after a step forward and a step back. -/
theorem prevWeek_disabled_iff_first_week_witness :
    exampleStart.prevDisabled = true ∧
    (navigateWeeks examplePage exampleToday exampleStart [1]).currentWeekIndex = 1 ∧
    (navigateWeeks examplePage exampleToday exampleStart [1]).prevDisabled = false ∧
    exampleLastWeek.currentWeekIndex = 12 ∧
    exampleLastWeek.prevDisabled = false ∧
    (navigateWeeks examplePage exampleToday exampleStart [1, -1]).prevDisabled = true ∧
    ((navigateWeeks examplePage exampleToday (initCalendar examplePage exampleToday exampleDom)
        [1, -1]).prevDisabled = true ↔
      (navigateWeeks examplePage exampleToday (initCalendar examplePage exampleToday exampleDom)
        [1, -1]).currentWeekIndex = 0) :=
  ⟨by decide, by decide, by decide, by decide, by decide, by decide,
    (prevWeek_disabled_iff_first_week examplePage exampleToday exampleDom [1, -1] (by decide)
      (by decide) (by decide)).2.1⟩

/-! ## Timers -/

theorem filter_handle_eq_nil (l : List Timer) (p : Timer → Bool) (h : Nat)
    (hall : ∀ timer ∈ l.filter p, timer.handle = h) :
    (l.filter fun timer => timer.handle != h).filter p = [] := by
  rw [List.filter_eq_nil_iff]
  intro timer hmem hp
  have hm := List.mem_filter.1 hmem
  have := hall timer (List.mem_filter.2 ⟨hm.1, hp⟩)
  simp [this] at hm

theorem enableAutoRefresh_timers (s : AnalyticsState) (intervalMinutes : Option Nat)
    (hinv : s.autoRefreshTimers.map Timer.handle = s.refreshInterval.toList)
    (hpos : ∀ h, s.refreshInterval = some h → h ≠ 0) :
    (enableAutoRefresh s intervalMinutes).autoRefreshTimers =
        [⟨(enableAutoRefresh s intervalMinutes).timers.issued, .autoRefresh,
          intervalMinutes.getD 5 * 60 * 1000, true⟩] ∧
    (enableAutoRefresh s intervalMinutes).refreshInterval =
        some (enableAutoRefresh s intervalMinutes).timers.issued ∧
    (enableAutoRefresh s intervalMinutes).timers.issued = s.timers.issued + 1 := by
  cases hr : s.refreshInterval with
  | none =>
    have hnil : s.timers.active.filter (fun timer => timer.callback == .autoRefresh) = [] := by
      simpa [AnalyticsState.autoRefreshTimers, hr] using hinv
    simp [enableAutoRefresh, hr, truthyHandle, setInterval, AnalyticsState.autoRefreshTimers,
      List.filter_append, hnil]
  | some h =>
    have h0 := hpos h hr
    have hall : ∀ timer ∈ s.timers.active.filter (fun timer => timer.callback == .autoRefresh),
        timer.handle = h := by
      intro timer hmem
      have : timer.handle ∈ s.autoRefreshTimers.map Timer.handle :=
        List.mem_map_of_mem _ hmem
      rw [hinv, hr] at this
      simpa using this
    have hnil := filter_handle_eq_nil s.timers.active _ h hall
    simp [enableAutoRefresh, hr, truthyHandle, h0, setInterval, clearInterval,
      AnalyticsState.autoRefreshTimers, List.filter_append, hnil]

theorem disableAutoRefresh_timers (s : AnalyticsState)
    (hinv : s.autoRefreshTimers.map Timer.handle = s.refreshInterval.toList)
    (hpos : ∀ h, s.refreshInterval = some h → h ≠ 0) :
    (disableAutoRefresh s).autoRefreshTimers = [] ∧
    (disableAutoRefresh s).refreshInterval = none := by
  cases hr : s.refreshInterval with
  | none =>
    have hnil : s.timers.active.filter (fun timer => timer.callback == .autoRefresh) = [] := by
      simpa [AnalyticsState.autoRefreshTimers, hr] using hinv
    simp [disableAutoRefresh, hr, truthyHandle, AnalyticsState.autoRefreshTimers, hnil]
  | some h =>
    have h0 := hpos h hr
    have hall : ∀ timer ∈ s.timers.active.filter (fun timer => timer.callback == .autoRefresh),
        timer.handle = h := by
      intro timer hmem
      have : timer.handle ∈ s.autoRefreshTimers.map Timer.handle :=
        List.mem_map_of_mem _ hmem
      rw [hinv, hr] at this
      simpa using this
    have hnil := filter_handle_eq_nil s.timers.active _ h hall
    simp [disableAutoRefresh, hr, truthyHandle, h0, clearInterval,
      AnalyticsState.autoRefreshTimers, hnil]

theorem runAutoRefresh_inv (calls : List AutoRefreshCall) :
    ∀ s : AnalyticsState,
      s.autoRefreshTimers.map Timer.handle = s.refreshInterval.toList →
      (∀ h, s.refreshInterval = some h → h ≠ 0) →
      (runAutoRefresh s calls).autoRefreshTimers.map Timer.handle =
        (runAutoRefresh s calls).refreshInterval.toList ∧
      (∀ h, (runAutoRefresh s calls).refreshInterval = some h → h ≠ 0) := by
  induction calls with
  | nil => intro s h1 h2; exact ⟨h1, h2⟩
  | cons call rest ih =>
    intro s h1 h2
    cases call with
    | enable m =>
      obtain ⟨e1, e2, e3⟩ := enableAutoRefresh_timers s m h1 h2
      have := ih (enableAutoRefresh s m) (by rw [e1, e2]; rfl)
        (by intro h hh; rw [e2, e3] at hh; cases hh; omega)
      simpa [runAutoRefresh] using this
    | disable =>
      obtain ⟨e1, e2⟩ := disableAutoRefresh_timers s h1 h2
      have := ih (disableAutoRefresh s) (by rw [e1, e2]; rfl)
        (by intro h hh; rw [e2] at hh; cases hh)
      simpa [runAutoRefresh] using this

theorem clearTimeout_pending (s : SearchState)
    (hinv : ∀ timer ∈ s.pendingSearches, s.userSearchTimeout = some timer.handle) :
    (clearTimeout s.timers s.userSearchTimeout).active.filter Timer.isUserSearch = [] := by
  cases hu : s.userSearchTimeout with
  | none =>
    simp only [clearTimeout, clearInterval]
    rw [List.filter_eq_nil_iff]
    intro timer hmem hp
    have := hinv timer (List.mem_filter.2 ⟨hmem, hp⟩)
    rw [hu] at this
    cases this
  | some h =>
    simp only [clearTimeout, clearInterval]
    apply filter_handle_eq_nil
    intro timer hmem
    have := hinv timer hmem
    rw [hu] at this
    exact (Option.some.inj this).symm

theorem searchInput_pending (s : SearchState) (value : String)
    (hinv : ∀ timer ∈ s.pendingSearches, s.userSearchTimeout = some timer.handle) :
    (searchInput s value).pendingSearches =
        (if utf16Length (jsTrim value) < 2 then []
        else [⟨s.timers.issued + 1, .userSearch (jsTrim value), 300, false⟩]) ∧
    (∀ timer ∈ (searchInput s value).pendingSearches,
      (searchInput s value).userSearchTimeout = some timer.handle) := by
  have hclear := clearTimeout_pending s hinv
  have hissued : (clearTimeout s.timers s.userSearchTimeout).issued = s.timers.issued := by
    cases s.userSearchTimeout <;> rfl
  by_cases hlen : utf16Length (jsTrim value) < 2
  · simp [searchInput, hlen, SearchState.pendingSearches, hclear]
  · simp [searchInput, hlen, SearchState.pendingSearches, setTimeout, List.filter_append, hclear,
      hissued, Timer.isUserSearch]

theorem timeoutFires_pending (s : SearchState) (handle : Nat) :
    (timeoutFires s handle).pendingSearches.Sublist s.pendingSearches ∧
    (timeoutFires s handle).userSearchTimeout = s.userSearchTimeout := by
  unfold timeoutFires
  split
  · have hsub : ((s.timers.active.filter fun t => t.handle != handle).filter
        Timer.isUserSearch).Sublist (s.timers.active.filter Timer.isUserSearch) :=
      List.Sublist.filter _ (List.filter_sublist _)
    split <;> exact ⟨hsub, rfl⟩
  · exact ⟨List.Sublist.refl _, rfl⟩

theorem runSearch_inv (events : List SearchEvent) :
    ∀ s : SearchState, s.pendingSearches.length ≤ 1 →
      (∀ timer ∈ s.pendingSearches, s.userSearchTimeout = some timer.handle) →
      (runSearch s events).pendingSearches.length ≤ 1 ∧
      (∀ timer ∈ (runSearch s events).pendingSearches,
        (runSearch s events).userSearchTimeout = some timer.handle) := by
  induction events with
  | nil => intro s h1 h2; exact ⟨h1, h2⟩
  | cons event rest ih =>
    intro s h1 h2
    cases event with
    | input value =>
      obtain ⟨e1, e2⟩ := searchInput_pending s value h2
      have hlen : (searchInput s value).pendingSearches.length ≤ 1 := by
        rw [e1]; split <;> simp
      have := ih (searchInput s value) hlen e2
      simpa [runSearch] using this
    | fires handle =>
      obtain ⟨e1, e2⟩ := timeoutFires_pending s handle
      have hlen : (timeoutFires s handle).pendingSearches.length ≤ 1 :=
        Nat.le_trans e1.length_le h1
      have := ih (timeoutFires s handle) hlen
        (by intro timer hmem; rw [e2]; exact h2 timer (e1.subset hmem))
      simpa [runSearch] using this

/-- C24: timers have a single owner. Starting from a page where
`refreshInterval` is `null` and no auto-refresh timer is active, after any
sequence of `enableAutoRefresh` and `disableAutoRefresh` calls at most one
auto-refresh interval is active; a further `enableAutoRefresh` leaves exactly
one, the new one, and a further `disableAutoRefresh` leaves none. Starting
from a page with no search timer pending, after any sequence of search input
events and firing timeouts at most one search timer is pending; on a further
input event the `clearTimeout` call leaves none pending, and after the event
the only pending search timer is the new one, or there is none when the
`length` of the trimmed query, in UTF-16 code units, is below two. -/
theorem timers_single_owner (s0 : AnalyticsState) (calls : List AutoRefreshCall)
    (t0 : SearchState) (events : List SearchEvent)
    (hs0 : s0.refreshInterval = none) (hs1 : s0.autoRefreshTimers = [])
    (ht0 : t0.pendingSearches = []) :
    (runAutoRefresh s0 calls).autoRefreshTimers.length ≤ 1 ∧
    (∀ intervalMinutes,
      (enableAutoRefresh (runAutoRefresh s0 calls) intervalMinutes).autoRefreshTimers =
        [⟨(runAutoRefresh s0 calls).timers.issued + 1, .autoRefresh,
          intervalMinutes.getD 5 * 60 * 1000, true⟩]) ∧
    (disableAutoRefresh (runAutoRefresh s0 calls)).autoRefreshTimers = [] ∧
    (runSearch t0 events).pendingSearches.length ≤ 1 ∧
    (clearTimeout (runSearch t0 events).timers
      (runSearch t0 events).userSearchTimeout).active.filter Timer.isUserSearch = [] ∧
    (∀ value,
      (searchInput (runSearch t0 events) value).pendingSearches =
        if utf16Length (jsTrim value) < 2 then []
        else [⟨(runSearch t0 events).timers.issued + 1, .userSearch (jsTrim value), 300,
          false⟩]) := by
  obtain ⟨a1, a2⟩ := runAutoRefresh_inv calls s0 (by rw [hs0, hs1]; rfl)
    (by intro h hh; rw [hs0] at hh; cases hh)
  obtain ⟨b1, b2⟩ := runSearch_inv events t0 (by rw [ht0]; simp)
    (by intro timer hmem; rw [ht0] at hmem; cases hmem)
  refine ⟨?_, ?_, (disableAutoRefresh_timers _ a1 a2).1, b1, clearTimeout_pending _ b2, ?_⟩
  · have := congrArg List.length a1
    rw [List.length_map] at this
    rw [this]
    cases (runAutoRefresh s0 calls).refreshInterval <;> simp
  · intro m
    obtain ⟨e1, _, e3⟩ := enableAutoRefresh_timers _ m a1 a2
    rw [e1, e3]
  · intro value
    exact (searchInput_pending _ value b2).1

/-- Witness of C24: on a fresh page, three `enableAutoRefresh` calls with a
`disableAutoRefresh` in between leave one interval, the last one; and three
search inputs, the second timer having fired, leave one pending search timer,
the last one. A query of one letter schedules no search, and a query of one
character outside the basic plane, whose `length` is 2, schedules one. -/
theorem timers_single_owner_witness :
    (searchInput {} "a").pendingSearches = [] ∧
    utf16Length (String.mk [Char.ofNat 0x1F600]) = 2 ∧
    (searchInput {} (String.mk [Char.ofNat 0x1F600])).pendingSearches =
      [⟨1, .userSearch (String.mk [Char.ofNat 0x1F600]), 300, false⟩] ∧
    (runAutoRefresh {} [.enable none, .enable (some 1), .disable, .enable none]).timers.active =
      [⟨3, .autoRefresh, 300000, true⟩] ∧
    (runSearch {} [.input "ab", .input "abc", .fires 2, .input " abcd "]).timers.active =
      [⟨3, .userSearch "abcd", 300, false⟩] ∧
    (runSearch {} [.input "ab", .input "abc", .fires 2, .input " abcd "]).searches = ["abc"] ∧
    (runAutoRefresh {} [.enable none, .enable (some 1), .disable,
      .enable none]).autoRefreshTimers.length ≤ 1 ∧
    (runSearch {} [.input "ab", .input "abc", .fires 2,
      .input " abcd "]).pendingSearches.length ≤ 1 :=
  ⟨by decide, by decide, by decide, by decide, by decide, by decide,
    (timers_single_owner {} [.enable none, .enable (some 1), .disable, .enable none] {}
      [.input "ab", .input "abc", .fires 2, .input " abcd "] (by decide) (by decide)
      (by decide)).1,
    (timers_single_owner {} [.enable none, .enable (some 1), .disable, .enable none] {}
      [.input "ab", .input "abc", .fires 2, .input " abcd "] (by decide) (by decide)
      (by decide)).2.2.2.1⟩

/-! ## Booking time validation -/

theorem digitValue_digitChar (n : Nat) (h : n < 10) : digitValue (Nat.digitChar n) = some n := by
  interval_cases n <;> rfl

theorem twoDigits_digitChar (n : Nat) (h : n < 100) :
    twoDigits (Nat.digitChar (n / 10)) (Nat.digitChar (n % 10)) = some n := by
  simp only [twoDigits, digitValue_digitChar (n / 10) (by omega),
    digitValue_digitChar (n % 10) (by omega)]
  congr 1
  omega

theorem parseDate_timeText (h m : Nat) (hh : h ≤ 23) (hm : m ≤ 59) :
    parseDate ("1970-01-01T" ++ timeText h m) =
      some (some (((h * 60 + m) * 60000 : Nat) : Int)) := by
  have hdata : ("1970-01-01T" ++ timeText h m).data =
      ['1', '9', '7', '0', '-', '0', '1', '-', '0', '1', 'T', Nat.digitChar (h / 10),
        Nat.digitChar (h % 10), ':', Nat.digitChar (m / 10), Nat.digitChar (m % 10)] := by
    simp [timeText, String.data_append]
  have hpre : "1970-01-01T".data = ['1', '9', '7', '0', '-', '0', '1', '-', '0', '1', 'T'] := rfl
  have e1 := twoDigits_digitChar h (by omega)
  have e2 := twoDigits_digitChar m (by omega)
  simp only [parseDate, hdata, hpre, List.take, List.drop, if_true, List.append_eq,
    List.nil_append, parseTimeOfDay, e1, e2]
  simp only [hh, hm, and_self, if_true]

/-- C25: for start and end times written `HH:MM` with hours up to 23 and
minutes up to 59, `validateBookingTime` returns a result, which is valid
exactly when the end is at least 30 minutes and at most 4 hours after the
start. Otherwise it is invalid with the "end must be later than start" error
when the end is not after the start, with the "30 minutes minimum" error when
the end is less than 30 minutes after the start, and with the "4 hours
maximum" error when it is more than 4 hours after it. The submit handler
prevents the submission exactly when the result is invalid. -/
theorem validateBookingTime_window (h1 m1 h2 m2 : Nat) (hh1 : h1 ≤ 23) (hm1 : m1 ≤ 59)
    (hh2 : h2 ≤ 23) (hm2 : m2 ≤ 59) :
    validateBookingTime (timeText h1 m1) (timeText h2 m2) =
      some
        (if h2 * 60 + m2 ≤ h1 * 60 + m1 then
          { valid := false, error := some "Время окончания должно быть позже времени начала" }
        else if h2 * 60 + m2 < h1 * 60 + m1 + 30 then
          { valid := false, error := some "Минимальная длительность бронирования - 30 минут" }
        else if h1 * 60 + m1 + 240 < h2 * 60 + m2 then
          { valid := false, error := some "Максимальная длительность бронирования - 4 часа" }
        else { valid := true }) ∧
    ((validateBookingTime (timeText h1 m1) (timeText h2 m2)).map Validation.valid = some true ↔
      h1 * 60 + m1 + 30 ≤ h2 * 60 + m2 ∧ h2 * 60 + m2 ≤ h1 * 60 + m1 + 240) ∧
    ((quickCreateSubmit (timeText h1 m1) (timeText h2 m2)).map SubmitOutcome.defaultPrevented =
      some (!decide (h1 * 60 + m1 + 30 ≤ h2 * 60 + m2 ∧ h2 * 60 + m2 ≤ h1 * 60 + m1 + 240))) := by
  have key : validateBookingTime (timeText h1 m1) (timeText h2 m2) =
      some
        (if h2 * 60 + m2 ≤ h1 * 60 + m1 then
          { valid := false, error := some "Время окончания должно быть позже времени начала" }
        else if h2 * 60 + m2 < h1 * 60 + m1 + 30 then
          { valid := false, error := some "Минимальная длительность бронирования - 30 минут" }
        else if h1 * 60 + m1 + 240 < h2 * 60 + m2 then
          { valid := false, error := some "Максимальная длительность бронирования - 4 часа" }
        else { valid := true }) := by
    simp only [validateBookingTime, parseDate_timeText h1 m1 hh1 hm1,
      parseDate_timeText h2 m2 hh2 hm2, numLe, numLt, numSub]
    by_cases c1 : h2 * 60 + m2 ≤ h1 * 60 + m1
    · have t1 : ((((h2 * 60 + m2) * 60000 : Nat) : Int) ≤
          (((h1 * 60 + m1) * 60000 : Nat) : Int)) := by omega
      simp only [c1, t1, decide_True, if_true]
    · have n1 : ¬ ((((h2 * 60 + m2) * 60000 : Nat) : Int) ≤
          (((h1 * 60 + m1) * 60000 : Nat) : Int)) := by omega
      by_cases c2 : h2 * 60 + m2 < h1 * 60 + m1 + 30
      · have t2 : ((((h2 * 60 + m2) * 60000 : Nat) : Int) -
            (((h1 * 60 + m1) * 60000 : Nat) : Int) < 1800000) := by omega
        simp only [c1, n1, c2, t2, decide_True, decide_False, if_true, if_false,
          Bool.false_eq_true]
      · have n2 : ¬ ((((h2 * 60 + m2) * 60000 : Nat) : Int) -
            (((h1 * 60 + m1) * 60000 : Nat) : Int) < 1800000) := by omega
        by_cases c3 : h1 * 60 + m1 + 240 < h2 * 60 + m2
        · have t3 : ((14400000 : Int) < (((h2 * 60 + m2) * 60000 : Nat) : Int) -
              (((h1 * 60 + m1) * 60000 : Nat) : Int)) := by omega
          simp only [c1, n1, c2, n2, c3, t3, decide_True, decide_False, if_true, if_false,
            Bool.false_eq_true]
        · have n3 : ¬ ((14400000 : Int) < (((h2 * 60 + m2) * 60000 : Nat) : Int) -
              (((h1 * 60 + m1) * 60000 : Nat) : Int)) := by omega
          simp only [c1, n1, c2, n2, c3, n3, decide_False, if_false, Bool.false_eq_true]
  have hiff : ∀ v : Validation,
      (some v).map Validation.valid = some true ↔ v.valid = true := by
    intro v; simp
  refine ⟨key, ?_, ?_⟩
  · rw [key, hiff]
    by_cases c1 : h2 * 60 + m2 ≤ h1 * 60 + m1
    · simp only [c1, if_true]
      constructor
      · intro h; cases h
      · intro h; omega
    · by_cases c2 : h2 * 60 + m2 < h1 * 60 + m1 + 30
      · simp only [c1, c2, if_true, if_false]
        constructor
        · intro h; cases h
        · intro h; omega
      · by_cases c3 : h1 * 60 + m1 + 240 < h2 * 60 + m2
        · simp only [c1, c2, c3, if_true, if_false]
          constructor
          · intro h; cases h
          · intro h; omega
        · simp only [c1, c2, c3, if_false]
          constructor
          · intro _; omega
          · intro _; trivial
  · rw [quickCreateSubmit, key]
    by_cases c1 : h2 * 60 + m2 ≤ h1 * 60 + m1
    · have hno : ¬ (h1 * 60 + m1 + 30 ≤ h2 * 60 + m2 ∧ h2 * 60 + m2 ≤ h1 * 60 + m1 + 240) := by
        omega
      simp [c1, hno]
    · by_cases c2 : h2 * 60 + m2 < h1 * 60 + m1 + 30
      · have hno : ¬ (h1 * 60 + m1 + 30 ≤ h2 * 60 + m2 ∧
            h2 * 60 + m2 ≤ h1 * 60 + m1 + 240) := by omega
        simp [c1, c2, hno]
      · by_cases c3 : h1 * 60 + m1 + 240 < h2 * 60 + m2
        · have hno : ¬ (h1 * 60 + m1 + 30 ≤ h2 * 60 + m2 ∧
              h2 * 60 + m2 ≤ h1 * 60 + m1 + 240) := by omega
          simp [c1, c2, c3, hno]
        · have hyes : h1 * 60 + m1 + 30 ≤ h2 * 60 + m2 ∧
              h2 * 60 + m2 ≤ h1 * 60 + m1 + 240 := by omega
          simp [c1, c2, c3, hyes]

/-- Witness of C25: from 10:00, the ends 10:00, 10:20, 10:30, 14:00 and 14:30. -/
theorem validateBookingTime_window_witness :
    timeText 10 0 = "10:00" ∧ timeText 14 30 = "14:30" ∧
    validateBookingTime "10:00" "10:00" =
      some { valid := false, error := some "Время окончания должно быть позже времени начала" } ∧
    validateBookingTime "10:00" "10:20" =
      some { valid := false, error := some "Минимальная длительность бронирования - 30 минут" } ∧
    validateBookingTime "10:00" "10:30" = some { valid := true } ∧
    validateBookingTime "10:00" "14:00" = some { valid := true } ∧
    validateBookingTime "10:00" "14:30" =
      some { valid := false, error := some "Максимальная длительность бронирования - 4 часа" } ∧
    ((validateBookingTime (timeText 10 0) (timeText 14 30)).map Validation.valid = some true ↔
      10 * 60 + 0 + 30 ≤ 14 * 60 + 30 ∧ 14 * 60 + 30 ≤ 10 * 60 + 0 + 240) :=
  ⟨by decide, by decide, by decide, by decide, by decide, by decide, by decide,
    (validateBookingTime_window 10 0 14 30 (by decide) (by decide) (by decide)
      (by decide)).2.1⟩

/-! ## Booking time validation: times that do not parse -/

/-- C30: `validateBookingTime` makes no check that its arguments are times.
When the date built from the start time or from the end time is invalid, so
that its time value is `NaN`, none of the three comparisons holds and the
result is `valid: true`, and the submit handler lets the form go; this is so
for an empty start time, an empty end time, and an hour of 25. -/
theorem validateBookingTime_unparsed_is_valid (startTime endTime : String)
    (start end_ : Option Int)
    (hs : parseDate ("1970-01-01T" ++ startTime) = some start)
    (he : parseDate ("1970-01-01T" ++ endTime) = some end_)
    (hnan : start = none ∨ end_ = none) :
    numLe end_ start = false ∧
    numLt (numSub end_ start) (some 1800000) = false ∧
    numLt (some 14400000) (numSub end_ start) = false ∧
    validateBookingTime startTime endTime = some { valid := true } ∧
    quickCreateSubmit startTime endTime = some { defaultPrevented := false, toast := none } ∧
    validateBookingTime "" "" = some { valid := true } ∧
    validateBookingTime "" "10:00" = some { valid := true } ∧
    validateBookingTime "10:00" "" = some { valid := true } ∧
    validateBookingTime "25:00" "09:00" = some { valid := true } := by
  have h1 : numLe end_ start = false := by
    cases start <;> cases end_ <;> simp_all [numLe]
  have h2 : numLt (numSub end_ start) (some 1800000) = false := by
    cases start <;> cases end_ <;> simp_all [numLt, numSub]
  have h3 : numLt (some 14400000) (numSub end_ start) = false := by
    cases start <;> cases end_ <;> simp_all [numLt, numSub]
  have hv : validateBookingTime startTime endTime = some { valid := true } := by
    simp [validateBookingTime, hs, he, h1, h2, h3]
  refine ⟨h1, h2, h3, hv, ?_, by decide, by decide, by decide, by decide⟩
  simp [quickCreateSubmit, hv]

/-- Witness of C30: an empty start time with the end time "10:00". -/
theorem validateBookingTime_unparsed_is_valid_witness :
    parseDate ("1970-01-01T" ++ "") = some none ∧
    parseDate ("1970-01-01T" ++ "10:00") = some (some 36000000) ∧
    validateBookingTime "" "10:00" = some { valid := true } ∧
    quickCreateSubmit "" "10:00" = some { defaultPrevented := false, toast := none } :=
  ⟨by decide, by decide,
    (validateBookingTime_unparsed_is_valid "" "10:00" none (some 36000000) (by decide)
      (by decide) (Or.inl rfl)).2.2.2.1,
    by decide⟩

/-! ## Number formatting -/

theorem digitChar_isDigit (n : Nat) (h : n < 10) : (Nat.digitChar n).isDigit = true := by
  interval_cases n <;> rfl

theorem toDigitsCore_isDigit (fuel : Nat) :
    ∀ (n : Nat) (ds : List Char), (∀ c ∈ ds, c.isDigit = true) →
      ∀ c ∈ Nat.toDigitsCore 10 fuel n ds, c.isDigit = true := by
  induction fuel with
  | zero => intro n ds h; simpa [Nat.toDigitsCore] using h
  | succ f ih =>
    intro n ds h
    have hd : ∀ c ∈ Nat.digitChar (n % 10) :: ds, c.isDigit = true := by
      intro c hc
      rcases List.mem_cons.1 hc with rfl | hc
      · exact digitChar_isDigit _ (Nat.mod_lt _ (by decide))
      · exact h c hc
    simp only [Nat.toDigitsCore]
    split
    · exact hd
    · exact ih _ _ hd

theorem toDigitsCore_ne_nil (fuel : Nat) :
    ∀ (n : Nat) (ds : List Char), (0 < fuel ∨ ds ≠ []) → Nat.toDigitsCore 10 fuel n ds ≠ [] := by
  induction fuel with
  | zero =>
    intro n ds h
    rcases h with h | h
    · omega
    · simpa [Nat.toDigitsCore] using h
  | succ f ih =>
    intro n ds _
    simp only [Nat.toDigitsCore]
    split
    · simp
    · exact ih _ _ (Or.inr (by simp))

theorem toString_isDigit (n : Nat) : ∀ c ∈ (toString n).data, c.isDigit = true :=
  toDigitsCore_isDigit (n + 1) n [] (by simp)

theorem toString_ne_nil (n : Nat) : (toString n).data ≠ [] :=
  toDigitsCore_ne_nil (n + 1) n [] (Or.inl (by omega))

theorem isDigit_isWordChar (c : Char) (h : c.isDigit = true) : isWordChar c = true := by
  simp [isWordChar, Char.isAlphanum, h]

theorem isDigit_ne_space (c : Char) (h : c.isDigit = true) : c ≠ ' ' := by
  rintro rfl
  exact absurd h (by decide)

theorem threeDigitGroups_digits :
    ∀ ds : List Char, (∀ c ∈ ds, c.isDigit = true) →
      threeDigitGroups ds = (decide (0 < ds.length) && decide (ds.length % 3 = 0))
  | [], _ => by simp [threeDigitGroups]
  | [_], _ => by simp [threeDigitGroups]
  | [_, _], _ => by simp [threeDigitGroups]
  | d1 :: d2 :: d3 :: rest, h => by
    have h1 := h d1 (by simp)
    have h2 := h d2 (by simp)
    have h3 := h d3 (by simp)
    have hrest : ∀ c ∈ rest, c.isDigit = true := fun c hc => h c (by simp [hc])
    have ih := threeDigitGroups_digits rest hrest
    simp only [threeDigitGroups, h1, h2, h3, Bool.and_self, Bool.true_and, ih]
    cases rest with
    | nil => simp [noDigitAhead]
    | cons c cs =>
      have hc := hrest c (by simp)
      simp only [noDigitAhead, hc, Bool.not_true, Bool.false_or, List.length_cons]
      have e1 : (cs.length + 1 + 1 + 1 + 1) % 3 = (cs.length + 1) % 3 := by omega
      simp [e1]

theorem replaceGroupPositions_digit_cons (b c : Char) (cs : List Char)
    (hb : b.isDigit = true) (h : ∀ x ∈ c :: cs, x.isDigit = true) :
    replaceGroupPositions (some b) (c :: cs) =
      if (cs.length + 1) % 3 = 0 then ' ' :: c :: replaceGroupPositions (some c) cs
      else c :: replaceGroupPositions (some c) cs := by
  have hc := h c (by simp)
  simp only [replaceGroupPositions, notWordBoundary, Option.map_some', Option.getD_some,
    isDigit_isWordChar b hb, isDigit_isWordChar c hc, beq_self_eq_true, Bool.true_and,
    threeDigitGroups_digits (c :: cs) h, List.length_cons, Nat.zero_lt_succ, decide_True,
    decide_eq_true_eq]

theorem replaceGroupPositions_first (c : Char) (cs : List Char) (hc : c.isDigit = true) :
    replaceGroupPositions none (c :: cs) = c :: replaceGroupPositions (some c) cs := by
  simp [replaceGroupPositions, notWordBoundary, isDigit_isWordChar c hc]

theorem replaceGroupPositions_pieces :
    ∀ (ds : List Char) (b : Char), b.isDigit = true → (∀ c ∈ ds, c.isDigit = true) →
      ∃ first rest, splitOnChar ' ' (replaceGroupPositions (some b) ds) = first :: rest ∧
        first.length = ds.length % 3 ∧ ∀ g ∈ rest, g.length = 3 := by
  intro ds
  induction ds with
  | nil =>
    intro b _ _
    exact ⟨[], [], by simp [replaceGroupPositions, splitOnChar], rfl, by simp⟩
  | cons c cs ih =>
    intro b hb h
    have hc := h c (by simp)
    obtain ⟨first, rest, hsplit, hlen, hrest⟩ := ih c hc (fun x hx => h x (by simp [hx]))
    have hsp := isDigit_ne_space c hc
    have hcons : splitOnChar ' ' (c :: replaceGroupPositions (some c) cs) =
        (c :: first) :: rest := by
      simp only [splitOnChar, hsp, if_false, hsplit]
    rw [replaceGroupPositions_digit_cons b c cs hb h]
    by_cases h3 : (cs.length + 1) % 3 = 0
    · rw [if_pos h3]
      refine ⟨[], (c :: first) :: rest, ?_, ?_, ?_⟩
      · rw [splitOnChar, if_pos rfl, hcons]
      · simp [h3]
      · intro g hg
        rcases List.mem_cons.1 hg with rfl | hg
        · simp only [List.length_cons, hlen]; omega
        · exact hrest g hg
    · rw [if_neg h3]
      refine ⟨c :: first, rest, hcons, ?_, hrest⟩
      simp only [List.length_cons, hlen]; omega

theorem replaceGroupPositions_filter :
    ∀ (ds : List Char) (b : Option Char), (∀ c ∈ ds, c.isDigit = true) →
      (replaceGroupPositions b ds).filter (fun c => c != ' ') = ds := by
  intro ds
  induction ds with
  | nil => intro b _; rfl
  | cons c cs ih =>
    intro b h
    have hsp := isDigit_ne_space c (h c (by simp))
    have ih1 := ih (some c) (fun x hx => h x (by simp [hx]))
    simp only [replaceGroupPositions]
    split <;> simp [List.filter_cons, hsp, ih1]

theorem replaceGroupPositions_getLast :
    ∀ (ds : List Char) (b : Option Char),
      (replaceGroupPositions b ds).getLast? = ds.getLast? := by
  intro ds
  induction ds with
  | nil => intro b; rfl
  | cons c cs ih =>
    intro b
    have hc : (c :: replaceGroupPositions (some c) cs).getLast? = (c :: cs).getLast? := by
      rw [List.getLast?_cons, List.getLast?_cons, ih (some c)]
    simp only [replaceGroupPositions]
    split
    · rw [List.getLast?_cons_cons, hc]
    · exact hc

/-- C26: for a non-negative integer `n` up to `MAX_SAFE_INTEGER`, where
`toString` gives the decimal numeral of `n`, `formatNumber(n)` is that numeral
with spaces put in: without its spaces the result is the decimal numeral
again; it neither starts nor ends with a space; and the groups between the
spaces are a first group of one to three characters followed by groups of
exactly three. In particular `formatNumber(1234567)` is "1 234 567". -/
theorem formatNumber_groups_of_three (n : Nat) (hn : n ≤ MAX_SAFE_INTEGER) :
    ∃ text : String, formatNumber n = some text ∧
      text.data.filter (fun c => c != ' ') = (toString n).data ∧
      text.data.head? ≠ some ' ' ∧
      text.data.getLast? ≠ some ' ' ∧
      (∃ first rest, splitOnChar ' ' text.data = first :: rest ∧
        1 ≤ first.length ∧ first.length ≤ 3 ∧ ∀ g ∈ rest, g.length = 3) ∧
      formatNumber 1234567 = some "1 234 567" := by
  have hd := toString_isDigit n
  obtain ⟨c, cs, hcs⟩ := List.exists_cons_of_ne_nil (toString_ne_nil n)
  have hc : c.isDigit = true := hd c (by simp [hcs])
  have hrest : ∀ x ∈ cs, x.isDigit = true := fun x hx => hd x (by simp [hcs, hx])
  refine ⟨String.mk (replaceGroupPositions none (toString n).data), by simp [formatNumber, hn],
    replaceGroupPositions_filter _ none hd, ?_, ?_, ?_, by decide⟩
  · simp only [hcs, replaceGroupPositions_first c cs hc, List.head?_cons]
    intro h
    exact isDigit_ne_space c hc (Option.some.inj h)
  · simp only [replaceGroupPositions_getLast]
    intro h
    have hmem := List.mem_of_getLast?_eq_some h
    exact isDigit_ne_space _ (hd _ hmem) rfl
  · obtain ⟨first, rest, hsplit, hlen, hr⟩ := replaceGroupPositions_pieces cs c hc hrest
    refine ⟨c :: first, rest, ?_, by simp, ?_, hr⟩
    · simp only [hcs, replaceGroupPositions_first c cs hc, splitOnChar,
        isDigit_ne_space c hc, if_false, hsplit]
    · simp only [List.length_cons, hlen]; omega

/-- Witness of C26: the number 1234567. -/
theorem formatNumber_groups_of_three_witness :
    1234567 ≤ MAX_SAFE_INTEGER ∧
    formatNumber 1234567 = some "1 234 567" ∧
    splitOnChar ' ' "1 234 567".data = [['1'], ['2', '3', '4'], ['5', '6', '7']] ∧
    formatCurrency 1234567 = some "1 234 567 ₽" ∧
    formatNumber MAX_SAFE_INTEGER = some "9 007 199 254 740 991" ∧
    formatNumber (MAX_SAFE_INTEGER + 1) = none ∧
    (∃ text : String, formatNumber 1234567 = some text ∧
      text.data.filter (fun c => c != ' ') = (toString 1234567).data ∧
      text.data.head? ≠ some ' ' ∧
      text.data.getLast? ≠ some ' ' ∧
      (∃ first rest, splitOnChar ' ' text.data = first :: rest ∧
        1 ≤ first.length ∧ first.length ≤ 3 ∧ ∀ g ∈ rest, g.length = 3) ∧
      formatNumber 1234567 = some "1 234 567") :=
  ⟨by decide, by decide, by decide, by decide, by decide, by decide,
    formatNumber_groups_of_three 1234567 (by decide)⟩

/-! ## Email validation -/

theorem reEnd_iff (cs : List Char) : reEnd cs = true ↔ cs = [] := by
  cases cs <;> simp [reEnd]

theorem reChar_iff (ch : Char) (k : List Char → Bool) (cs : List Char) :
    reChar ch k cs = true ↔ ∃ b, cs = ch :: b ∧ k b = true := by
  cases cs with
  | nil => simp [reChar]
  | cons c rest =>
    simp only [reChar, Bool.and_eq_true, beq_iff_eq, List.cons.injEq]
    constructor
    · rintro ⟨rfl, hk⟩
      exact ⟨rest, ⟨rfl, rfl⟩, hk⟩
    · rintro ⟨b, ⟨rfl, rfl⟩, hk⟩
      exact ⟨rfl, hk⟩

theorem rePlus_iff (cls : Char → Bool) (k : List Char → Bool) (cs : List Char) :
    rePlus cls k cs = true ↔
      ∃ a b, cs = a ++ b ∧ a ≠ [] ∧ (∀ c ∈ a, cls c = true) ∧ k b = true := by
  induction cs with
  | nil =>
    simp only [rePlus, Bool.false_eq_true, false_iff]
    rintro ⟨a, b, h, hne, -⟩
    cases a with
    | nil => exact hne rfl
    | cons _ _ => cases h
  | cons c rest ih =>
    simp only [rePlus, Bool.and_eq_true, Bool.or_eq_true]
    constructor
    · rintro ⟨hc, hk | hr⟩
      · exact ⟨[c], rest, rfl, by simp, by simpa using hc, hk⟩
      · obtain ⟨a, b, rfl, _, ha, hk⟩ := ih.1 hr
        refine ⟨c :: a, b, rfl, by simp, ?_, hk⟩
        intro x hx
        rcases List.mem_cons.1 hx with rfl | hx
        · exact hc
        · exact ha x hx
    · rintro ⟨a, b, h, hne, ha, hk⟩
      cases a with
      | nil => exact absurd rfl hne
      | cons x a1 =>
        simp only [List.cons_append, List.cons.injEq] at h
        obtain ⟨rfl, rfl⟩ := h
        refine ⟨ha c (by simp), ?_⟩
        cases a1 with
        | nil => exact Or.inl hk
        | cons y a2 =>
          exact Or.inr (ih.2 ⟨y :: a2, b, rfl, by simp, fun z hz => ha z (by simp [hz]), hk⟩)

theorem emailAtom_iff (c : Char) :
    emailAtom c = true ↔ isJsWhitespace c = false ∧ c ≠ '@' := by
  simp [emailAtom]

theorem isValidEmail_parts (email : String) :
    isValidEmail email = true ↔
      ∃ a1 a2 a3 : List Char, email.data = a1 ++ '@' :: (a2 ++ '.' :: a3) ∧
        a1 ≠ [] ∧ a2 ≠ [] ∧ a3 ≠ [] ∧
        (∀ c ∈ a1, emailAtom c = true) ∧ (∀ c ∈ a2, emailAtom c = true) ∧
        (∀ c ∈ a3, emailAtom c = true) := by
  simp only [isValidEmail, rePlus_iff, reChar_iff, reEnd_iff]
  constructor
  · rintro ⟨a1, b1, h1, n1, c1, b2, rfl, a2, b3, rfl, n2, c2, b4, rfl, a3, b5, rfl, n3, c3, rfl⟩
    exact ⟨a1, a2, a3, by simpa using h1, n1, n2, n3, c1, c2, c3⟩
  · rintro ⟨a1, a2, a3, h, n1, n2, n3, c1, c2, c3⟩
    exact ⟨a1, _, h, n1, c1, _, rfl, a2, _, rfl, n2, c2, _, rfl, a3, [], by simp, n3, c3, rfl⟩

theorem showEmailError_requests (s : EmailEditor) (message : String) :
    (showEmailError s message).requests = s.requests ∧
    (showEmailError s message).saveDisabled = s.saveDisabled := by
  unfold showEmailError
  by_cases h1 : s.emailError = true <;> by_cases h2 : s.emailInput = true <;> simp [h1, h2]

/-- The functions `isValidEmail` and the save handler as they are written:
`isValidEmail(s)` would be true exactly when `s` has no white space and is a
non-empty part without '@', then '@', then a part without '@' in which some
'.' is neither the first nor the last character; the save handler would send
the update request, with the trimmed text, only when that text is not empty
and `isValidEmail` accepts it. -/
theorem isValidEmail_as_written (email : String) (s : EmailEditor)
    (value : String) :
    (isValidEmail email = true ↔
      (∀ c ∈ email.data, isJsWhitespace c = false) ∧
      ∃ localPart domain : List Char, email.data = localPart ++ '@' :: domain ∧
        localPart ≠ [] ∧ '@' ∉ localPart ∧ '@' ∉ domain ∧
        ∃ i, 0 < i ∧ i + 1 < domain.length ∧ domain.get? i = some '.') ∧
    ((saveEmailClick s value).requests =
      if jsTrim value ≠ "" ∧ isValidEmail (jsTrim value) = true then
        s.requests ++ [jsTrim value]
      else s.requests) ∧
    ((jsTrim value = "" ∨ isValidEmail (jsTrim value) = false) →
      (saveEmailClick s value).requests = s.requests ∧
      (saveEmailClick s value).saveDisabled = s.saveDisabled) := by
  have hsave : (saveEmailClick s value).requests =
      if jsTrim value ≠ "" ∧ isValidEmail (jsTrim value) = true then
        s.requests ++ [jsTrim value]
      else s.requests := by
    unfold saveEmailClick
    by_cases he : jsTrim value = ""
    · simp [he, (showEmailError_requests _ _).1]
    · by_cases hv : isValidEmail (jsTrim value) = true
      · simp [he, hv]
      · simp [he, hv, (showEmailError_requests _ _).1]
  refine ⟨?_, hsave, ?_⟩
  · rw [isValidEmail_parts]
    constructor
    · rintro ⟨a1, a2, a3, h, n1, n2, n3, c1, c2, c3⟩
      refine ⟨?_, a1, a2 ++ '.' :: a3, h, n1, ?_, ?_, a2.length, ?_, ?_, ?_⟩
      · intro c hc
        rw [h] at hc
        simp only [List.mem_append, List.mem_cons] at hc
        rcases hc with hc | rfl | hc | rfl | hc
        · exact ((emailAtom_iff c).1 (c1 c hc)).1
        · decide
        · exact ((emailAtom_iff c).1 (c2 c hc)).1
        · decide
        · exact ((emailAtom_iff c).1 (c3 c hc)).1
      · intro hmem
        exact ((emailAtom_iff _).1 (c1 _ hmem)).2 rfl
      · intro hmem
        simp only [List.mem_append, List.mem_cons] at hmem
        rcases hmem with hmem | hmem | hmem
        · exact ((emailAtom_iff _).1 (c2 _ hmem)).2 rfl
        · exact absurd hmem (by decide)
        · exact ((emailAtom_iff _).1 (c3 _ hmem)).2 rfl
      · exact List.length_pos.2 n2
      · have := List.length_pos.2 n3
        simp only [List.length_append, List.length_cons]
        omega
      · rw [List.get?_eq_getElem?, List.getElem?_append_right (Nat.le_refl _)]
        simp
    · rintro ⟨hws, a1, domain, h, n1, hat1, hat2, i, hi0, hi1, hi⟩
      have hlt : i < domain.length := by omega
      have hget : domain[i] = '.' := by
        rw [List.get?_eq_getElem?, List.getElem?_eq_getElem hlt] at hi
        exact Option.some.inj hi
      have hdom : domain = domain.take i ++ '.' :: domain.drop (i + 1) := by
        rw [← hget, List.getElem_cons_drop domain i hlt, List.take_append_drop]
      have hatom : ∀ c ∈ email.data, c ≠ '@' → emailAtom c = true := fun c hc hne =>
        (emailAtom_iff c).2 ⟨hws c hc, hne⟩
      refine ⟨a1, domain.take i, domain.drop (i + 1), ?_, n1, ?_, ?_, ?_, ?_, ?_⟩
      · rw [← hdom]; exact h
      · intro h0
        have := congrArg List.length h0
        simp only [List.length_take, List.length_nil] at this
        omega
      · intro h0
        have := congrArg List.length h0
        simp only [List.length_drop, List.length_nil] at this
        omega
      · intro c hc
        refine hatom c (by rw [h]; simp [hc]) ?_
        rintro rfl
        exact hat1 hc
      · intro c hc
        have hcd : c ∈ domain := List.mem_of_mem_take hc
        refine hatom c (by rw [h]; simp [hcd]) ?_
        rintro rfl
        exact hat2 hcd
      · intro c hc
        have hcd : c ∈ domain := List.mem_of_mem_drop hc
        refine hatom c (by rw [h]; simp [hcd]) ?_
        rintro rfl
        exact hat2 hcd
  · intro hbad
    unfold saveEmailClick
    by_cases he : jsTrim value = ""
    · simp [he, showEmailError_requests]
    · rcases hbad with hbad | hbad
      · exact absurd hbad he
      · simp [he, hbad, showEmailError_requests]

/-- C27: `profile.js` does not parse, so `isValidEmail` and the save handler
never run. On line 972 the `else` follows the block of the `else` of line
936, not the block of an `if` (the brace that closes `if (data.success) {` of
line 927 is missing), while the same shape in the cancel handler nests
correctly. The page therefore has no handler on the save button: a click with
any text changes nothing, and for the text "bad" no error message is shown,
where the handler as written would show "Введите корректный email адрес". -/
theorem saveEmail_validation_never_runs (s : EmailEditor) (value : String) :
    blocksParse [] false (saveHandlerBlocks.map Prod.snd) = false ∧
    blocksParse [] false ((saveHandlerBlocks.take 12).map Prod.snd) = true ∧
    saveHandlerBlocks.get? 12 = some (972, BlockToken.elseOpen) ∧
    blocksParse [] false (cancelHandlerBlocks.map Prod.snd) = true ∧
    profileScriptParses = false ∧
    saveButtonClick s value = s ∧
    (saveButtonClick {} "bad").errorText = none ∧
    (saveButtonClick {} "bad").requests = [] ∧
    isValidEmail "bad" = false ∧
    (saveEmailClick {} "bad").errorText = some "Введите корректный email адрес" := by
  refine ⟨by decide, by decide, by decide, by decide, by decide, ?_, by decide, by decide,
    by decide, by decide⟩
  have h : profileScriptParses = false := by decide
  simp [saveButtonClick, h]

/-! ## End time and minutes -/

theorem calculateEndTime_field (hs rest : List Char) (h d : Nat)
    (hfield : jsNumber hs = some h) (hsafe : h + d ≤ MAX_SAFE_INTEGER) :
    calculateEndTime (String.mk (hs ++ ':' :: rest)) d = some (padStart2 (h + d) ++ ":00") := by
  have hsplit := splitOnChar_append ':' hs rest (digitsValue_no_colon hs 0 h hfield)
  simp only [calculateEndTime, hsplit, List.map_cons, List.head?_cons, hfield, hsafe, if_true]

/-- C28: `calculateEndTime` discards the minutes of the start time. For a
start time whose hour field is a decimal numeral of value `h`, whatever
follows the colon, and a duration `d` with `h + d` at most
`MAX_SAFE_INTEGER`, the result is the padded decimal of `h + d` followed by
":00", the same as for the start time with minutes "00"; every result of
`calculateEndTime` ends in ":00"; and for "10:30" with one hour the result is
"11:00", not "11:30". -/
theorem calculateEndTime_discards_minutes (hs minutes : List Char) (h d : Nat)
    (hfield : jsNumber hs = some h) (hsafe : h + d ≤ MAX_SAFE_INTEGER) :
    calculateEndTime (String.mk (hs ++ ':' :: minutes)) d =
        some (padStart2 (h + d) ++ ":00") ∧
    calculateEndTime (String.mk (hs ++ ':' :: minutes)) d =
        calculateEndTime (String.mk (hs ++ ':' :: ['0', '0'])) d ∧
    (∀ (start : String) (hours : Nat) (r : String),
        calculateEndTime start hours = some r → ∃ hh : String, r = hh ++ ":00") ∧
    calculateEndTime "10:30" 1 = some "11:00" ∧
    calculateEndTime "10:30" 1 ≠ some "11:30" := by
  refine ⟨calculateEndTime_field hs minutes h d hfield hsafe, ?_, ?_, by rfl, by decide⟩
  · rw [calculateEndTime_field hs minutes h d hfield hsafe,
      calculateEndTime_field hs ['0', '0'] h d hfield hsafe]
  · intro start hours r hr
    unfold calculateEndTime at hr
    split at hr
    · dsimp only at hr
      split at hr
      · simp only [Option.some.injEq] at hr
        exact ⟨_, hr.symm⟩
      · cases hr
    · cases hr

/-- Witness of C28: the start time "10:30" with two hours. -/
theorem calculateEndTime_discards_minutes_witness :
    jsNumber ['1', '0'] = some 10 ∧ 10 + 2 ≤ MAX_SAFE_INTEGER ∧
    String.mk (['1', '0'] ++ ':' :: ['3', '0']) = "10:30" ∧
    padStart2 (10 + 2) ++ ":00" = "12:00" ∧
    calculateEndTime (String.mk (['1', '0'] ++ ':' :: ['3', '0'])) 2 =
      some (padStart2 (10 + 2) ++ ":00") :=
  ⟨by decide, by decide, by rfl, by rfl,
    (calculateEndTime_discards_minutes ['1', '0'] ['3', '0'] 10 2 (by decide) (by decide)).1⟩

/-! ## Buckets and hours outside the sections -/

theorem bucket_lengths (items : List SlotItem) :
    (morningItems items).length + (dayItems items).length + (eveningItems items).length =
      (items.filter SlotItem.inSections).length := by
  induction items with
  | nil => rfl
  | cons a l ih =>
    simp only [morningItems, dayItems, eveningItems, ge_iff_le, List.filter_cons] at ih ⊢
    by_cases h8 : 8 ≤ a.hour <;> by_cases h12 : a.hour < 12 <;> by_cases h12a : 12 ≤ a.hour <;>
      by_cases h17 : a.hour < 17 <;> by_cases h17a : 17 ≤ a.hour <;>
      by_cases h22 : a.hour < 22 <;>
      simp [SlotItem.inSections, h8, h12, h12a, h17, h17a, h22] <;> omega

theorem elements_bucketContent (p : Page) (el : SectionEl) (bucket : List SlotItem)
    (courtPrice : Nat) (courtName : String) :
    SectionEl.elements (some { el with content := bucketContent p bucket courtPrice courtName }) =
      bucket.map fun item => createTimeSlotElement p item courtPrice courtName := by
  cases bucket with
  | nil => simp [SectionEl.elements, bucketContent]
  | cons a l => simp [SectionEl.elements, bucketContent]

/-- C29: the three buckets of `renderTimeSlotsBySections` lose the items
outside the hours 8 to 21. An item whose hour is below 8 or at least 22 is in
none of the buckets; the lengths of the buckets add up to the number of items
with `8 ≤ hour < 22`, which is the number of all items exactly when every hour
lies in that range; each bucket keeps the order of the items; and on a page
with the three sections the slot elements shown after rendering a non-empty
list are the elements of the morning, day and evening buckets, one per item,
in this order. -/
theorem buckets_lose_hours_outside_8_22 (p : Page) (s : State) (items : List SlotItem)
    (courtPrice : Nat) (courtName : String) (m d e : SectionEl) (hne : items ≠ [])
    (hm : s.morningSlots = some m) (hd : s.daySlots = some d) (he : s.eveningSlots = some e) :
    (∀ item ∈ items, (item.hour < 8 ∨ 22 ≤ item.hour) →
      item ∉ morningItems items ∧ item ∉ dayItems items ∧ item ∉ eveningItems items) ∧
    (morningItems items).length + (dayItems items).length + (eveningItems items).length =
      (items.filter SlotItem.inSections).length ∧
    ((morningItems items).length + (dayItems items).length + (eveningItems items).length =
        items.length ↔ ∀ item ∈ items, 8 ≤ item.hour ∧ item.hour < 22) ∧
    (morningItems items).Sublist items ∧ (dayItems items).Sublist items ∧
    (eveningItems items).Sublist items ∧
    (renderTimeSlotsBySections p s (some items) courtPrice courtName).slotElements =
      (morningItems items ++ dayItems items ++ eveningItems items).map
        (fun item => createTimeSlotElement p item courtPrice courtName) ∧
    (renderTimeSlotsBySections p s (some items) courtPrice courtName).slotElements.length =
      (items.filter SlotItem.inSections).length := by
  have hshown : (renderTimeSlotsBySections p s (some items) courtPrice courtName).slotElements =
      (morningItems items ++ dayItems items ++ eveningItems items).map
        (fun item => createTimeSlotElement p item courtPrice courtName) := by
    obtain ⟨h1, h2, h3⟩ :=
      renderTimeSlotsBySections_sections p s items courtPrice courtName m d e hne hm hd he
    simp only [State.slotElements, h1, h2, h3, elements_bucketContent, List.map_append]
  refine ⟨?_, bucket_lengths items, ?_, List.filter_sublist _, List.filter_sublist _,
    List.filter_sublist _, hshown, ?_⟩
  · intro item _ hout
    simp only [morningItems, dayItems, eveningItems, List.mem_filter, Bool.and_eq_true,
      decide_eq_true_eq, not_and]
    refine ⟨?_, ?_, ?_⟩ <;> intro _ <;> omega
  · rw [bucket_lengths, List.filter_length_eq_length]
    constructor
    · intro h item hmem
      simpa [SlotItem.inSections] using h item hmem
    · intro h item hmem
      simpa [SlotItem.inSections] using h item hmem
  · rw [hshown, List.length_map, List.length_append, List.length_append, bucket_lengths]

/-- Witness of C29: the section-based page rendering items at 7, 9, 14, 22 and
18 o'clock shows three slot elements, at 9, 14 and 18 o'clock. -/
theorem buckets_lose_hours_outside_8_22_witness :
    exampleEdgeItems.length = 5 ∧
    (exampleEdgeItems.filter SlotItem.inSections).length = 3 ∧
    (renderTimeSlotsBySections exampleNewPage exampleNewLoading (some exampleEdgeItems) 1000
        "Корт A").slotElements =
      [.free true "09:00" "10:00" 9 1000 "Корт A" false,
       .free true "14:00" "15:00" 14 1000 "Корт A" false,
       .free true "18:00" "19:00" 18 1000 "Корт A" false] ∧
    (renderTimeSlotsBySections exampleNewPage exampleNewLoading (some exampleEdgeItems) 1000
        "Корт A").slotElements.length =
      (exampleEdgeItems.filter SlotItem.inSections).length :=
  ⟨by decide, by decide, by decide,
    (buckets_lose_hours_outside_8_22 exampleNewPage exampleNewLoading exampleEdgeItems 1000
      "Корт A" ⟨true, .loading⟩ ⟨true, .loading⟩ ⟨true, .loading⟩ (by decide) (by decide)
      (by decide) (by decide)).2.2.2.2.2.2.2⟩

end PadelBooking
